import Mathlib

/-!
YYYP_Car: steering controller and range pipeline.

A shallow embedding of `src/PIDController.cpp` and of the range filter and the
edge search of `src/ObjectDetector.cpp`.

Conventions of the embedding:

* C++ `float` values are rationals (`ℚ`); infinities and NaN are not
  represented. Rounding to `float` (`toFloat32`) is represented where it
  decides a branch or an integer result: in the two tests of `deltaTime` in
  `PIDController::compute` and in the base speed of `lineFollowControl`.
  Everywhere else `float` arithmetic is exact.
* `unsigned long` is the 32-bit counter of the ESP32 target; a difference of
  two such values is taken modulo `2 ^ 32`.
* `millis()` is an explicit argument `now` of the embedded function.
* function-local `static` variables are explicit fields of the state.
* log output is dropped.
-/

set_option autoImplicit false

/-! ## Arduino core helpers -/

/-- Arduino core `constrain(amt, low, high)`:
`((amt)<(low)?(low):((amt)>(high)?(high):(amt)))`. -/
def constrain (amt low high : ℚ) : ℚ :=
  if amt < low then low else if amt > high then high else amt

/-- Width of `unsigned long` on the target. -/
def ulongMod : Nat := 2 ^ 32

/-! ## Rounding to `float` -/

/-- Rounding to the nearest integer, ties to the even one. -/
def roundHalfEven (m : ℚ) : Int :=
  let f := Rat.floor m
  let r := m - (f : ℚ)
  if r < 1 / 2 then f else if 1 / 2 < r then f + 1 else if f % 2 = 0 then f else f + 1

/-- The value of type `float` (IEEE 754 binary32, 24 significant bits)
nearest to `q`, ties to even: `q` is scaled by the unit in the last place of
its binade, rounded to an integer and scaled back. The exponent range of
`float` is not limited (no overflow, no subnormal values). -/
def toFloat32 (q : ℚ) : ℚ :=
  if q = 0 then 0
  else
    let ulp : ℚ := 2 ^ (Int.log 2 |q| - 23)
    (roundHalfEven (q / ulp) : ℚ) * ulp

/-! ## PIDController -/

/-- Private fields of `class PIDController` (`PIDController.h`). -/
structure PIDController where
  kp : ℚ
  ki : ℚ
  kd : ℚ
  setpoint : ℚ
  lastError : ℚ
  integral : ℚ
  integralRange : ℚ
  outputMin : ℚ
  outputMax : ℚ
  lastTime : Nat
  pTerm : ℚ
  iTerm : ℚ
  dTerm : ℚ
  deriving DecidableEq

/-- Constructor `PIDController::PIDController(kp, ki, kd)`. -/
def PIDController.construct (kp ki kd : ℚ) : PIDController :=
  { kp := kp, ki := ki, kd := kd
    setpoint := 0
    lastError := 0
    integral := 0
    outputMin := -255
    outputMax := 255
    lastTime := 0
    integralRange := 10000
    pTerm := 0, iTerm := 0, dTerm := 0 }

/-- Method `PIDController::setGains`. -/
def PIDController.setGains (s : PIDController) (kp ki kd : ℚ) : PIDController :=
  { s with kp := kp, ki := ki, kd := kd }

/-- Method `PIDController::setOutputLimits`. -/
def PIDController.setOutputLimits (s : PIDController) (min max : ℚ) : PIDController :=
  { s with outputMin := min, outputMax := max }

/-- Method `PIDController::setSetpoint`. -/
def PIDController.setSetpoint (s : PIDController) (setpoint : ℚ) : PIDController :=
  { s with setpoint := setpoint }

/-- Method `PIDController::setIntegralRange`. -/
def PIDController.setIntegralRange (s : PIDController) (range : ℚ) : PIDController :=
  { s with integralRange := range }

/-- Method `PIDController::reset`. -/
def PIDController.reset (s : PIDController) : PIDController :=
  { s with lastError := 0, integral := 0, lastTime := 0, pTerm := 0, iTerm := 0, dTerm := 0 }

/-- The unsigned difference `currentTime - lastTime` of `compute`, in ms. -/
def PIDController.elapsedMs (s : PIDController) (now : Nat) : Nat :=
  (now % ulongMod + ulongMod - s.lastTime) % ulongMod

/-- Local `deltaTime` of `compute`: `(currentTime - lastTime) / 1000.0`, as
the exact quotient used in the arithmetic of `compute`. -/
def PIDController.deltaTime (s : PIDController) (now : Nat) : ℚ :=
  (s.elapsedMs now : ℚ) / 1000

/-- The integral accumulator after the `if (ki > 0) ... else ...` block of
`compute`, lines 65-83, for the given `error` and `deltaTime`. -/
def PIDController.integralStep (s : PIDController) (error deltaTime : ℚ) : ℚ :=
  if s.ki > 0 then
    let integral1 :=
      if |error| < s.integralRange then
        let tempIntegral := s.integral + error * deltaTime
        let tempOutput := s.kp * error + s.ki * tempIntegral
        if tempOutput ≥ s.outputMin ∧ tempOutput ≤ s.outputMax then tempIntegral
        else s.integral
      else 0
    constrain integral1 (-500) 500
  else 0

/-- Method `PIDController::compute(input)`, with `millis()` passed as `now`;
returns the new controller and the returned output. The variable `deltaTime`
has type `float`: the two tests `deltaTime > 1.0` and `deltaTime < 0.01` read
the quotient rounded to `float`. The `float` nearest to 10/1000 is
0.0099999998, so a call exactly 10 ms after the last sample is still below
0.01. -/
def PIDController.compute (s : PIDController) (now : Nat) (input : ℚ) :
    PIDController × ℚ :=
  let currentTime := now % ulongMod
  let deltaTime := s.deltaTime now
  if s.lastTime = 0 ∨ toFloat32 deltaTime > 1 then
    let lastError := s.setpoint - input
    let pTerm := s.kp * lastError
    ({ s with lastTime := currentTime, lastError := lastError, integral := 0,
              pTerm := pTerm, iTerm := 0, dTerm := 0 },
     constrain pTerm s.outputMin s.outputMax)
  else if toFloat32 deltaTime < 1 / 100 then
    (s, constrain (s.pTerm + s.iTerm + s.dTerm) s.outputMin s.outputMax)
  else
    let error := s.setpoint - input
    let pTerm := s.kp * error
    let integral := s.integralStep error deltaTime
    let iTerm := if s.ki > 0 then s.ki * integral else 0
    let derivative := -(input - (s.setpoint - s.lastError)) / deltaTime
    let dTerm := s.kd * derivative
    let output := constrain (pTerm + iTerm + dTerm) s.outputMin s.outputMax
    ({ s with pTerm := pTerm, integral := integral, iTerm := iTerm, dTerm := dTerm,
              lastError := error, lastTime := currentTime },
     output)

/-- The states after each call of a sequence of `compute` calls, each call
given as `(now, input)`. -/
def PIDController.computeStates (s : PIDController) : List (Nat × ℚ) → List PIDController
  | [] => []
  | c :: cs => (s.compute c.1 c.2).1 :: PIDController.computeStates (s.compute c.1 c.2).1 cs

/-- A call of `compute` takes the normal path: the controller has a previous
sample and that sample is more than 10 ms and at most 1 s old. -/
def PIDController.normalPath (s : PIDController) (now : Nat) : Prop :=
  s.lastTime ≠ 0 ∧ 10 < s.elapsedMs now ∧ s.elapsedMs now ≤ 1000

instance (s : PIDController) (now : Nat) : Decidable (s.normalPath now) := by
  unfold PIDController.normalPath; infer_instance

/-- A freshly constructed controller configured through its setters. -/
def PIDController.configured (kp ki kd setpoint min max range : ℚ) : PIDController :=
  (((PIDController.construct kp ki kd).setSetpoint setpoint).setOutputLimits min max).setIntegralRange
    range

/-- The sum `tempOutput` that `compute` tests before integrating: P and I
terms only. -/
def PIDController.tempOutput (s : PIDController) (now : Nat) (input : ℚ) : ℚ :=
  s.kp * (s.setpoint - input)
    + s.ki * (s.integral + (s.setpoint - input) * s.deltaTime now)

/-- A controller with `kp = 0`, `ki = 1`, `kd = 100` after a first sample
`compute(0)` at `millis() = 1000`. -/
def PIDController.windupExample : PIDController :=
  ((PIDController.configured 0 1 100 0 (-255) 255 10000).compute 1000 0).1

/-- A controller with `kp = 0`, `ki = 0`, `kd = 1`, setpoint 0, after a first
sample `compute(5)` at `millis() = 1000`, then `setSetpoint(10)`. -/
def PIDController.setpointStepExample : PIDController :=
  ((PIDController.configured 0 0 1 0 (-255) 255 10000).compute 1000 5).1.setSetpoint 10

/-! ## ObjectDetector: range filter -/

/-- Constant `MAX_FILTER_SIZE` of `ObjectDetector.h`. -/
def MAX_FILTER_SIZE : Nat := 20

/-- The fields of `ObjectDetector` used by `getFilteredDistance`, together
with its two function-local statics `lastRaw` and `outlierCount`.
`lastRaw = none` stands for the static not yet initialised (it is initialised
with the raw value of the first call that reaches its declaration).
Arrays are functions of the index; `filterIndex`, `filterCount` and
`outlierCount` only ever hold non-negative values and are natural numbers. -/
structure RangeFilter where
  filterSize : Int
  filterBuffer : Nat → Nat
  filterIndex : Nat
  filterCount : Nat
  lastRaw : Option Nat
  outlierCount : Nat

/-- The ring step `idx--; if (idx < 0) idx = MAX_FILTER_SIZE - 1;`. -/
def prevIdx (idx : Nat) : Nat :=
  if idx = 0 then MAX_FILTER_SIZE - 1 else idx - 1

/-- The copy loop of `getFilteredDistance` (lines 476-480): the `n` newest
window entries, newest first, read backwards from `idx`. -/
def copyWindow (filterBuffer : Nat → Nat) (idx : Nat) : Nat → List Nat
  | 0 => []
  | n + 1 => filterBuffer idx :: copyWindow filterBuffer (prevIdx idx) n

/-- Body of the inner bubble-sort loop: swap `temp[j]` and `temp[j+1]` when
out of order. -/
def swapStep (temp : List Nat) (j : Nat) : List Nat :=
  if temp.getD j 0 > temp.getD (j + 1) 0 then
    (temp.set j (temp.getD (j + 1) 0)).set (j + 1) (temp.getD j 0)
  else temp

/-- Inner loop `for (j = ...; j < count - i - 1; j++)`, with the number of
iterations still to run as last argument. -/
def bubbleInner (temp : List Nat) (j : Nat) : Nat → List Nat
  | 0 => temp
  | n + 1 => bubbleInner (swapStep temp j) (j + 1) n

/-- Outer loop `for (i = ...; i < count - 1; i++)`, with the number of
iterations still to run as last argument. -/
def bubbleOuter (temp : List Nat) (count i : Nat) : Nat → List Nat
  | 0 => temp
  | n + 1 => bubbleOuter (bubbleInner temp 0 (count - i - 1)) count (i + 1) n

/-- The bubble sort of `getFilteredDistance` (lines 483-491). -/
def bubbleSort (temp : List Nat) (count : Nat) : List Nat :=
  bubbleOuter temp count 0 (count - 1)

/-- The median read-out of `getFilteredDistance` (lines 494-498). -/
def medianOf (temp : List Nat) (count : Nat) : Nat :=
  if count % 2 = 1 then temp.getD (count / 2) 0
  else (temp.getD (count / 2 - 1) 0 + temp.getD (count / 2) 0) / 2

/-- The outlier guard of `getFilteredDistance` (lines 446-457): the value
taken for the window and the new `outlierCount`. -/
def outlierGuard (lastRaw outlierCount rawDistance : Nat) : Nat × Nat :=
  if |(rawDistance : Int) - (lastRaw : Int)| > 500 ∧ lastRaw ≠ 0 then
    if outlierCount + 1 < 2 then (lastRaw, outlierCount + 1)
    else (rawDistance, 0)
  else (rawDistance, 0)

/-- Method `ObjectDetector::getFilteredDistance(rawDistance)`: the new filter
state and the returned value. -/
def RangeFilter.getFilteredDistance (s : RangeFilter) (rawDistance : Nat) :
    RangeFilter × Nat :=
  if s.filterSize ≤ 1 then (s, rawDistance)
  else
    let lastRaw := s.lastRaw.getD rawDistance
    let guard := outlierGuard lastRaw s.outlierCount rawDistance
    let rawDistance := guard.1
    let filterBuffer := Function.update s.filterBuffer s.filterIndex rawDistance
    let filterIndex := (s.filterIndex + 1) % MAX_FILTER_SIZE
    let filterCount := if s.filterCount < MAX_FILTER_SIZE then s.filterCount + 1 else s.filterCount
    let s1 : RangeFilter :=
      { s with filterBuffer := filterBuffer, filterIndex := filterIndex,
               filterCount := filterCount, lastRaw := some rawDistance,
               outlierCount := guard.2 }
    let currentSize : Int := min (min (filterCount : Int) s.filterSize) 5
    if currentSize ≤ 1 then (s1, rawDistance)
    else
      let count := currentSize.toNat
      let temp := bubbleSort (copyWindow filterBuffer (prevIdx filterIndex) count) count
      (s1, medianOf temp count)

/-- The filter state after `n` consecutive calls of `getFilteredDistance`
with the same raw value `c`. -/
def RangeFilter.feedConst (s : RangeFilter) (c : Nat) : Nat → RangeFilter
  | 0 => s
  | n + 1 => ((RangeFilter.feedConst s c n).getFilteredDistance c).1

/-- The three newest window entries behind `filterIndex` all hold `c`. -/
def RecentThree (c : Nat) (buf : Nat → Nat) (i : Nat) : Prop :=
  buf (prevIdx i) = c ∧ buf (prevIdx (prevIdx i)) = c ∧
    buf (prevIdx (prevIdx (prevIdx i))) = c

/-- The outlier guard will pass the raw value `c` on the next call: either
the remembered last value is `c`, or one outlier has already been counted. -/
def RangeFilter.Accepts (s : RangeFilter) (c : Nat) : Prop :=
  s.lastRaw = some c ∨ 1 ≤ s.outlierCount

/-- The filter has taken `c` at least three times in a row: valid ring index,
remembered last value `c`, three newest entries `c`, at least four entries. -/
def RangeFilter.Settled (s : RangeFilter) (c : Nat) : Prop :=
  s.filterIndex < 20 ∧ s.lastRaw = some c ∧
    RecentThree c s.filterBuffer s.filterIndex ∧ 4 ≤ s.filterCount

/-- A filter state with a stale window and a remembered last value far from
the next readings. -/
def RangeFilter.staleExample : RangeFilter :=
  { filterSize := 5, filterBuffer := fun i => 100 * i, filterIndex := 18, filterCount := 3,
    lastRaw := some 1000, outlierCount := 0 }

/-! ## ObjectDetector: history ring and edge search -/

/-- Constant `HISTORY_SIZE` of `ObjectDetector.h`. -/
def HISTORY_SIZE : Nat := 50

/-- Record `struct HistorySample`: `laserDist` is a `uint16_t`, `globalDist`
a `float`. -/
structure HistorySample where
  timestamp : Nat
  laserDist : Nat
  globalDist : ℚ
  deriving DecidableEq

/-- The fields `historyBuffer` and `historyIndex` of `ObjectDetector`. -/
structure History where
  historyBuffer : Nat → HistorySample
  historyIndex : Nat

/-- The history part of `ObjectDetector::reset`: `historyIndex = 0` and the
buffer zeroed by `memset`. -/
def History.reset : History :=
  { historyBuffer := fun _ => { timestamp := 0, laserDist := 0, globalDist := 0 },
    historyIndex := 0 }

/-- Method `ObjectDetector::pushHistory(dist, globalDist)`, with the value of
`millis()` passed as `now`. -/
def History.pushHistory (h : History) (now dist : Nat) (globalDist : ℚ) : History :=
  { historyBuffer := Function.update h.historyBuffer h.historyIndex
      { timestamp := now, laserDist := dist, globalDist := globalDist },
    historyIndex := (h.historyIndex + 1) % HISTORY_SIZE }

/-- The history written by pushing the given samples, oldest first, after a
`reset`. -/
def History.ofSamples (samples : List HistorySample) : History :=
  samples.foldl (fun h s => h.pushHistory s.timestamp s.laserDist s.globalDist) History.reset

/-- The ring step `idx--; if (idx < 0) idx = HISTORY_SIZE - 1;` of
`findPreciseCrossingPoint`. -/
def histPrev (idx : Nat) : Nat :=
  if idx = 0 then HISTORY_SIZE - 1 else idx - 1

/-- The flag `found` of `findPreciseCrossingPoint` (lines 383-390). -/
def isCrossing (entering : Bool) (threshold : Nat) (prev curr : HistorySample) : Bool :=
  if entering then decide (prev.laserDist ≥ threshold ∧ curr.laserDist < threshold)
  else decide (prev.laserDist < threshold ∧ curr.laserDist ≥ threshold)

/-- The value returned from the `if (found)` block of
`findPreciseCrossingPoint` (lines 392-429) for the pair `prev`, `curr`. -/
def crossingValue (prev curr : HistorySample) (threshold : Nat) : ℚ :=
  let distDiff : ℚ := (curr.laserDist : ℚ) - (prev.laserDist : ℚ)
  let posDiff : ℚ := curr.globalDist - prev.globalDist
  if |distDiff| < 5 then (prev.globalDist + curr.globalDist) / 2
  else if |posDiff| > 50 ∨ |posDiff| < 1 / 2 then prev.globalDist
  else
    let timeDiff := (curr.timestamp + ulongMod - prev.timestamp) % ulongMod
    if timeDiff > 200 then curr.globalDist
    else
      let p := constrain (((threshold : ℚ) - (prev.laserDist : ℚ)) / distDiff) 0 1
      prev.globalDist + posDiff * p

/-- The search loop of `findPreciseCrossingPoint` from ring position `idx`,
with the number of iterations still allowed as last argument; `-1` when the
loop ends or breaks without a crossing. -/
def searchLoop (h : History) (entering : Bool) (threshold : Nat) (idx : Nat) : Nat → ℚ
  | 0 => -1
  | n + 1 =>
    let curr := h.historyBuffer idx
    let prev := h.historyBuffer (histPrev idx)
    if curr.timestamp = 0 ∨ prev.timestamp = 0 then -1
    else if isCrossing entering threshold prev curr then crossingValue prev curr threshold
    else searchLoop h entering threshold (histPrev idx) n

/-- Method `ObjectDetector::findPreciseCrossingPoint(entering, threshold)`. -/
def History.findPreciseCrossingPoint (h : History) (entering : Bool) (threshold : Nat) : ℚ :=
  let idx := histPrev h.historyIndex
  let searchLimit := min 20 (HISTORY_SIZE - 1)
  searchLoop h entering threshold idx searchLimit

/-- The pair `(prev, curr)` at which the search loop of
`findPreciseCrossingPoint` stops with `found`, if it does. -/
def crossingPair (h : History) (entering : Bool) (threshold : Nat) (idx : Nat) :
    Nat → Option (HistorySample × HistorySample)
  | 0 => none
  | n + 1 =>
    let curr := h.historyBuffer idx
    let prev := h.historyBuffer (histPrev idx)
    if curr.timestamp = 0 ∨ prev.timestamp = 0 then none
    else if isCrossing entering threshold prev curr then some (prev, curr)
    else crossingPair h entering threshold (histPrev idx) n

/-- The pair found by `findPreciseCrossingPoint(entering, threshold)`. -/
def History.foundPair (h : History) (entering : Bool) (threshold : Nat) :
    Option (HistorySample × HistorySample) :=
  crossingPair h entering threshold (histPrev h.historyIndex) (min 20 (HISTORY_SIZE - 1))

/-- A synthetic approach: range falling by 100 per sample from 900 to 500
while travel advances by 10 per sample from 0 to 40, 20 ms apart. -/
def History.rampSamples : List HistorySample :=
  [ { timestamp := 1000, laserDist := 900, globalDist := 0 },
    { timestamp := 1020, laserDist := 800, globalDist := 10 },
    { timestamp := 1040, laserDist := 700, globalDist := 20 },
    { timestamp := 1060, laserDist := 600, globalDist := 30 },
    { timestamp := 1080, laserDist := 500, globalDist := 40 } ]

/-! ## ObjectDetector: detection state machine

All `millis()` calls of one `update` read the same value, the field `now` of
the tick. The statics `lastWarn` and `lastDebug` of `update` only throttle log
output and are dropped with it. -/

/-- The unsigned difference `a - b` of two `unsigned long` values. -/
def ulongSub (a b : Nat) : Nat :=
  (a % ulongMod + ulongMod - b % ulongMod) % ulongMod

/-- Enumeration `enum DetectionState` of `ObjectDetector.h`. -/
inductive DetectionState where
  | DETECT_IDLE
  | DETECT_WAITING
  | DETECT_IN_OBJECT
  | DETECT_COMPLETED
  | DETECT_FAILED
  deriving DecidableEq, Repr

/-- Record `struct ObjectMeasurement` of `ObjectDetector.h`. -/
structure ObjectMeasurement where
  length : ℚ
  avgDistance : ℚ
  minDistance : ℚ
  startPos : ℚ
  endPos : ℚ
  valid : Bool
  timestamp : Nat
  duration : Nat
  deriving DecidableEq

/-- Constant `MAX_SAMPLES` of `ObjectDetector.h`. -/
def MAX_SAMPLES : Nat := 100

/-- The data members of `class ObjectDetector` (the sensor, motor and web
server pointers apart), with the statics `lastFilteredDist`, `jumpCount` of
`update`; the filter members and the statics of `getFilteredDistance` are the
component `filter`, the history ring is the component `history`.
`lastFilteredDist = none` stands for the static not yet initialised. -/
structure ObjectDetector where
  state : DetectionState
  result : ObjectMeasurement
  baselineDistance : Nat
  detectThreshold : Nat
  stableCountThreshold : Int
  timeoutMs : Nat
  filter : RangeFilter
  lengthScale : ℚ
  lengthOffset : ℚ
  deviationCorrectionRatio : ℚ
  stableCount : Int
  startEncoderPos : ℚ
  endEncoderPos : ℚ
  accumulatedDistance : ℚ
  lastEncoderPos : ℚ
  startTime : Nat
  objectEnterTime : Nat
  distanceSamples : Nat → Nat
  sampleCount : Nat
  history : History
  globalPathDistance : ℚ
  lastGlobalEncoderPos : ℚ
  lastLeftDist : ℚ
  lastRightDist : ℚ
  serpentineCorrection : ℚ
  enableSerpentineCorrection : Bool
  lastFilteredDist : Option Nat
  jumpCount : Int

/-- What one call of `update` reads from its collaborators: `millis()`,
`sensors->isLaserReady()`, `sensors->getLaserDistance()`,
`motor->getLeftDistance()` and `motor->getRightDistance()`. -/
structure DetectorTick where
  now : Nat
  laserReady : Bool
  laserDistance : Nat
  leftDistance : ℚ
  rightDistance : ℚ

/-- Method `ObjectDetector::reset`. -/
def ObjectDetector.reset (d : ObjectDetector) : ObjectDetector :=
  { d with
    state := DetectionState.DETECT_IDLE
    stableCount := 0
    startEncoderPos := 0
    endEncoderPos := 0
    accumulatedDistance := 0
    lastEncoderPos := 0
    startTime := 0
    sampleCount := 0
    globalPathDistance := 0
    lastGlobalEncoderPos := 0
    history := History.reset
    lastLeftDist := 0
    lastRightDist := 0
    serpentineCorrection := 0
    enableSerpentineCorrection := false
    filter := { d.filter with filterIndex := 0, filterCount := 0, filterBuffer := fun _ => 0 }
    result := { d.result with length := 0, avgDistance := 0, minDistance := 0, startPos := 0,
                              endPos := 0, valid := false, timestamp := 0 } }

/-- Constructor `ObjectDetector::ObjectDetector`: the members it does not
assign (`baselineDistance`, `detectThreshold`, `objectEnterTime`,
`result.duration`, `distanceSamples`) are taken as 0. -/
def ObjectDetector.construct : ObjectDetector :=
  ObjectDetector.reset
    { state := DetectionState.DETECT_IDLE
      result := { length := 0, avgDistance := 0, minDistance := 0, startPos := 0, endPos := 0,
                  valid := false, timestamp := 0, duration := 0 }
      baselineDistance := 0
      detectThreshold := 0
      stableCountThreshold := 5
      timeoutMs := 15000
      filter := { filterSize := 5, filterBuffer := fun _ => 0, filterIndex := 0,
                  filterCount := 0, lastRaw := none, outlierCount := 0 }
      lengthScale := 1
      lengthOffset := 0
      deviationCorrectionRatio := 0
      stableCount := 0
      startEncoderPos := 0
      endEncoderPos := 0
      accumulatedDistance := 0
      lastEncoderPos := 0
      startTime := 0
      objectEnterTime := 0
      distanceSamples := fun _ => 0
      sampleCount := 0
      history := History.reset
      globalPathDistance := 0
      lastGlobalEncoderPos := 0
      lastLeftDist := 0
      lastRightDist := 0
      serpentineCorrection := 0
      enableSerpentineCorrection := false
      lastFilteredDist := none
      jumpCount := 0 }

/-- Method `ObjectDetector::startDetection(baselineDistance, threshold)`, with
`millis()` and the two motor distances it reads passed as arguments. -/
def ObjectDetector.startDetection (d : ObjectDetector) (now : Nat)
    (leftDistance rightDistance : ℚ) (_baselineDistance threshold : Nat) : ObjectDetector :=
  let d1 := d.reset
  { d1 with
    baselineDistance := 0
    detectThreshold := threshold
    stableCountThreshold := if d1.stableCountThreshold < 5 then 5 else d1.stableCountThreshold
    state := DetectionState.DETECT_WAITING
    startTime := now
    lastLeftDist := leftDistance
    lastRightDist := rightDistance
    serpentineCorrection := 0
    enableSerpentineCorrection := false }

/-- Setter `setStableCount`. -/
def ObjectDetector.setStableCount (d : ObjectDetector) (count : Int) : ObjectDetector :=
  { d with stableCountThreshold := count }

/-- Setter `setTimeout`. -/
def ObjectDetector.setTimeout (d : ObjectDetector) (ms : Nat) : ObjectDetector :=
  { d with timeoutMs := ms }

/-- Setter `setFilterSize`. -/
def ObjectDetector.setFilterSize (d : ObjectDetector) (size : Int) : ObjectDetector :=
  { d with filter := { d.filter with filterSize := size } }

/-- Setter `setCorrection`. -/
def ObjectDetector.setCorrection (d : ObjectDetector) (scale offset : ℚ) : ObjectDetector :=
  { d with lengthScale := scale, lengthOffset := offset }

/-- Method `ObjectDetector::addDistanceSample`. -/
def ObjectDetector.addDistanceSample (d : ObjectDetector) (distance : Nat) : ObjectDetector :=
  if d.sampleCount < MAX_SAMPLES then
    { d with distanceSamples := Function.update d.distanceSamples d.sampleCount distance,
             sampleCount := d.sampleCount + 1 }
  else d

/-- Method `ObjectDetector::calculateMedianDistance`. -/
def ObjectDetector.calculateMedianDistance (d : ObjectDetector) : ℚ :=
  if d.sampleCount = 0 then 0
  else
    let sortedSamples :=
      bubbleSort ((List.range d.sampleCount).map d.distanceSamples) d.sampleCount
    if d.sampleCount % 2 = 0 then
      ((sortedSamples.getD (d.sampleCount / 2 - 1) 0 + sortedSamples.getD (d.sampleCount / 2) 0
          : Nat) : ℚ) / 2
    else (sortedSamples.getD (d.sampleCount / 2) 0 : ℚ)

/-- Method `ObjectDetector::calculateAverageDistance`; the sum is a
`uint32_t`. -/
def ObjectDetector.calculateAverageDistance (d : ObjectDetector) : ℚ :=
  if d.sampleCount = 0 then 0
  else
    ((((List.range d.sampleCount).map d.distanceSamples).sum % ulongMod : Nat) : ℚ)
      / (d.sampleCount : ℚ)

/-- Method `ObjectDetector::stopDetection`, with the two motor distances read
by `getAverageEncoderDistance` and `millis()` passed as arguments. -/
def ObjectDetector.stopDetection (d : ObjectDetector) (now : Nat)
    (leftDistance rightDistance : ℚ) : ObjectDetector :=
  if d.state = DetectionState.DETECT_IN_OBJECT then
    let endEncoderPos := (leftDistance + rightDistance) / 2
    let rawLength :=
      if d.accumulatedDistance > 0 then d.accumulatedDistance
      else endEncoderPos - d.startEncoderPos
    let length := rawLength * d.lengthScale + d.lengthOffset
    let avgDistance := if d.sampleCount > 0 then d.calculateAverageDistance else d.result.avgDistance
    let minDistance := if d.sampleCount > 0 then d.calculateMedianDistance else d.result.minDistance
    { d with
      endEncoderPos := endEncoderPos
      result := { d.result with endPos := endEncoderPos, length := length,
                                avgDistance := avgDistance, minDistance := minDistance,
                                valid := decide (length > 10 ∧ length < 1000),
                                timestamp := now }
      state := DetectionState.DETECT_COMPLETED }
  else { d with state := DetectionState.DETECT_IDLE }

/-- The continuity check of `update` (lines 174-189): the filtered distance
used for the tick, the new `lastFilteredDist` and the new `jumpCount`. -/
def jumpGuard (lastFilteredDist : Nat) (jumpCount : Int) (filteredDistance : Nat) :
    Nat × Nat × Int :=
  if |(filteredDistance : Int) - (lastFilteredDist : Int)| > 200 then
    if jumpCount + 1 < 3 then (lastFilteredDist, lastFilteredDist, jumpCount + 1)
    else (filteredDistance, filteredDistance, 0)
  else (filteredDistance, filteredDistance, 0)

/-- The sensing part of `update` (lines 161-196): invalid readings mapped to
2000, median filter, continuity check, travel refresh and history push.
Returns the detector and the filtered distance of the tick. -/
def ObjectDetector.sense (d : ObjectDetector) (t : DetectorTick) : ObjectDetector × Nat :=
  let rawDistance := t.laserDistance
  let processedDistance := if rawDistance > 2000 ∨ rawDistance < 10 then 2000 else rawDistance
  let f := d.filter.getFilteredDistance processedDistance
  let g := jumpGuard (d.lastFilteredDist.getD f.2) d.jumpCount f.2
  let filteredDistance := g.1
  let globalPathDistance := (t.leftDistance + t.rightDistance) / 2
  ({ d with
     filter := f.1
     lastFilteredDist := some g.2.1
     jumpCount := g.2.2
     globalPathDistance := globalPathDistance
     history := d.history.pushHistory t.now filteredDistance globalPathDistance },
   filteredDistance)

/-- The start position taken at entry confirmation (lines 229-238). -/
def ObjectDetector.entryStartPos (d : ObjectDetector) : ℚ :=
  let preciseStart := d.history.findPreciseCrossingPoint true d.detectThreshold
  if preciseStart ≥ 0 then preciseStart
  else if d.globalPathDistance - 10 < 0 then 0 else d.globalPathDistance - 10

/-- The end position taken at exit confirmation (lines 274-283). -/
def ObjectDetector.exitEndPos (d : ObjectDetector) : ℚ :=
  let preciseEnd := d.history.findPreciseCrossingPoint false d.detectThreshold
  if preciseEnd ≥ 0 then preciseEnd
  else if d.globalPathDistance - 10 < d.startEncoderPos then d.globalPathDistance
  else d.globalPathDistance - 10

/-- The `case DETECT_WAITING` block of `update` (lines 214-255). -/
def ObjectDetector.waitingStep (d : ObjectDetector) (now : Nat) (inRange : Bool) :
    ObjectDetector :=
  if inRange then
    let stableCount := d.stableCount + 1
    if stableCount ≥ d.stableCountThreshold then
      let startEncoderPos := d.entryStartPos
      { d with
        state := DetectionState.DETECT_IN_OBJECT
        objectEnterTime := now
        startEncoderPos := startEncoderPos
        lastEncoderPos := startEncoderPos
        accumulatedDistance := 0
        result := { d.result with startPos := startEncoderPos }
        sampleCount := 0
        stableCount := 0 }
    else { d with stableCount := stableCount }
  else { d with stableCount := 0 }

/-- The `case DETECT_IN_OBJECT` block of `update` (lines 257-345). -/
def ObjectDetector.inObjectStep (d : ObjectDetector) (now filteredDistance : Nat)
    (inRange : Bool) : ObjectDetector :=
  if inRange then
    { d.addDistanceSample filteredDistance with stableCount := 0 }
  else
    let stableCount := d.stableCount + 1
    if stableCount ≥ d.stableCountThreshold then
      let endEncoderPos := d.exitEndPos
      let rawLength0 := endEncoderPos - d.startEncoderPos
      let rawLength := if rawLength0 < 0 then 0 else rawLength0
      let length0 := rawLength * d.lengthScale + d.lengthOffset
      let length1 := if length0 < 500 then 500 else length0
      let length2 := if length1 > 1000 then 1000 else length1
      let avgDistance :=
        if d.sampleCount > 5 then d.calculateAverageDistance else (filteredDistance : ℚ)
      let minDistance :=
        if d.sampleCount > 5 then d.calculateMedianDistance else (filteredDistance : ℚ)
      { d with
        stableCount := stableCount
        endEncoderPos := endEncoderPos
        result := { d.result with
                    endPos := endEncoderPos
                    length := length2
                    duration := ulongSub now d.objectEnterTime
                    avgDistance := avgDistance
                    minDistance := minDistance
                    valid := decide (rawLength > 10 ∧ rawLength < 1200 ∧ d.sampleCount > 5)
                    timestamp := now }
        state := DetectionState.DETECT_COMPLETED }
    else { d with stableCount := stableCount }

/-- Method `ObjectDetector::update`. -/
def ObjectDetector.update (d : ObjectDetector) (t : DetectorTick) : ObjectDetector :=
  if d.state = DetectionState.DETECT_IDLE ∨ d.state = DetectionState.DETECT_COMPLETED ∨
      d.state = DetectionState.DETECT_FAILED then d
  else if ulongSub t.now d.startTime > d.timeoutMs then
    { d with state := DetectionState.DETECT_FAILED }
  else if ¬ t.laserReady then d
  else
    let s := d.sense t
    let filteredDistance := s.2
    let inRange := decide (filteredDistance < s.1.detectThreshold)
    match s.1.state with
    | DetectionState.DETECT_WAITING => s.1.waitingStep t.now inRange
    | DetectionState.DETECT_IN_OBJECT => s.1.inObjectStep t.now filteredDistance inRange
    | _ => s.1

/-- Accessor `getResult`. -/
def ObjectDetector.getResult (d : ObjectDetector) : ObjectMeasurement := d.result

/-- The detector after a sequence of `update` calls. -/
def ObjectDetector.run (d : ObjectDetector) (ticks : List DetectorTick) : ObjectDetector :=
  ticks.foldl ObjectDetector.update d

/-- The tick is processed by the state machine of `update`: the detector is
waiting or in the object, the timeout has not expired, the laser is ready. -/
def ObjectDetector.processes (d : ObjectDetector) (t : DetectorTick) : Prop :=
  (d.state = DetectionState.DETECT_WAITING ∨ d.state = DetectionState.DETECT_IN_OBJECT) ∧
    ¬ (ulongSub t.now d.startTime > d.timeoutMs) ∧ t.laserReady = true

instance (d : ObjectDetector) (t : DetectorTick) : Decidable (d.processes t) := by
  unfold ObjectDetector.processes; infer_instance

/-- The flag `inRange` of the tick: filtered range below the threshold. -/
def ObjectDetector.tickInRange (d : ObjectDetector) (t : DetectorTick) : Bool :=
  decide ((d.sense t).2 < d.detectThreshold)

/-- The tick confirms the exit: it is processed in state `DETECT_IN_OBJECT`,
out of range, and completes the stable count. -/
def ObjectDetector.confirmsExit (d : ObjectDetector) (t : DetectorTick) : Prop :=
  d.state = DetectionState.DETECT_IN_OBJECT ∧ d.processes t ∧ d.tickInRange t = false ∧
    d.stableCount + 1 ≥ d.stableCountThreshold

instance (d : ObjectDetector) (t : DetectorTick) : Decidable (d.confirmsExit t) := by
  unfold ObjectDetector.confirmsExit; infer_instance

/-- The tick confirms the entry: it is processed in state `DETECT_WAITING`,
in range, and completes the stable count. -/
def ObjectDetector.confirmsEntry (d : ObjectDetector) (t : DetectorTick) : Prop :=
  d.state = DetectionState.DETECT_WAITING ∧ d.processes t ∧ d.tickInRange t = true ∧
    d.stableCount + 1 ≥ d.stableCountThreshold

instance (d : ObjectDetector) (t : DetectorTick) : Decidable (d.confirmsEntry t) := by
  unfold ObjectDetector.confirmsEntry; infer_instance

/-- The `inRange` flags of the processed ticks of a run, oldest first. -/
def ObjectDetector.inRangeTrace (d : ObjectDetector) : List DetectorTick → List Bool
  | [] => []
  | t :: ts =>
    (if d.processes t then [d.tickInRange t] else []) ++
      ObjectDetector.inRangeTrace (d.update t) ts

/-- A detector in the object with start position 0, default scale 1 and
offset 0, filter size 1, six samples taken and four out-of-range ticks
counted. -/
def ObjectDetector.exitExample : ObjectDetector :=
  { (ObjectDetector.construct.setFilterSize 1).startDetection 0 0 0 0 300 with
    state := DetectionState.DETECT_IN_OBJECT, stableCount := 4, sampleCount := 6 }

/-- An out-of-range tick (raw reading 3000, taken as 2000) at the given
travel, at time 1000. -/
def DetectorTick.farAt (travel : ℚ) : DetectorTick :=
  { now := 1000, laserReady := true, laserDistance := 3000, leftDistance := travel,
    rightDistance := travel }

/-- A tick 20 s after the start of the detection. -/
def DetectorTick.late : DetectorTick :=
  { now := 20000, laserReady := true, laserDistance := 200, leftDistance := 0,
    rightDistance := 0 }

/-- An in-range tick (200 mm) at the given time with the wheels at 0. -/
def DetectorTick.near (now : Nat) : DetectorTick :=
  { now := now, laserReady := true, laserDistance := 200, leftDistance := 0,
    rightDistance := 0 }

/-- A detector that has just confirmed an entry: constructed, started with
threshold 300, then five in-range ticks. No in-range sample has been
accumulated yet. -/
def ObjectDetector.justEntered : ObjectDetector :=
  (ObjectDetector.construct.startDetection 0 0 0 0 300).run
    [DetectorTick.near 10, DetectorTick.near 20, DetectorTick.near 30, DetectorTick.near 40,
     DetectorTick.near 50]

/-- The detector of `justEntered` one tick before the entry is confirmed. -/
def ObjectDetector.beforeEntry : ObjectDetector :=
  (ObjectDetector.construct.startDetection 0 0 0 0 300).run
    [DetectorTick.near 10, DetectorTick.near 20, DetectorTick.near 30, DetectorTick.near 40]

/-- A detector waiting since time 0 with the default timeout of 15 s. -/
def ObjectDetector.waitingExample : ObjectDetector :=
  ObjectDetector.construct.startDetection 0 0 0 0 300

/-- The number of `true` flags at the end of a trace. -/
def countTrailing (trace : List Bool) : Nat :=
  trace.foldl (fun n b => if b then n + 1 else 0) 0

/-- A far reading (2000 mm) at time 10 with the wheels at 0. -/
def DetectorTick.farEarly : DetectorTick :=
  { now := 10, laserReady := true, laserDistance := 2000, leftDistance := 0,
    rightDistance := 0 }

/-- A newly constructed detector after `startDetection(0, 300)` at time
1000. -/
def ObjectDetector.freshStart : ObjectDetector :=
  ObjectDetector.construct.startDetection 1000 0 0 0 300

/-- A detector that was started before and saw one far reading, after the
same `startDetection(0, 300)` at time 1000. -/
def ObjectDetector.restarted : ObjectDetector :=
  ((ObjectDetector.construct.startDetection 0 0 0 0 300).update
    DetectorTick.farEarly).startDetection 1000 0 0 0 300

/-! ## Motion sequencer (`main.cpp`)

The sequencer state is the set of global variables of `main.cpp` that the
handlers read and write. The drive actuator is recorded by the last commanded
wheel speeds; `delay` calls take no part in the state. All `millis()` calls
of one handler call read the same value. -/

/-- C++ conversion of a `float` to `int`: truncation toward zero. -/
def truncInt (q : ℚ) : Int :=
  if 0 ≤ q then Rat.floor q else -Rat.floor (-q)

/-- Arduino core `constrain` on `int` values. -/
def constrainInt (amt low high : Int) : Int :=
  if amt < low then low else if amt > high then high else amt

/-- Constant `AVOID_TIME_MS` of `config.h`. -/
def AVOID_TIME_MS : Nat := 5000

/-- Enumeration `enum SystemState` of `config.h`. -/
inductive SystemState where
  | STATE_IDLE
  | STATE_LINE_FOLLOW
  | STATE_OBSTACLE_AVOID
  | STATE_PARKING
  | STATE_FINISHED
  | STATE_TESTING
  deriving DecidableEq, Repr

/-- Enumeration `enum AvoidanceSubState` of `main.cpp`. -/
inductive AvoidanceSubState where
  | AVOID_NONE
  | AVOID_TURN_LEFT
  | AVOID_FORWARD_OUT
  | AVOID_TURN_RIGHT_1
  | AVOID_FORWARD_PARALLEL
  | AVOID_TURN_RIGHT_2
  | AVOID_FORWARD_IN
  | AVOID_TURN_LEFT_ALIGN
  deriving DecidableEq, Repr

/-- Enumeration `enum ParkingSubState` of `main.cpp`. -/
inductive ParkingSubState where
  | PARK_APPROACH
  | PARK_VERY_SLOW
  | PARK_STOP
  | PARK_ALARM
  deriving DecidableEq, Repr

/-- Enumeration `enum TestSubState` of `main.cpp`. -/
inductive TestSubState where
  | TEST_NONE
  | TEST_TURN_90
  | TEST_STRAIGHT_1M
  deriving DecidableEq, Repr

/-- Enumeration `enum ManualCommand` of `main.cpp`. -/
inductive ManualCommand where
  | CMD_NONE
  | CMD_STOP
  | CMD_FORWARD
  | CMD_BACKWARD
  | CMD_LEFT
  | CMD_RIGHT
  | CMD_TURN_180
  deriving DecidableEq, Repr

/-- The public data members of `class ParameterManager`. -/
structure ParameterManager where
  kp : ℚ
  ki : ℚ
  kd : ℚ
  kpPost : ℚ
  kiPost : ℚ
  kdPost : ℚ
  speedSlow : Int
  speedNormal : Int
  speedFast : Int
  speedTurn : Int
  speedNormalPost : Int
  speedFastPost : Int
  speedTurnPost : Int
  obstacleDetectDist : Int
  objectDetectDist : Int
  avoidTurnDist : Int
  avoidForwardDist : Int
  avoidParallelDist : Int
  avoidSpeed : Int
  avoidTurnSpeed : Int
  avoidKp : ℚ
  avoidFinalTurnDist : ℚ
  avoidTurn1Dist : ℚ
  avoidTurn2Dist : ℚ
  avoidTurn3Dist : ℚ
  avoidSearchDist : Int
  avoidS1_L : ℚ
  avoidS1_R : ℚ
  avoidS2_L : ℚ
  avoidS2_R : ℚ
  avoidS3_L : ℚ
  avoidS3_R : ℚ
  avoidS4_L : ℚ
  avoidS4_R : ℚ
  avoidS5_L : ℚ
  avoidS5_R : ℚ
  avoidS6_L : ℚ
  avoidS6_R : ℚ
  parkingDistSlow : Int
  parkingDistVerySlow : Int
  parkingDistStop : Int
  parkingSpeedSlow : Int
  parkingSpeedVerySlow : Int
  motorLeftCalib : ℚ
  motorRightCalib : ℚ
  pidIntegralRange : Int
  motorDeadband : Int
  pidSmallErrorThres : Int
  pidKpSmallScale : ℚ
  pidKdSmallScale : ℚ
  objectFilterSize : Int
  objectLengthScale : ℚ
  objectLengthOffset : ℚ
  objectDeviationCorrection : ℚ
  encKp : ℚ
  encKi : ℚ
  encKd : ℚ
  turn90Dist : ℚ
  sensorWeights : Nat → Int

/-- The default values assigned by `ParameterManager::reset`. -/
def ParameterManager.defaults : ParameterManager :=
  { kp := 1 / 5, ki := 1 / 200, kd := 3 / 2
    kpPost := 1 / 5, kiPost := 1 / 200, kdPost := 3 / 2
    speedSlow := 80, speedNormal := 150, speedFast := 200, speedTurn := 120
    speedNormalPost := 150, speedFastPost := 200, speedTurnPost := 120
    obstacleDetectDist := 30, objectDetectDist := 300
    avoidTurnDist := 100, avoidForwardDist := 400, avoidParallelDist := 500
    avoidSpeed := 150, avoidTurnSpeed := 120
    avoidKp := 2, avoidFinalTurnDist := 118, avoidTurn1Dist := 118, avoidTurn2Dist := 118
    avoidTurn3Dist := 118, avoidSearchDist := 800
    avoidS1_L := 1, avoidS1_R := 1, avoidS2_L := 1, avoidS2_R := 1
    avoidS3_L := 1, avoidS3_R := 1, avoidS4_L := 1, avoidS4_R := 1
    avoidS5_L := 1, avoidS5_R := 1, avoidS6_L := 1, avoidS6_R := 1
    parkingDistSlow := 60, parkingDistVerySlow := 30, parkingDistStop := 10
    parkingSpeedSlow := 100, parkingSpeedVerySlow := 60
    motorLeftCalib := 1, motorRightCalib := 1
    pidIntegralRange := 200, motorDeadband := 30, pidSmallErrorThres := 150
    pidKpSmallScale := 3 / 5, pidKdSmallScale := 3 / 2
    objectFilterSize := 5, objectLengthScale := 1, objectLengthOffset := 0
    objectDeviationCorrection := 0
    encKp := 1, encKi := 0, encKd := 0, turn90Dist := 118
    sensorWeights := fun i =>
      if i = 0 then -1000 else if i = 1 then -700 else if i = 2 then -400
      else if i = 3 then -100 else if i = 4 then 100 else if i = 5 then 400
      else if i = 6 then 700 else if i = 7 then 1000 else 0 }

/-- The drive actuator as the sequencer sees it: the speeds last passed to
`setLeftSpeed` and `setRightSpeed` (0 after `stop` and `brake`), whether the
last command was `brake`, the dead band last set, and the number of
`resetEncoders` calls. -/
structure MotorControl where
  leftCommand : Int
  rightCommand : Int
  braking : Bool
  deadband : Int
  encoderResets : Nat
  deriving DecidableEq

/-- Method `MotorControl::setLeftSpeed`. -/
def MotorControl.setLeftSpeed (m : MotorControl) (speed : Int) : MotorControl :=
  { m with leftCommand := speed, braking := false }

/-- Method `MotorControl::setRightSpeed`. -/
def MotorControl.setRightSpeed (m : MotorControl) (speed : Int) : MotorControl :=
  { m with rightCommand := speed, braking := false }

/-- Method `MotorControl::setBothSpeed`. -/
def MotorControl.setBothSpeed (m : MotorControl) (speed : Int) : MotorControl :=
  (m.setLeftSpeed speed).setRightSpeed speed

/-- Method `MotorControl::stop`. -/
def MotorControl.stop (m : MotorControl) : MotorControl :=
  { m with leftCommand := 0, rightCommand := 0, braking := false }

/-- Method `MotorControl::brake`. -/
def MotorControl.brake (m : MotorControl) : MotorControl :=
  { m with leftCommand := 0, rightCommand := 0, braking := true }

/-- Method `MotorControl::resetEncoders`. -/
def MotorControl.resetEncoders (m : MotorControl) : MotorControl :=
  { m with encoderResets := m.encoderResets + 1 }

/-- Method `MotorControl::setDeadband`. -/
def MotorControl.setDeadband (m : MotorControl) (deadband : Int) : MotorControl :=
  { m with deadband := constrainInt deadband 0 100 }

/-- What one pass of the control loop reads from the sensors and the motor:
`millis()`, `sensors.getUltrasonicDistance()`, `motor.getLeftDistance()`,
`motor.getRightDistance()`, and from the line sensor `isDataReady()`,
`getRawStates()`, `isLostLine()`, `getLinePosition()`, `getLastPosition()`. -/
structure LoopInputs where
  now : Nat
  ultraDist : ℚ
  leftDistance : ℚ
  rightDistance : ℚ
  lineDataReady : Bool
  lineRawStates : Nat
  lineLost : Bool
  linePosition : Int
  lastPosition : Int

/-- The global variables of `main.cpp` read and written by the handlers,
with the static `wasLost` of `lineFollowControl` and the alarm output. -/
structure Sequencer where
  params : ParameterManager
  pidController : PIDController
  encoderPid : PIDController
  objectDetector : ObjectDetector
  motor : MotorControl
  alarm : Bool
  currentState : SystemState
  systemRunning : Bool
  pendingTestTurn : Bool
  pendingTestStraight : Bool
  pendingTestAvoid : Bool
  pendingTestParking : Bool
  pendingManualCmd : ManualCommand
  pendingManualValue : ℚ
  obstacleDetectCount : Int
  obstacleDetectionEnabled : Bool
  avoidSubState : AvoidanceSubState
  avoidStateStartTime : Nat
  avoidStateStartDistance : ℚ
  avoidStartLeftDist : ℚ
  avoidStartRightDist : ℚ
  avoidanceFinishTime : Nat
  postAvoidanceStable : Bool
  parkingSubState : ParkingSubState
  parkingStateStartTime : Nat
  currentTestState : TestSubState
  testStartTime : Nat
  manualControlActive : Bool
  manualControlEndTime : Nat
  wasLost : Bool

/-- The initial values of the global variables of `main.cpp`, with the
default parameters. -/
def Sequencer.initial : Sequencer :=
  { params := ParameterManager.defaults
    pidController := PIDController.construct (1 / 5) (1 / 200) (3 / 2)
    encoderPid := PIDController.construct 1 0 0
    objectDetector := ObjectDetector.construct
    motor := { leftCommand := 0, rightCommand := 0, braking := false, deadband := 0,
               encoderResets := 0 }
    alarm := false
    currentState := SystemState.STATE_IDLE
    systemRunning := false
    pendingTestTurn := false
    pendingTestStraight := false
    pendingTestAvoid := false
    pendingTestParking := false
    pendingManualCmd := ManualCommand.CMD_NONE
    pendingManualValue := 0
    obstacleDetectCount := 0
    obstacleDetectionEnabled := false
    avoidSubState := AvoidanceSubState.AVOID_NONE
    avoidStateStartTime := 0
    avoidStateStartDistance := 0
    avoidStartLeftDist := 0
    avoidStartRightDist := 0
    avoidanceFinishTime := 0
    postAvoidanceStable := false
    parkingSubState := ParkingSubState.PARK_APPROACH
    parkingStateStartTime := 0
    currentTestState := TestSubState.TEST_NONE
    testStartTime := 0
    manualControlActive := false
    manualControlEndTime := 0
    wasLost := false }

/-- Accessor `ObjectDetector::isDetecting`. -/
def ObjectDetector.isDetecting (d : ObjectDetector) : Bool :=
  decide (d.state ≠ DetectionState.DETECT_IDLE ∧ d.state ≠ DetectionState.DETECT_COMPLETED ∧
    d.state ≠ DetectionState.DETECT_FAILED)

/-- Accessor `ObjectDetector::isCompleted`. -/
def ObjectDetector.isCompleted (d : ObjectDetector) : Bool :=
  decide (d.state = DetectionState.DETECT_COMPLETED)

/-- The call pair `motor.setLeftSpeed(left); motor.setRightSpeed(right);`. -/
def MotorControl.setSpeeds (m : MotorControl) (left right : Int) : MotorControl :=
  (m.setLeftSpeed left).setRightSpeed right

/-- Function `handleParking` of `main.cpp`. -/
def Sequencer.handleParking (s : Sequencer) (i : LoopInputs) : Sequencer :=
  let ultraDist := i.ultraDist
  let error := i.leftDistance - i.rightDistance
  let adjustment := truncInt (error * s.params.encKp)
  match s.parkingSubState with
  | ParkingSubState.PARK_APPROACH =>
    if ultraDist > (s.params.parkingDistSlow : ℚ) then
      let m := s.motor.setSpeeds (s.params.speedSlow - adjustment)
                  (s.params.speedSlow + adjustment)
      { s with motor := m }
    else
      let m := s.motor.setSpeeds (s.params.parkingSpeedSlow - adjustment)
                  (s.params.parkingSpeedSlow + adjustment)
      if ultraDist ≤ (s.params.parkingDistVerySlow : ℚ) then
        { s with motor := m, parkingSubState := ParkingSubState.PARK_VERY_SLOW }
      else { s with motor := m }
  | ParkingSubState.PARK_VERY_SLOW =>
    let m := s.motor.setSpeeds (s.params.parkingSpeedVerySlow - adjustment)
                (s.params.parkingSpeedVerySlow + adjustment)
    if ultraDist ≤ (s.params.parkingDistStop : ℚ) then
      { s with motor := m.brake.stop, parkingSubState := ParkingSubState.PARK_STOP,
               parkingStateStartTime := i.now }
    else { s with motor := m }
  | ParkingSubState.PARK_STOP =>
    { s with motor := s.motor.stop, parkingSubState := ParkingSubState.PARK_ALARM,
             parkingStateStartTime := i.now }
  | ParkingSubState.PARK_ALARM =>
    if ulongSub i.now s.parkingStateStartTime ≥ 3000 then
      { s with alarm := false, currentState := SystemState.STATE_FINISHED,
               systemRunning := false }
    else { s with alarm := true }

/-- The common end of an avoidance step: brake, stop, switch to the next
step, restart the step timer, reset the encoders and zero both baselines. -/
def Sequencer.avoidStepDone (s : Sequencer) (next : AvoidanceSubState) (now : Nat) :
    Sequencer :=
  { s with
    motor := s.motor.brake.stop.resetEncoders
    avoidSubState := next
    avoidStateStartTime := now
    avoidStartLeftDist := 0
    avoidStartRightDist := 0 }

/-- The `switch (avoidSubState)` block of `handleObstacleAvoidance`. -/
def Sequencer.avoidSwitch (s : Sequencer) (i : LoopInputs) : Sequencer :=
  let turnSpeed := s.params.avoidTurnSpeed
  let forwardSpeed := s.params.avoidSpeed
  let deltaLeft := i.leftDistance - s.avoidStartLeftDist
  let deltaRight := i.rightDistance - s.avoidStartRightDist
  match s.avoidSubState with
  | AvoidanceSubState.AVOID_TURN_LEFT =>
    let m :=
      s.motor.setSpeeds (truncInt ((-turnSpeed : Int) * s.params.avoidS1_L))
        (truncInt ((turnSpeed : ℚ) * s.params.avoidS1_R))
    let s1 := { s with motor := m }
    if |deltaLeft| ≥ s.params.avoidTurn1Dist ∨ |deltaRight| ≥ s.params.avoidTurn1Dist then
      s1.avoidStepDone AvoidanceSubState.AVOID_FORWARD_OUT i.now
    else s1
  | AvoidanceSubState.AVOID_FORWARD_OUT =>
    let error := deltaLeft - deltaRight
    let adjustment := truncInt (error * s.params.avoidKp)
    let m :=
      s.motor.setSpeeds (truncInt ((forwardSpeed : ℚ) * s.params.avoidS2_L - adjustment))
        (truncInt ((forwardSpeed : ℚ) * s.params.avoidS2_R + adjustment))
    let s1 := { s with motor := m }
    let avgDist := (deltaLeft + deltaRight) / 2
    if avgDist ≥ (s.params.avoidForwardDist : ℚ) then
      s1.avoidStepDone AvoidanceSubState.AVOID_TURN_RIGHT_1 i.now
    else s1
  | AvoidanceSubState.AVOID_TURN_RIGHT_1 =>
    let m :=
      s.motor.setSpeeds (truncInt ((turnSpeed : ℚ) * s.params.avoidS3_L))
        (truncInt ((-turnSpeed : Int) * s.params.avoidS3_R))
    let s1 := { s with motor := m }
    if |deltaLeft| ≥ s.params.avoidTurn2Dist ∨ |deltaRight| ≥ s.params.avoidTurn2Dist then
      s1.avoidStepDone AvoidanceSubState.AVOID_FORWARD_PARALLEL i.now
    else s1
  | AvoidanceSubState.AVOID_FORWARD_PARALLEL =>
    let error := deltaLeft - deltaRight
    let adjustment := truncInt (error * s.params.avoidKp)
    let m :=
      s.motor.setSpeeds (truncInt ((forwardSpeed : ℚ) * s.params.avoidS4_L - adjustment))
        (truncInt ((forwardSpeed : ℚ) * s.params.avoidS4_R + adjustment))
    let s1 := { s with motor := m }
    let avgDist := (deltaLeft + deltaRight) / 2
    if avgDist ≥ (s.params.avoidParallelDist : ℚ) then
      s1.avoidStepDone AvoidanceSubState.AVOID_TURN_RIGHT_2 i.now
    else s1
  | AvoidanceSubState.AVOID_TURN_RIGHT_2 =>
    let m :=
      s.motor.setSpeeds (truncInt ((turnSpeed : ℚ) * s.params.avoidS5_L))
        (truncInt ((-turnSpeed : Int) * s.params.avoidS5_R))
    let s1 := { s with motor := m }
    if |deltaLeft| ≥ s.params.avoidTurn3Dist ∨ |deltaRight| ≥ s.params.avoidTurn3Dist then
      s1.avoidStepDone AvoidanceSubState.AVOID_FORWARD_IN i.now
    else s1
  | AvoidanceSubState.AVOID_FORWARD_IN =>
    let error := deltaLeft - deltaRight
    let adjustment := truncInt (error * s.params.avoidKp)
    let searchSpeed := s.params.speedSlow
    let m :=
      s.motor.setSpeeds (truncInt ((searchSpeed : ℚ) * s.params.avoidS6_L - adjustment))
        (truncInt ((searchSpeed : ℚ) * s.params.avoidS6_R + adjustment))
    let s1 := { s with motor := m }
    if i.lineDataReady = true ∧ i.lineRawStates ≠ 0 then
      s1.avoidStepDone AvoidanceSubState.AVOID_TURN_LEFT_ALIGN i.now
    else if (i.leftDistance + i.rightDistance) / 2 ≥ (s.params.avoidSearchDist : ℚ) then
      { s1 with
        avoidSubState := AvoidanceSubState.AVOID_TURN_LEFT_ALIGN
        motor := s1.motor.resetEncoders
        avoidStartLeftDist := 0
        avoidStartRightDist := 0 }
    else s1
  | AvoidanceSubState.AVOID_TURN_LEFT_ALIGN =>
    let s1 := { s with motor := s.motor.setSpeeds (-turnSpeed) turnSpeed }
    if |deltaLeft| ≥ s.params.avoidFinalTurnDist ∨
        |deltaRight| ≥ s.params.avoidFinalTurnDist then
      { s1 with
        motor := s1.motor.brake.stop
        currentState := SystemState.STATE_LINE_FOLLOW
        avoidSubState := AvoidanceSubState.AVOID_NONE
        pidController := s1.pidController.reset
        avoidanceFinishTime := i.now
        postAvoidanceStable := false }
    else s1
  | AvoidanceSubState.AVOID_NONE => s

/-- Function `handleObstacleAvoidance` of `main.cpp`: the step switch, then
the timeout guard. -/
def Sequencer.handleObstacleAvoidance (s : Sequencer) (i : LoopInputs) : Sequencer :=
  let s1 := s.avoidSwitch i
  if ulongSub i.now s1.avoidStateStartTime > AVOID_TIME_MS then
    { s1 with
      currentState := SystemState.STATE_LINE_FOLLOW
      avoidSubState := AvoidanceSubState.AVOID_NONE
      motor := s1.motor.stop }
  else s1

/-- The part of `lineFollowControl` after the obstacle check (lines 927-1050):
lost-line search, gain selection, PID step and wheel speeds. The base speed
of lines 1020-1028 is computed in `float`: the quotient, the square, the
difference and the product are each rounded by `toFloat32` before the
conversion to `int`. -/
def Sequencer.followLine (s : Sequencer) (i : LoopInputs) : Sequencer :=
  let linePosition := i.linePosition
  if i.lineLost = true then
    let s1 := { s with wasLost := true }
    if s1.postAvoidanceStable = true then
      { s1 with motor := s1.motor.setBothSpeed s1.params.speedSlow }
    else
      let searchSpeed := s1.params.speedSlow
      if i.lastPosition ≥ 0 then
        { s1 with motor := s1.motor.setSpeeds searchSpeed (Int.tdiv searchSpeed 3) }
      else
        { s1 with motor := s1.motor.setSpeeds (Int.tdiv searchSpeed 3) searchSpeed }
  else
    let s1 :=
      if s.wasLost = true then
        { s with pidController := s.pidController.reset, wasLost := false }
      else s
    let completed := s1.objectDetector.isCompleted
    let kp0 := if completed = true then s1.params.kpPost else s1.params.kp
    let effectiveKi := if completed = true then s1.params.kiPost else s1.params.ki
    let kd0 := if completed = true then s1.params.kdPost else s1.params.kd
    let currentSpeedFast :=
      if completed = true then s1.params.speedFastPost else s1.params.speedFast
    let currentSpeedTurn :=
      if completed = true then s1.params.speedTurnPost else s1.params.speedTurn
    let small := decide (|linePosition| < s1.params.pidSmallErrorThres)
    let effectiveKp :=
      if s1.objectDetector.isDetecting = true then kp0 * (5 / 2)
      else if small = true then kp0 * s1.params.pidKpSmallScale else kp0
    let effectiveKd :=
      if s1.objectDetector.isDetecting = true then kd0 * 3
      else if small = true then kd0 * s1.params.pidKdSmallScale else kd0
    let pid1 := (s1.pidController.setGains effectiveKp effectiveKi effectiveKd).setIntegralRange
      (s1.params.pidIntegralRange : ℚ)
    let motor1 := s1.motor.setDeadband s1.params.motorDeadband
    let c := pid1.compute i.now (linePosition : ℚ)
    let pidOutput := c.2
    let errorRatio := constrain (toFloat32 ((|linePosition| : ℚ) / 1000)) 0 1
    let maxSpeed := currentSpeedFast
    let minSpeed := currentSpeedTurn
    let baseSpeed0 :=
      minSpeed + truncInt (toFloat32 (toFloat32 ((maxSpeed - minSpeed : Int) : ℚ) *
        toFloat32 (1 - toFloat32 (errorRatio * errorRatio))))
    let baseSpeed := if |linePosition| > 800 then s1.params.speedSlow else baseSpeed0
    let leftSpeed := constrainInt (truncInt ((baseSpeed : ℚ) - pidOutput)) (-255) 255
    let rightSpeed := constrainInt (truncInt ((baseSpeed : ℚ) + pidOutput)) (-255) 255
    { s1 with pidController := c.1, motor := motor1.setSpeeds leftSpeed rightSpeed }

/-- The post-avoidance stability check at the head of `lineFollowControl`
(lines 867-878). -/
def Sequencer.stabilityCheck (s : Sequencer) (i : LoopInputs) : Sequencer :=
  if s.avoidanceFinishTime > 0 ∧ s.postAvoidanceStable = false then
    if i.lineLost = true then { s with avoidanceFinishTime := i.now }
    else if ulongSub i.now s.avoidanceFinishTime > 1000 then
      { s with postAvoidanceStable := true }
    else s
  else s

/-- Function `lineFollowControl` of `main.cpp`. -/
def Sequencer.lineFollowControl (s : Sequencer) (i : LoopInputs) : Sequencer :=
  let s1 := s.stabilityCheck i
  if i.lineDataReady = false then { s1 with motor := s1.motor.stop }
  else if s1.obstacleDetectionEnabled = true ∧ s1.obstacleDetectCount < 2 then
    let ultraDist := i.ultraDist
    if ultraDist < (s1.params.obstacleDetectDist : ℚ) ∧ ultraDist > 2 then
      let s2 := { s1 with obstacleDetectCount := s1.obstacleDetectCount + 1 }
      if s2.obstacleDetectCount = 1 then
        { s2 with
          motor := s2.motor.brake.stop.resetEncoders
          currentState := SystemState.STATE_OBSTACLE_AVOID
          avoidSubState := AvoidanceSubState.AVOID_TURN_LEFT
          avoidStateStartTime := i.now
          avoidStartLeftDist := 0
          avoidStartRightDist := 0
          avoidStateStartDistance := 0 }
      else if s2.obstacleDetectCount = 2 then
        { s2 with
          currentState := SystemState.STATE_PARKING
          parkingSubState := ParkingSubState.PARK_APPROACH
          parkingStateStartTime := i.now
          motor := s2.motor.resetEncoders }
      else s2.followLine i
    else s1.followLine i
  else s1.followLine i

/-- Position of a parking phase in the order Approach, VerySlow, Stop,
Alarm. -/
def ParkingSubState.rank : ParkingSubState → Nat
  | ParkingSubState.PARK_APPROACH => 0
  | ParkingSubState.PARK_VERY_SLOW => 1
  | ParkingSubState.PARK_STOP => 2
  | ParkingSubState.PARK_ALARM => 3

/-- The odometry-delta target of the current avoidance step: for a turn
step one wheel delta reaches the step's turn distance, for a forward step the
mean of the two wheel deltas reaches the step's forward distance. -/
def Sequencer.avoidTarget (s : Sequencer) (i : LoopInputs) : Prop :=
  let deltaLeft := i.leftDistance - s.avoidStartLeftDist
  let deltaRight := i.rightDistance - s.avoidStartRightDist
  match s.avoidSubState with
  | AvoidanceSubState.AVOID_NONE => False
  | AvoidanceSubState.AVOID_TURN_LEFT =>
    |deltaLeft| ≥ s.params.avoidTurn1Dist ∨ |deltaRight| ≥ s.params.avoidTurn1Dist
  | AvoidanceSubState.AVOID_FORWARD_OUT =>
    (deltaLeft + deltaRight) / 2 ≥ (s.params.avoidForwardDist : ℚ)
  | AvoidanceSubState.AVOID_TURN_RIGHT_1 =>
    |deltaLeft| ≥ s.params.avoidTurn2Dist ∨ |deltaRight| ≥ s.params.avoidTurn2Dist
  | AvoidanceSubState.AVOID_FORWARD_PARALLEL =>
    (deltaLeft + deltaRight) / 2 ≥ (s.params.avoidParallelDist : ℚ)
  | AvoidanceSubState.AVOID_TURN_RIGHT_2 =>
    |deltaLeft| ≥ s.params.avoidTurn3Dist ∨ |deltaRight| ≥ s.params.avoidTurn3Dist
  | AvoidanceSubState.AVOID_FORWARD_IN =>
    (deltaLeft + deltaRight) / 2 ≥ (s.params.avoidSearchDist : ℚ)
  | AvoidanceSubState.AVOID_TURN_LEFT_ALIGN =>
    |deltaLeft| ≥ s.params.avoidFinalTurnDist ∨ |deltaRight| ≥ s.params.avoidFinalTurnDist

/-- The tick leaves the avoidance step: the sub-state or the top-level state
has changed. -/
def Sequencer.leavesStep (s t : Sequencer) : Prop :=
  t.avoidSubState ≠ s.avoidSubState ∨ t.currentState ≠ s.currentState

/-- The step timer of the avoidance maneuver has run past `AVOID_TIME_MS`. -/
def Sequencer.avoidTimedOut (s : Sequencer) (i : LoopInputs) : Prop :=
  ulongSub i.now s.avoidStateStartTime > AVOID_TIME_MS

/-- The sequencer in avoidance step 6 (forward search for the line), step
started at 1000 ms, baselines zero. -/
def Sequencer.searchingExample : Sequencer :=
  { Sequencer.initial with
    currentState := SystemState.STATE_OBSTACLE_AVOID
    systemRunning := true
    avoidSubState := AvoidanceSubState.AVOID_FORWARD_IN
    avoidStateStartTime := 1000 }

/-- Inputs at 1100 ms: both wheels at 50 mm, line sensor ready and seeing
the line on its two middle sensors. -/
def LoopInputs.lineSeen : LoopInputs :=
  { now := 1100, ultraDist := 100, leftDistance := 50, rightDistance := 50,
    lineDataReady := true, lineRawStates := 24, lineLost := false, linePosition := 0,
    lastPosition := 0 }

/-- The sequencer following the line with obstacle detection armed and no
obstacle met yet. -/
def Sequencer.armedExample : Sequencer :=
  { Sequencer.initial with
    currentState := SystemState.STATE_LINE_FOLLOW
    systemRunning := true
    obstacleDetectionEnabled := true }

/-- Inputs at 1100 ms with an obstacle 20 cm ahead and the line centred. -/
def LoopInputs.obstacleAhead : LoopInputs :=
  { now := 1100, ultraDist := 20, leftDistance := 50, rightDistance := 50,
    lineDataReady := true, lineRawStates := 24, lineLost := false, linePosition := 0,
    lastPosition := 0 }

/-! ## LineSensor -/

/-- The data members of `class LineSensor` used by `getLinePosition` and
`isLostLine`: `states` and `lostLineCount` are `uint8_t`, `lastValidPosition`
and the eight `weights` are `int16_t`. -/
structure LineSensor where
  states : Nat
  dataReady : Bool
  lastValidPosition : Int
  lostLineCount : Nat
  weights : Nat → Int

/-- Constructor `LineSensor::LineSensor`. -/
def LineSensor.construct : LineSensor :=
  { states := 0
    dataReady := false
    lastValidPosition := 0
    lostLineCount := 0
    weights := fun i =>
      if i = 0 then -1000 else if i = 1 then -700 else if i = 2 then -400
      else if i = 3 then -100 else if i = 4 then 100 else if i = 5 then 400
      else if i = 6 then 700 else if i = 7 then 1000 else 0 }

/-- C++ conversion of an integer value to `int16_t` (wrapping). -/
def toInt16 (x : Int) : Int :=
  (x + 32768) % 65536 - 32768

/-- Method `LineSensor::getState(index)`: `(states >> index) & 0x01`, and 0
for an index of 8 or more. -/
def LineSensor.getState (ls : LineSensor) (index : Nat) : Nat :=
  if index ≥ 8 then 0 else (ls.states / 2 ^ index) % 2

/-- The accumulation loop of `getLinePosition` (lines 115-120): the pair
`(weightedSum, activeSum)` after the sensors of `indices` were visited. -/
def LineSensor.accumulate (ls : LineSensor) (indices : List Nat) : Int × Int :=
  indices.foldl
    (fun acc i => if ls.getState i = 1 then (acc.1 + ls.weights i, acc.2 + 1000) else acc)
    (0, 0)

/-- Method `LineSensor::getLinePosition`: the new sensor state and the
returned position. -/
def LineSensor.getLinePosition (ls : LineSensor) : LineSensor × Int :=
  let acc := ls.accumulate (List.range 8)
  let weightedSum := acc.1
  let activeSum := acc.2
  if activeSum = 0 then
    ({ ls with lostLineCount := (ls.lostLineCount + 1) % 256 },
     toInt16 (truncInt (constrain ((ls.lastValidPosition : ℚ) * (6 / 5)) (-1000) 1000)))
  else
    let position0 := toInt16 (Int.tdiv weightedSum (Int.tdiv activeSum 1000))
    let position := constrainInt position0 (-1000) 1000
    ({ ls with lostLineCount := 0, lastValidPosition := position }, position)

/-- Method `LineSensor::isLostLine`. -/
def LineSensor.isLostLine (ls : LineSensor) : Bool :=
  decide (ls.lostLineCount ≥ 3)

/-- The sensor after `k` calls of `getLinePosition` with unchanged
`states`. -/
def LineSensor.readTimes (ls : LineSensor) : Nat → LineSensor
  | 0 => ls
  | k + 1 => (LineSensor.readTimes ls k).getLinePosition.1

/-- The indices of the sensors that see the line. -/
def LineSensor.activeIndices (ls : LineSensor) : List Nat :=
  (List.range 8).filter (fun i => ls.getState i = 1)

/-- A sensor with its two middle bits set and a remembered position. -/
def LineSensor.centredExample : LineSensor :=
  { LineSensor.construct with states := 24, lastValidPosition := 300, lostLineCount := 7 }

/-! ## Command flags, sensor pass and test mode of `main.cpp` -/

/-- First block of `processPendingCommands` (lines 285-295): the turn-test
flag. -/
def Sequencer.applyTestTurn (s : Sequencer) (now : Nat) : Sequencer :=
  if s.pendingTestTurn = true then
    let s1 := { s with pendingTestTurn := false }
    if s1.systemRunning = false then
      { s1 with
        currentState := SystemState.STATE_TESTING
        currentTestState := TestSubState.TEST_TURN_90
        testStartTime := now
        motor := s1.motor.resetEncoders
        systemRunning := true }
    else s1
  else s

/-- Second block of `processPendingCommands` (lines 297-309): the
straight-test flag. -/
def Sequencer.applyTestStraight (s : Sequencer) (now : Nat) : Sequencer :=
  if s.pendingTestStraight = true then
    let s1 := { s with pendingTestStraight := false }
    if s1.systemRunning = false then
      { s1 with
        currentState := SystemState.STATE_TESTING
        currentTestState := TestSubState.TEST_STRAIGHT_1M
        testStartTime := now
        motor := s1.motor.resetEncoders
        encoderPid := s1.encoderPid.reset.setGains s1.params.encKp s1.params.encKi s1.params.encKd
        systemRunning := true }
    else s1
  else s

/-- Third block of `processPendingCommands` (lines 311-326): the
avoidance-test flag. -/
def Sequencer.applyTestAvoid (s : Sequencer) (now : Nat) : Sequencer :=
  if s.pendingTestAvoid = true then
    let s1 := { s with pendingTestAvoid := false }
    if s1.systemRunning = false then
      { s1 with
        currentState := SystemState.STATE_OBSTACLE_AVOID
        avoidSubState := AvoidanceSubState.AVOID_TURN_LEFT
        avoidStateStartTime := now
        motor := s1.motor.resetEncoders
        avoidStartLeftDist := 0
        avoidStartRightDist := 0
        avoidStateStartDistance := 0
        systemRunning := true }
    else s1
  else s

/-- Fourth block of `processPendingCommands` (lines 328-346): the
parking-test flag. `stopDetection` runs after `motor.resetEncoders()`, so it
reads both wheel distances as 0. The statistic `lineFollowStartTime` is not
part of the state. -/
def Sequencer.applyTestParking (s : Sequencer) (now : Nat) : Sequencer :=
  if s.pendingTestParking = true then
    { s with
      pendingTestParking := false
      systemRunning := true
      currentState := SystemState.STATE_LINE_FOLLOW
      motor := s.motor.resetEncoders
      pidController := s.pidController.reset
      objectDetector := s.objectDetector.stopDetection now 0 0
      obstacleDetectionEnabled := true
      obstacleDetectCount := 1 }
  else s

/-- Last block of `processPendingCommands` (lines 349-398): the manual
command. -/
def Sequencer.applyManualCommand (s : Sequencer) (now : Nat) : Sequencer :=
  if s.pendingManualCmd ≠ ManualCommand.CMD_NONE then
    let cmd := s.pendingManualCmd
    let val := s.pendingManualValue
    let s1 := { s with pendingManualCmd := ManualCommand.CMD_NONE }
    if cmd = ManualCommand.CMD_STOP then
      { s1 with motor := s1.motor.stop, manualControlActive := false }
    else
      let s2 := { s1 with manualControlActive := true }
      let moveSpeed := if val > 0 then truncInt val else s2.params.speedNormal
      let turnSpeed := s2.params.speedTurn
      match cmd with
      | ManualCommand.CMD_FORWARD =>
        { s2 with motor := s2.motor.setBothSpeed moveSpeed
                  manualControlEndTime := (now + 10000) % ulongMod }
      | ManualCommand.CMD_BACKWARD =>
        { s2 with motor := s2.motor.setBothSpeed (-moveSpeed)
                  manualControlEndTime := (now + 10000) % ulongMod }
      | ManualCommand.CMD_LEFT =>
        { s2 with motor := s2.motor.setSpeeds (-turnSpeed) turnSpeed
                  manualControlEndTime := (now + 10000) % ulongMod }
      | ManualCommand.CMD_RIGHT =>
        { s2 with motor := s2.motor.setSpeeds turnSpeed (-turnSpeed)
                  manualControlEndTime := (now + 10000) % ulongMod }
      | ManualCommand.CMD_TURN_180 =>
        { s2 with motor := s2.motor.setSpeeds turnSpeed (-turnSpeed)
                  manualControlEndTime := (now + 1200) % ulongMod }
      | _ => s2
  else s

/-- Function `processPendingCommands` of `main.cpp`: the five blocks in
source order, with one reading `now` of `millis()`. -/
def Sequencer.processPendingCommands (s : Sequencer) (now : Nat) : Sequencer :=
  ((((s.applyTestTurn now).applyTestStraight now).applyTestAvoid now).applyTestParking
    now).applyManualCommand now

/-- The part of `updateSensors` that touches the sequencer (lines 839-848):
the measurement pipeline is updated while it is detecting, and obstacle
detection is armed when the pipeline is completed after that update. The
driver updates and the loop-rate statistic are not part of the state. -/
def Sequencer.updateSensors (s : Sequencer) (t : DetectorTick) : Sequencer :=
  if s.objectDetector.isDetecting = true then
    let s1 := { s with objectDetector := s.objectDetector.update t }
    if s1.objectDetector.isCompleted = true ∧ s1.obstacleDetectionEnabled = false then
      { s1 with obstacleDetectionEnabled := true }
    else s1
  else s

/-- The wheel-speed magnitude of the turn test (lines 1086-1101 of
`handleTestMode`): the local `currentSpeed` after the slow-down block. -/
def testTurnSpeed (turnSpeed motorDeadband : Int) (target remaining : ℚ) : Int :=
  let slowDownThres := max (target * (2 / 5)) 50
  if remaining < slowDownThres then
    let minSpeed := max 100 (motorDeadband + 50)
    let ratio := remaining / slowDownThres
    let currentSpeed := minSpeed + truncInt (((turnSpeed - minSpeed : Int) : ℚ) * ratio)
    max currentSpeed minSpeed
  else turnSpeed

/-- The `switch` of `handleTestMode` (lines 1079-1146). -/
def Sequencer.testSwitch (s : Sequencer) (i : LoopInputs) : Sequencer :=
  let turnSpeed := s.params.avoidTurnSpeed
  let forwardSpeed := s.params.avoidSpeed
  let currentLeft := i.leftDistance
  let currentRight := i.rightDistance
  match s.currentTestState with
  | TestSubState.TEST_TURN_90 =>
    let target := s.params.turn90Dist
    let current := max |currentLeft| |currentRight|
    let remaining := target - current
    let currentSpeed := testTurnSpeed turnSpeed s.params.motorDeadband target remaining
    let s1 := { s with motor := s.motor.setSpeeds (-currentSpeed) currentSpeed }
    if current ≥ target then
      { s1 with
        motor := s1.motor.brake.stop
        currentState := SystemState.STATE_IDLE
        currentTestState := TestSubState.TEST_NONE
        systemRunning := false }
    else s1
  | TestSubState.TEST_STRAIGHT_1M =>
    let error := currentLeft - currentRight
    let c := s.encoderPid.compute i.now error
    let adjustment := c.2
    let leftSpd := truncInt ((forwardSpeed : ℚ) - adjustment)
    let rightSpd := truncInt ((forwardSpeed : ℚ) + adjustment)
    let s1 := { s with encoderPid := c.1, motor := s.motor.setSpeeds leftSpd rightSpd }
    let avgDist := (currentLeft + currentRight) / 2
    if avgDist ≥ 1000 then
      { s1 with
        motor := s1.motor.stop
        currentState := SystemState.STATE_IDLE
        currentTestState := TestSubState.TEST_NONE
        systemRunning := false }
    else s1
  | TestSubState.TEST_NONE =>
    { s with motor := s.motor.stop, currentState := SystemState.STATE_IDLE }

/-- Function `handleTestMode` of `main.cpp`: the `switch`, then the 10 s
timeout measured from `testStartTime`. -/
def Sequencer.handleTestMode (s : Sequencer) (i : LoopInputs) : Sequencer :=
  let stepDuration := ulongSub i.now s.testStartTime
  let s1 := s.testSwitch i
  if stepDuration > 10000 then
    { s1 with
      motor := s1.motor.stop
      currentState := SystemState.STATE_IDLE
      currentTestState := TestSubState.TEST_NONE
      systemRunning := false }
  else s1

/-- The quadratic speed curve of lines 1020-1028 as the code evaluates it,
in `float` arithmetic:
`minSpeed + (int)((maxSpeed - minSpeed) * (1.0f - errorRatio * errorRatio))`
with `errorRatio = constrain(abs(linePosition) / 1000.0f, 0.0f, 1.0f)`; the
quotient, the square, the difference, the converted speed difference and the
product are each rounded to `float`. -/
def quadraticSpeed (minSpeed maxSpeed linePosition : Int) : Int :=
  let errorRatio := constrain (toFloat32 ((|linePosition| : ℚ) / 1000)) 0 1
  minSpeed + truncInt (toFloat32 (toFloat32 ((maxSpeed - minSpeed : Int) : ℚ) *
    toFloat32 (1 - toFloat32 (errorRatio * errorRatio))))

/-- The formula of the speed curve in exact arithmetic, as the specification
words it: `minSpeed + trunc((maxSpeed - minSpeed) * (1 - ratio^2))` with
`ratio = min(|e| / 1000, 1)`. -/
def quadraticSpeedExact (minSpeed maxSpeed linePosition : Int) : Int :=
  minSpeed + truncInt (((maxSpeed - minSpeed : Int) : ℚ) *
    (1 - (min ((|linePosition| : ℚ) / 1000) 1) ^ 2))

/-- The fast speed of the current phase (`currentSpeedFast`, used as
`maxSpeed`). -/
def Sequencer.maxSpeed (s : Sequencer) : Int :=
  if s.objectDetector.isCompleted = true then s.params.speedFastPost else s.params.speedFast

/-- The turn speed of the current phase (`currentSpeedTurn`, used as
`minSpeed`). -/
def Sequencer.minSpeed (s : Sequencer) : Int :=
  if s.objectDetector.isCompleted = true then s.params.speedTurnPost else s.params.speedTurn

/-- The local `baseSpeed` of `lineFollowControl` (lines 1016-1033) on the
PID path: the quadratic curve between the turn speed and the fast speed of
the current phase, replaced by `params.speedSlow` when the position is
beyond 800. -/
def Sequencer.baseSpeed (s : Sequencer) (linePosition : Int) : Int :=
  let completed := s.objectDetector.isCompleted
  let currentSpeedFast :=
    if completed = true then s.params.speedFastPost else s.params.speedFast
  let currentSpeedTurn :=
    if completed = true then s.params.speedTurnPost else s.params.speedTurn
  let errorRatio := constrain (toFloat32 ((|linePosition| : ℚ) / 1000)) 0 1
  let maxSpeed := currentSpeedFast
  let minSpeed := currentSpeedTurn
  let baseSpeed0 :=
    minSpeed + truncInt (toFloat32 (toFloat32 ((maxSpeed - minSpeed : Int) : ℚ) *
      toFloat32 (1 - toFloat32 (errorRatio * errorRatio))))
  if |linePosition| > 800 then s.params.speedSlow else baseSpeed0

/-- A sequencer with turn speed 120 and fast speed 220. -/
def Sequencer.fastExample : Sequencer :=
  { Sequencer.initial with params := { ParameterManager.defaults with speedFast := 220 } }

/-- The initial sequencer with the parking-test command pending. -/
def Sequencer.parkingTestPending : Sequencer :=
  { Sequencer.initial with pendingTestParking := true }

/-- The sequencer following the line, obstacle detection not armed, with the
measurement pipeline of `ObjectDetector.exitExample` about to complete. -/
def Sequencer.measuringExample : Sequencer :=
  { Sequencer.initial with
    currentState := SystemState.STATE_LINE_FOLLOW
    systemRunning := true
    objectDetector := ObjectDetector.exitExample }

/-- The step bookkeeping of the sequencer is the same in `t` as in `s`:
top-level state, the three sub-states, the step start times, the step
baselines and the number of encoder resets. -/
def Sequencer.sameStep (s t : Sequencer) : Prop :=
  t.currentState = s.currentState ∧ t.avoidSubState = s.avoidSubState ∧
  t.parkingSubState = s.parkingSubState ∧ t.currentTestState = s.currentTestState ∧
  t.avoidStateStartTime = s.avoidStateStartTime ∧
  t.avoidStateStartDistance = s.avoidStateStartDistance ∧
  t.avoidStartLeftDist = s.avoidStartLeftDist ∧
  t.avoidStartRightDist = s.avoidStartRightDist ∧
  t.parkingStateStartTime = s.parkingStateStartTime ∧
  t.testStartTime = s.testStartTime ∧
  t.motor.encoderResets = s.motor.encoderResets

/-- The sequencer of `searchingExample` (avoidance step 6 in progress) with
the parking-test command pending. -/
def Sequencer.searchingWithParkingTest : Sequencer :=
  { Sequencer.searchingExample with pendingTestParking := true }

/-- The sequencer of `searchingExample` with the three guarded test commands
and a manual forward command pending. -/
def Sequencer.searchingWithCommands : Sequencer :=
  { Sequencer.searchingExample with
    pendingTestTurn := true
    pendingTestStraight := true
    pendingTestAvoid := true
    pendingManualCmd := ManualCommand.CMD_FORWARD }

/-- The sum of the weights of the sensors that see the line. -/
def LineSensor.activeWeightSum (ls : LineSensor) : Int :=
  (ls.activeIndices.map ls.weights).sum

/-- The number of sensors that see the line. -/
def LineSensor.activeCount (ls : LineSensor) : Int :=
  (ls.activeIndices.length : Int)

/-- A tick with the laser ready: time, raw range and the travel of both
wheels. -/
def DetectorTick.reading (now range : Nat) (travel : ℚ) : DetectorTick :=
  { now := now, laserReady := true, laserDistance := range, leftDistance := travel,
    rightDistance := travel }

/-- A detector with filter size 1 started with threshold 300 that saw one
reading of 302 mm at travel 100 and then four readings of 299 mm at travel
104, 108, 112 and 116: the range crosses the threshold by 3 mm only. -/
def ObjectDetector.slowApproach : ObjectDetector :=
  ((ObjectDetector.construct.setFilterSize 1).startDetection 0 0 0 0 300).run
    [DetectorTick.reading 100 302 100, DetectorTick.reading 120 299 104,
     DetectorTick.reading 140 299 108, DetectorTick.reading 160 299 112,
     DetectorTick.reading 180 299 116]

/-- The sequencer one pass after the first obstacle was met at 1100 ms:
avoidance step 1 just entered. -/
def Sequencer.avoidEntered : Sequencer :=
  Sequencer.armedExample.lineFollowControl LoopInputs.obstacleAhead

/-- Inputs at 4000 ms: the wheels have turned by 120 mm in opposite
directions, no line under the sensor. -/
def LoopInputs.firstTurnDone : LoopInputs :=
  { now := 4000, ultraDist := 100, leftDistance := -120, rightDistance := 120,
    lineDataReady := true, lineRawStates := 0, lineLost := true, linePosition := 0,
    lastPosition := 0 }

/-- Inputs at 6500 ms: both wheels 200 mm into the forward step, no line
under the sensor. -/
def LoopInputs.drivingOut : LoopInputs :=
  { now := 6500, ultraDist := 100, leftDistance := 200, rightDistance := 200,
    lineDataReady := true, lineRawStates := 0, lineLost := true, linePosition := 0,
    lastPosition := 0 }

/-- Inputs at 3000 ms: both wheels at the search distance of 800 mm, no line
under the sensor. -/
def LoopInputs.searchExhausted : LoopInputs :=
  { now := 3000, ultraDist := 100, leftDistance := 800, rightDistance := 800,
    lineDataReady := true, lineRawStates := 0, lineLost := true, linePosition := 0,
    lastPosition := 0 }

/-- The number of out-of-range flags at the end of a trace. -/
def countTrailingFalse (trace : List Bool) : Nat :=
  trace.foldl (fun n b => if b then 0 else n + 1) 0

/-- The sequencer in the turn test started at 1000 ms. -/
def Sequencer.turnTestExample : Sequencer :=
  { Sequencer.initial with
    currentState := SystemState.STATE_TESTING
    systemRunning := true
    currentTestState := TestSubState.TEST_TURN_90
    testStartTime := 1000 }

/-- Inputs at 2000 ms: the wheels have turned by 100 mm in opposite
directions. -/
def LoopInputs.turning : LoopInputs :=
  { now := 2000, ultraDist := 100, leftDistance := -100, rightDistance := 100,
    lineDataReady := true, lineRawStates := 0, lineLost := true, linePosition := 0,
    lastPosition := 0 }

/-- The valid short press of the button state machine of `loop` (lines
1178-1218): `systemRunning` is toggled; on a start the sequencer is put in
`STATE_LINE_FOLLOW`, the measurement pipeline is configured and started (the
encoders were just reset, so it reads both wheel distances as 0) and the
obstacle detection is disarmed; on a stop the motors are stopped and a running
measurement is ended. The run-time statistics are not part of the state. -/
def Sequencer.shortPress (s : Sequencer) (i : LoopInputs) : Sequencer :=
  let s1 := { s with systemRunning := !s.systemRunning }
  if s1.systemRunning = true then
    let d1 := (s1.objectDetector.setFilterSize s1.params.objectFilterSize).setCorrection
      s1.params.objectLengthScale s1.params.objectLengthOffset
    let d2 := d1.startDetection i.now 0 0 0 (Int.toNat (s1.params.objectDetectDist % 65536))
    { s1 with
      currentState := SystemState.STATE_LINE_FOLLOW
      motor := s1.motor.resetEncoders.resetEncoders
      pidController := s1.pidController.reset.reset
      avoidanceFinishTime := 0
      postAvoidanceStable := false
      objectDetector := d2
      obstacleDetectCount := 0
      obstacleDetectionEnabled := false }
  else
    let s2 := { s1 with motor := s1.motor.stop, currentState := SystemState.STATE_IDLE }
    if s2.objectDetector.isDetecting = true then
      { s2 with
        objectDetector := s2.objectDetector.stopDetection i.now i.leftDistance i.rightDistance }
    else s2

/-! ## Task callbacks and the control loop of `main.cpp` -/

/-- Enumeration `enum TaskType` of `TaskManager.h`. -/
inductive TaskType where
  | TASK_LINE_FOLLOW
  | TASK_MEASURE_OBJECT
  | TASK_FORWARD
  | TASK_BACKWARD
  | TASK_TURN_LEFT
  | TASK_TURN_RIGHT
  | TASK_STOP
  | TASK_DELAY
  | TASK_BEEP
  | TASK_CUSTOM
  deriving DecidableEq, Repr

/-- The numeric members of `struct TaskParams` of `TaskManager.h`. -/
structure TaskParams where
  distance : ℚ
  angle : ℚ
  speed : Int
  duration : Nat
  laserBaseline : Nat
  laserThreshold : Nat

/-- Function `executeTask` of `main.cpp` (lines 174-217) on a non-null task:
the new sequencer and the returned flag. -/
def Sequencer.executeTask (s : Sequencer) (type : TaskType) (p : TaskParams)
    (i : LoopInputs) : Sequencer × Bool :=
  match type with
  | TaskType.TASK_LINE_FOLLOW =>
    ({ s with systemRunning := true, currentState := SystemState.STATE_LINE_FOLLOW }, true)
  | TaskType.TASK_MEASURE_OBJECT =>
    ({ s with
       objectDetector := s.objectDetector.startDetection i.now i.leftDistance i.rightDistance
         p.laserBaseline p.laserThreshold }, true)
  | TaskType.TASK_FORWARD =>
    ({ s with
       motor := s.motor.resetEncoders.setBothSpeed
         (if p.speed > 0 then p.speed else s.params.speedNormal) }, true)
  | TaskType.TASK_STOP =>
    ({ s with systemRunning := false, motor := s.motor.stop }, true)
  | TaskType.TASK_DELAY => (s, true)
  | TaskType.TASK_BEEP => (s, true)
  | _ => (s, false)

/-- Function `checkTaskCompletion` of `main.cpp` (lines 220-266) on a
non-null task started at `startTime`: the new sequencer and the returned
flag. -/
def Sequencer.checkTaskCompletion (s : Sequencer) (type : TaskType) (p : TaskParams)
    (startTime : Nat) (i : LoopInputs) : Sequencer × Bool :=
  let avgDist := (i.leftDistance + i.rightDistance) / 2
  match type with
  | TaskType.TASK_LINE_FOLLOW =>
    if p.distance > 0 then (s, decide (avgDist ≥ p.distance)) else (s, false)
  | TaskType.TASK_MEASURE_OBJECT =>
    (s, s.objectDetector.isCompleted || decide (ulongSub i.now startTime > 30000))
  | TaskType.TASK_FORWARD =>
    if p.distance > 0 then
      if avgDist ≥ p.distance then ({ s with motor := s.motor.stop }, true) else (s, false)
    else if p.duration > 0 then
      if ulongSub i.now startTime ≥ p.duration then ({ s with motor := s.motor.stop }, true)
      else (s, false)
    else (s, false)
  | TaskType.TASK_STOP => (s, true)
  | TaskType.TASK_DELAY => (s, decide (ulongSub i.now startTime ≥ p.duration))
  | TaskType.TASK_BEEP => (s, true)
  | _ => (s, true)

/-- What the button state machine of `loop` (lines 1167-1238) recognises in
one pass: nothing, a valid short press (released after 50 ms to 2 s) or a long
press. -/
inductive ButtonEvent where
  | none
  | shortPress
  | longPress
  deriving DecidableEq, Repr

/-- The callback that `taskManager.update()` invokes in one pass: none, the
executor on a pending task, or the checker on a running task with its start
time. -/
inductive TaskCall where
  | none
  | execute (type : TaskType) (p : TaskParams)
  | check (type : TaskType) (p : TaskParams) (startTime : Nat)

/-- What one pass of `loop` reads: `millis()`, the readings of the
measurement tick of `updateSensors`, the button event, the task callback and
the readings of the state handlers. -/
structure PassInputs where
  now : Nat
  tick : DetectorTick
  button : ButtonEvent
  task : TaskCall
  inputs : LoopInputs

/-- The button part of `loop` (lines 1167-1238). -/
def Sequencer.buttonStep (s : Sequencer) (b : ButtonEvent) (i : LoopInputs) : Sequencer :=
  match b with
  | ButtonEvent.none => s
  | ButtonEvent.shortPress => s.shortPress i
  | ButtonEvent.longPress => { s with motor := s.motor.resetEncoders }

/-- The effect of `taskManager.update()` (line 1252) on the sequencer: that of
the callback it invokes. -/
def Sequencer.taskUpdate (s : Sequencer) (c : TaskCall) (i : LoopInputs) : Sequencer :=
  match c with
  | TaskCall.none => s
  | TaskCall.execute type p => (s.executeTask type p i).1
  | TaskCall.check type p startTime => (s.checkTaskCompletion type p startTime i).1

/-- The `switch (currentState)` of `loop` (lines 1264-1296). -/
def Sequencer.dispatch (s : Sequencer) (i : LoopInputs) : Sequencer :=
  match s.currentState with
  | SystemState.STATE_IDLE => { s with motor := s.motor.stop }
  | SystemState.STATE_LINE_FOLLOW =>
    if s.systemRunning = true then s.lineFollowControl i else { s with motor := s.motor.stop }
  | SystemState.STATE_OBSTACLE_AVOID => s.handleObstacleAvoidance i
  | SystemState.STATE_PARKING => s.handleParking i
  | SystemState.STATE_FINISHED => { s with motor := s.motor.stop }
  | SystemState.STATE_TESTING => s.handleTestMode i

/-- Function `loop` of `main.cpp`, one pass: pending commands, sensor pass,
button, manual-control hold (which ends the pass), task manager, state
handler. The status push and the display take no part in the state. -/
def Sequencer.loop (s : Sequencer) (p : PassInputs) : Sequencer :=
  let s1 := s.processPendingCommands p.now
  let s2 := s1.updateSensors p.tick
  let s3 := s2.buttonStep p.button p.inputs
  if s3.manualControlActive = true then
    if p.now ≥ s3.manualControlEndTime then
      { s3 with motor := s3.motor.stop, manualControlActive := false }
    else s3
  else
    (s3.taskUpdate p.task p.inputs).dispatch p.inputs

/-- What the web callbacks of `main.cpp` (lines 269-280 and 470-486) leave
for the next pass: a manual command with its value, or one of the four test
flags. -/
inductive WebRequest where
  | motion (cmd : ManualCommand) (value : ℚ)
  | testTurn
  | testStraight
  | testAvoid
  | testParking

/-- The effect of a web callback on the pending-command variables. A motion
action that is not recognised leaves the command and stores the value. -/
def Sequencer.request (s : Sequencer) (r : WebRequest) : Sequencer :=
  match r with
  | WebRequest.motion cmd value =>
    { s with
      pendingManualCmd := if cmd = ManualCommand.CMD_NONE then s.pendingManualCmd else cmd
      pendingManualValue := value }
  | WebRequest.testTurn => { s with pendingTestTurn := true }
  | WebRequest.testStraight => { s with pendingTestStraight := true }
  | WebRequest.testAvoid => { s with pendingTestAvoid := true }
  | WebRequest.testParking => { s with pendingTestParking := true }

/-- One event of a run of the control loop: a web request that sets a
pending command, or a pass of `loop`. -/
inductive LoopEvent where
  | request (r : WebRequest)
  | pass (p : PassInputs)

/-- The sequencer after one event. -/
def Sequencer.step (s : Sequencer) (e : LoopEvent) : Sequencer :=
  match e with
  | LoopEvent.request r => s.request r
  | LoopEvent.pass p => s.loop p

/-- The sequencer after a run of events. -/
def Sequencer.runLoop (s : Sequencer) (events : List LoopEvent) : Sequencer :=
  events.foldl Sequencer.step s

/-- The event arms the obstacle detection in one of the two ways of the
code: it is a pass that starts with the parking-test command pending, or a
pass whose measurement tick leaves the pipeline in `DETECT_COMPLETED`. -/
def Sequencer.armedBy (s : Sequencer) (e : LoopEvent) : Prop :=
  match e with
  | LoopEvent.request _ => False
  | LoopEvent.pass p =>
    s.pendingTestParking = true ∨
    ((s.processPendingCommands p.now).updateSensors p.tick).objectDetector.state =
      DetectionState.DETECT_COMPLETED

/-- The sequencer of `searchingExample` (avoidance step 6 in progress) after a
`TASK_STOP` task was executed, with the turn-test command pending. -/
def Sequencer.stoppedWithTurnTest : Sequencer :=
  { (Sequencer.searchingExample.executeTask TaskType.TASK_STOP
      { distance := 0, angle := 0, speed := 0, duration := 0, laserBaseline := 0,
        laserThreshold := 0 } LoopInputs.lineSeen).1 with pendingTestTurn := true }

/-- The sequencer following the line, detection not armed, after a
`TASK_STOP` task was executed, with the avoidance-test command pending. -/
def Sequencer.stoppedWithAvoidTest : Sequencer :=
  { ({ Sequencer.armedExample with obstacleDetectionEnabled := false }.executeTask
      TaskType.TASK_STOP
      { distance := 0, angle := 0, speed := 0, duration := 0, laserBaseline := 0,
        laserThreshold := 0 } LoopInputs.lineSeen).1 with pendingTestAvoid := true }

/-- A pass at 2000 ms with no button event, no task callback and an
out-of-range laser reading. -/
def PassInputs.quiet : PassInputs :=
  { now := 2000, tick := DetectorTick.reading 2000 3000 0, button := ButtonEvent.none,
    task := TaskCall.none, inputs := LoopInputs.turning }
/-! ### Basic facts on `constrain` and the three paths of `compute` -/

theorem constrain_eq_max_min (x lo hi : ℚ) (h : lo ≤ hi) :
    constrain x lo hi = max lo (min x hi) := by
  unfold constrain
  split_ifs with h1 h2
  · rw [max_eq_left]; exact le_trans (min_le_left _ _) h1.le
  · rw [min_eq_right h2.le, max_eq_right h]
  · push_neg at h1 h2
    rw [min_eq_left h2, max_eq_right h1]

theorem constrain_mem (x lo hi : ℚ) (h : lo ≤ hi) :
    lo ≤ constrain x lo hi ∧ constrain x lo hi ≤ hi := by
  unfold constrain
  split_ifs with h1 h2
  · exact ⟨le_refl _, h⟩
  · exact ⟨h, le_refl _⟩
  · push_neg at h1 h2
    exact ⟨h1, h2⟩

theorem constrain_zero_500 : constrain 0 (-500) 500 = 0 := by
  unfold constrain; norm_num

/-! ### Rounding to `float` -/

theorem roundHalfEven_cases (m : ℚ) :
    roundHalfEven m = ⌊m⌋ ∨ roundHalfEven m = ⌊m⌋ + 1 := by
  unfold roundHalfEven
  have hf : Rat.floor m = ⌊m⌋ := rfl
  simp only [hf]
  split_ifs <;> simp

theorem roundHalfEven_intCast (n : Int) : roundHalfEven (n : ℚ) = n := by
  unfold roundHalfEven
  have hf : Rat.floor (n : ℚ) = n := by
    show ⌊(n : ℚ)⌋ = n
    exact Int.floor_intCast n
  simp only [hf, sub_self]
  norm_num

/-- The rounded value is within one half of the argument. -/
theorem roundHalfEven_abs_sub_le (m : ℚ) : |(roundHalfEven m : ℚ) - m| ≤ 1 / 2 := by
  unfold roundHalfEven
  have hf : Rat.floor m = ⌊m⌋ := rfl
  simp only [hf]
  have h1 := Int.floor_le m
  have h2 := Int.lt_floor_add_one m
  rw [abs_le]
  split_ifs with a b c
  · constructor <;> linarith
  · push_cast; constructor <;> linarith
  · push_neg at a b
    constructor <;> linarith
  · push_neg at a b
    push_cast
    constructor <;> linarith

/-- Rounding to nearest, ties to even, is monotone. -/
theorem roundHalfEven_mono {a b : ℚ} (h : a ≤ b) : roundHalfEven a ≤ roundHalfEven b := by
  have hfl : ⌊a⌋ ≤ ⌊b⌋ := Int.floor_mono h
  rcases lt_or_eq_of_le hfl with hlt | heq
  · rcases roundHalfEven_cases a with ha | ha <;> rcases roundHalfEven_cases b with hb | hb <;>
      omega
  · unfold roundHalfEven
    have hfa : Rat.floor a = ⌊a⌋ := rfl
    have hfb : Rat.floor b = ⌊b⌋ := rfl
    simp only [hfa, hfb, heq]
    split_ifs with a1 a2 a3 b1 b2 b3 b1 b2 b3 b1 b2 b3 <;>
      first
      | omega
      | (exfalso; linarith)

/-- For positive `q` the scaled value `q / ulp` lies in `[2^23, 2^24)`. -/
theorem scaled_mem (q : ℚ) (hq : 0 < q) :
    (2 : ℚ) ^ (23 : ℕ) ≤ q / 2 ^ (Int.log 2 q - 23) ∧
    q / 2 ^ (Int.log 2 q - 23) < (2 : ℚ) ^ (24 : ℕ) := by
  have h1 : ((2 : ℕ) : ℚ) ^ Int.log 2 q ≤ q := Int.zpow_log_le_self (by norm_num) hq
  have h2 : q < ((2 : ℕ) : ℚ) ^ (Int.log 2 q + 1) := Int.lt_zpow_succ_log_self (by norm_num) q
  push_cast at h1 h2
  have hu : (0 : ℚ) < 2 ^ (Int.log 2 q - 23) := zpow_pos (by norm_num) _
  have e1 : (2 : ℚ) ^ (23 : ℕ) * 2 ^ (Int.log 2 q - 23) = 2 ^ Int.log 2 q := by
    rw [← zpow_natCast, ← zpow_add₀ (by norm_num : (2 : ℚ) ≠ 0)]
    congr 1
    omega
  have e2 : (2 : ℚ) ^ (24 : ℕ) * 2 ^ (Int.log 2 q - 23) = 2 ^ (Int.log 2 q + 1) := by
    rw [← zpow_natCast, ← zpow_add₀ (by norm_num : (2 : ℚ) ≠ 0)]
    congr 1
    omega
  constructor
  · rw [le_div_iff₀ hu, e1]; exact h1
  · rw [div_lt_iff₀ hu, e2]; exact h2

theorem toFloat32_zero : toFloat32 0 = 0 := by
  unfold toFloat32
  rw [if_pos rfl]

theorem toFloat32_pos_eq (q : ℚ) (hq : 0 < q) :
    toFloat32 q = (roundHalfEven (q / 2 ^ (Int.log 2 q - 23)) : ℚ) * 2 ^ (Int.log 2 q - 23) := by
  unfold toFloat32
  rw [if_neg (ne_of_gt hq), abs_of_pos hq]

/-- A positive value is rounded into its own binade, end points included. -/
theorem toFloat32_bounds (q : ℚ) (hq : 0 < q) :
    (2 : ℚ) ^ Int.log 2 q ≤ toFloat32 q ∧ toFloat32 q ≤ 2 ^ (Int.log 2 q + 1) := by
  obtain ⟨h1, h2⟩ := scaled_mem q hq
  have hu : (0 : ℚ) < 2 ^ (Int.log 2 q - 23) := zpow_pos (by norm_num) _
  have r1 : ((2 : Int) ^ (23 : ℕ) : Int) ≤ roundHalfEven (q / 2 ^ (Int.log 2 q - 23)) := by
    have := roundHalfEven_mono h1
    have e : ((2 : ℚ) ^ (23 : ℕ)) = (((2 : Int) ^ (23 : ℕ) : Int) : ℚ) := by norm_num
    rw [e, roundHalfEven_intCast] at this
    exact this
  have r2 : roundHalfEven (q / 2 ^ (Int.log 2 q - 23)) ≤ ((2 : Int) ^ (24 : ℕ) : Int) := by
    have := roundHalfEven_mono (le_of_lt h2)
    have e : ((2 : ℚ) ^ (24 : ℕ)) = (((2 : Int) ^ (24 : ℕ) : Int) : ℚ) := by norm_num
    rw [e, roundHalfEven_intCast] at this
    exact this
  have e1 : (2 : ℚ) ^ (23 : ℕ) * 2 ^ (Int.log 2 q - 23) = 2 ^ Int.log 2 q := by
    rw [← zpow_natCast, ← zpow_add₀ (by norm_num : (2 : ℚ) ≠ 0)]
    congr 1
    omega
  have e2 : (2 : ℚ) ^ (24 : ℕ) * 2 ^ (Int.log 2 q - 23) = 2 ^ (Int.log 2 q + 1) := by
    rw [← zpow_natCast, ← zpow_add₀ (by norm_num : (2 : ℚ) ≠ 0)]
    congr 1
    omega
  rw [toFloat32_pos_eq q hq, ← e1, ← e2]
  have c1 : ((2 : ℚ) ^ (23 : ℕ)) ≤ (roundHalfEven (q / 2 ^ (Int.log 2 q - 23)) : ℚ) := by
    exact_mod_cast r1
  have c2 : (roundHalfEven (q / 2 ^ (Int.log 2 q - 23)) : ℚ) ≤ ((2 : ℚ) ^ (24 : ℕ)) := by
    exact_mod_cast r2
  exact ⟨mul_le_mul_of_nonneg_right c1 (le_of_lt hu), mul_le_mul_of_nonneg_right c2 (le_of_lt hu)⟩

theorem toFloat32_pos (q : ℚ) (hq : 0 < q) : 0 < toFloat32 q :=
  lt_of_lt_of_le (zpow_pos (by norm_num) _) (toFloat32_bounds q hq).1

/-- Rounding to `float` is monotone on the non-negative values. -/
theorem toFloat32_mono {q r : ℚ} (hq : 0 ≤ q) (h : q ≤ r) : toFloat32 q ≤ toFloat32 r := by
  rcases eq_or_lt_of_le hq with h0 | hpos
  · rw [← h0, toFloat32_zero]
    rcases eq_or_lt_of_le (le_trans hq h) with h1 | h1
    · rw [← h1, toFloat32_zero]
    · exact le_of_lt (toFloat32_pos r h1)
  · have hr : 0 < r := lt_of_lt_of_le hpos h
    have hlog : Int.log 2 q ≤ Int.log 2 r := Int.log_mono_right hpos h
    rcases lt_or_eq_of_le hlog with hlt | heq
    · have b1 := (toFloat32_bounds q hpos).2
      have b2 := (toFloat32_bounds r hr).1
      have hz : (2 : ℚ) ^ (Int.log 2 q + 1) ≤ 2 ^ Int.log 2 r :=
        zpow_le_zpow_right₀ (by norm_num) (by omega)
      linarith
    · rw [toFloat32_pos_eq q hpos, toFloat32_pos_eq r hr, heq]
      have hu : (0 : ℚ) < 2 ^ (Int.log 2 r - 23) := zpow_pos (by norm_num) _
      have hm : q / 2 ^ (Int.log 2 r - 23) ≤ r / 2 ^ (Int.log 2 r - 23) :=
        div_le_div_of_nonneg_right h (le_of_lt hu)
      have := roundHalfEven_mono hm
      have c : (roundHalfEven (q / 2 ^ (Int.log 2 r - 23)) : ℚ) ≤
          (roundHalfEven (r / 2 ^ (Int.log 2 r - 23)) : ℚ) := by exact_mod_cast this
      exact mul_le_mul_of_nonneg_right c (le_of_lt hu)

/-- The relative error of rounding a positive value to `float` is at most
`2^-24`. -/
theorem toFloat32_error (q : ℚ) (hq : 0 < q) : |toFloat32 q - q| ≤ q / 2 ^ (24 : ℕ) := by
  have hu : (0 : ℚ) < 2 ^ (Int.log 2 q - 23) := zpow_pos (by norm_num) _
  have h1 : ((2 : ℕ) : ℚ) ^ Int.log 2 q ≤ q := Int.zpow_log_le_self (by norm_num) hq
  push_cast at h1
  have e1 : (2 : ℚ) ^ (23 : ℕ) * 2 ^ (Int.log 2 q - 23) = 2 ^ Int.log 2 q := by
    rw [← zpow_natCast, ← zpow_add₀ (by norm_num : (2 : ℚ) ≠ 0)]
    congr 1
    omega
  have hr := roundHalfEven_abs_sub_le (q / 2 ^ (Int.log 2 q - 23))
  have hq2 : q = q / 2 ^ (Int.log 2 q - 23) * 2 ^ (Int.log 2 q - 23) := by
    field_simp
  have hd : toFloat32 q - q =
      ((roundHalfEven (q / 2 ^ (Int.log 2 q - 23)) : ℚ) - q / 2 ^ (Int.log 2 q - 23)) *
        2 ^ (Int.log 2 q - 23) := by
    rw [toFloat32_pos_eq q hq, sub_mul, ← hq2]
  rw [hd, abs_mul, abs_of_pos hu]
  have hb : |(roundHalfEven (q / 2 ^ (Int.log 2 q - 23)) : ℚ) - q / 2 ^ (Int.log 2 q - 23)| *
      2 ^ (Int.log 2 q - 23) ≤ 1 / 2 * 2 ^ (Int.log 2 q - 23) :=
    mul_le_mul_of_nonneg_right hr (le_of_lt hu)
  have hc : (1 : ℚ) / 2 * 2 ^ (Int.log 2 q - 23) = 2 ^ Int.log 2 q / 2 ^ (24 : ℕ) := by
    rw [← e1]; norm_num; ring
  have hd2 : (2 : ℚ) ^ Int.log 2 q / 2 ^ (24 : ℕ) ≤ q / 2 ^ (24 : ℕ) :=
    div_le_div_of_nonneg_right h1 (by positivity)
  linarith

/-- A value whose scaled form is an integer is a `float`. -/
theorem toFloat32_exact (q : ℚ) (hq : 0 < q) (k : Int)
    (hk : q / 2 ^ (Int.log 2 q - 23) = (k : ℚ)) : toFloat32 q = q := by
  have hu : (0 : ℚ) < 2 ^ (Int.log 2 q - 23) := zpow_pos (by norm_num) _
  rw [toFloat32_pos_eq q hq, hk, roundHalfEven_intCast, ← hk]
  field_simp

/-- Every natural number up to `2^24` is a `float`. -/
theorem toFloat32_natCast (n : ℕ) (hn : n ≤ 2 ^ 24) : toFloat32 (n : ℚ) = n := by
  rcases Nat.eq_zero_or_pos n with h0 | hpos
  · subst h0; simpa using toFloat32_zero
  · have hq : (0 : ℚ) < n := by exact_mod_cast hpos
    have hlog : Int.log 2 (n : ℚ) = Nat.log 2 n := Int.log_natCast 2 n
    have hle : Nat.log 2 n ≤ 24 := by
      have := Nat.log_mono_right (b := 2) hn
      rwa [Nat.log_pow (by norm_num)] at this
    rcases Nat.lt_or_ge (Nat.log 2 n) 24 with hlt | hge
    · refine toFloat32_exact _ hq ((n : Int) * 2 ^ (23 - Nat.log 2 n)) ?_
      rw [hlog]
      have e : ((Nat.log 2 n : ℕ) : Int) - 23 = -((23 - Nat.log 2 n : ℕ) : Int) := by omega
      rw [e, zpow_neg, zpow_natCast]
      push_cast
      field_simp
    · have h24 : Nat.log 2 n = 24 := le_antisymm hle hge
      have hn24 : n = 2 ^ 24 := by
        apply le_antisymm hn
        have := Nat.pow_log_le_self 2 (Nat.pos_iff_ne_zero.mp hpos)
        rwa [h24] at this
      refine toFloat32_exact _ hq (2 ^ 23) ?_
      rw [hlog, h24, hn24]
      norm_num

theorem toFloat32_one : toFloat32 1 = 1 := by
  have := toFloat32_natCast 1 (by norm_num)
  simpa using this

theorem log_two_hundredth : Int.log 2 ((1 : ℚ) / 100) = -7 := by
  have h1 : (-7 : Int) ≤ Int.log 2 ((1 : ℚ) / 100) :=
    (Int.zpow_le_iff_le_log (by norm_num) (by norm_num)).1 (by norm_num)
  have h2 : Int.log 2 ((1 : ℚ) / 100) < -6 :=
    (Int.lt_zpow_iff_log_lt (by norm_num) (by norm_num)).1 (by norm_num)
  omega

/-- The `float` nearest to 0.01 is `10737418 / 2^30`, below 0.01. -/
theorem toFloat32_hundredth : toFloat32 (1 / 100) = 10737418 / 2 ^ (30 : ℕ) := by
  rw [toFloat32_pos_eq _ (by norm_num), log_two_hundredth]
  have hs : (1 : ℚ) / 100 / 2 ^ ((-7 : Int) - 23) = 10737418 + 6 / 25 := by
    norm_num [zpow_neg]
  have hr : roundHalfEven (10737418 + 6 / 25) = 10737418 := by
    unfold roundHalfEven
    have hf : Rat.floor ((10737418 : ℚ) + 6 / 25) = 10737418 := by
      show ⌊(10737418 : ℚ) + 6 / 25⌋ = 10737418
      rw [Int.floor_eq_iff]
      norm_num
    simp only [hf]
    norm_num
  rw [hs, hr]
  norm_num [zpow_neg]

/-- The comparison `deltaTime > 1.0` on the `float` quotient of a millisecond
count by 1000. -/
theorem toFloat32_ms_gt_one_iff (n : ℕ) : toFloat32 ((n : ℚ) / 1000) > 1 ↔ 1000 < n := by
  constructor
  · intro h
    by_contra hn
    push_neg at hn
    have hle : (n : ℚ) / 1000 ≤ 1 := by
      rw [div_le_one (by norm_num)]
      exact_mod_cast hn
    have := toFloat32_mono (by positivity) hle
    rw [toFloat32_one] at this
    linarith
  · intro h
    have hq : (1001 : ℚ) / 1000 ≤ (n : ℚ) / 1000 := by
      apply div_le_div_of_nonneg_right _ (by norm_num)
      exact_mod_cast h
    have hpos : (0 : ℚ) < (n : ℚ) / 1000 := by linarith
    have he := toFloat32_error _ hpos
    rw [abs_le] at he
    have : (n : ℚ) / 1000 - (n : ℚ) / 1000 / 2 ^ (24 : ℕ) > 1 := by
      have : (n : ℚ) / 1000 * (1 - 1 / 2 ^ (24 : ℕ)) > 1 := by
        have h3 : (1001 : ℚ) / 1000 * (1 - 1 / 2 ^ (24 : ℕ)) > 1 := by norm_num
        have h4 : (0 : ℚ) < 1 - 1 / 2 ^ (24 : ℕ) := by norm_num
        nlinarith
      linarith [this]
    linarith [he.1]

/-- The comparison `deltaTime < 0.01` on the `float` quotient of a
millisecond count by 1000: it holds up to 10 ms included, because the `float`
nearest to 0.01 lies below 0.01. -/
theorem toFloat32_ms_lt_iff (n : ℕ) : toFloat32 ((n : ℚ) / 1000) < 1 / 100 ↔ n ≤ 10 := by
  constructor
  · intro h
    by_contra hn
    push_neg at hn
    have hq : (11 : ℚ) / 1000 ≤ (n : ℚ) / 1000 := by
      apply div_le_div_of_nonneg_right _ (by norm_num)
      exact_mod_cast hn
    have hpos : (0 : ℚ) < (n : ℚ) / 1000 := by linarith
    have he := toFloat32_error _ hpos
    rw [abs_le] at he
    have : (n : ℚ) / 1000 * (1 - 1 / 2 ^ (24 : ℕ)) > 1 / 100 := by
      have h3 : (11 : ℚ) / 1000 * (1 - 1 / 2 ^ (24 : ℕ)) > 1 / 100 := by norm_num
      have h4 : (0 : ℚ) < 1 - 1 / 2 ^ (24 : ℕ) := by norm_num
      nlinarith
    linarith [he.1]
  · intro h
    have hle : (n : ℚ) / 1000 ≤ 1 / 100 := by
      rw [div_le_iff₀ (by norm_num)]
      have : (n : ℚ) ≤ 10 := by exact_mod_cast h
      linarith
    have := toFloat32_mono (by positivity) hle
    rw [toFloat32_hundredth] at this
    have : (10737418 : ℚ) / 2 ^ (30 : ℕ) < 1 / 100 := by norm_num
    linarith

theorem roundHalfEven_neg (m : ℚ) : roundHalfEven (-m) = -roundHalfEven m := by
  by_cases hint : ((⌊m⌋ : Int) : ℚ) = m
  · rw [← hint, ← Int.cast_neg, roundHalfEven_intCast, roundHalfEven_intCast]
  · have h1 := Int.floor_le m
    have h2 := Int.lt_floor_add_one m
    have hlt : ((⌊m⌋ : Int) : ℚ) < m := lt_of_le_of_ne h1 hint
    have hf : ⌊-m⌋ = -⌊m⌋ - 1 := by
      rw [Int.floor_eq_iff]
      push_cast
      constructor <;> linarith
    unfold roundHalfEven
    have e1 : Rat.floor (-m) = -⌊m⌋ - 1 := hf
    have e2 : Rat.floor m = ⌊m⌋ := rfl
    simp only [e1, e2]
    push_cast
    split_ifs <;>
      first
      | omega
      | (exfalso; linarith)

theorem toFloat32_neg (q : ℚ) : toFloat32 (-q) = -toFloat32 q := by
  unfold toFloat32
  by_cases h : q = 0
  · subst h; simp
  · rw [if_neg h, if_neg (neg_ne_zero.mpr h), abs_neg]
    dsimp only
    rw [neg_div, roundHalfEven_neg]
    push_cast
    ring

/-- Every integer of absolute value up to `2^24` is a `float`. -/
theorem toFloat32_intCast (n : Int) (hn : |n| ≤ 2 ^ 24) : toFloat32 (n : ℚ) = n := by
  rcases le_total 0 n with h | h
  · have e : n = ((n.toNat : ℕ) : Int) := (Int.toNat_of_nonneg h).symm
    have hb : n.toNat ≤ 2 ^ 24 := by
      rw [abs_of_nonneg h] at hn
      omega
    rw [e]
    exact_mod_cast toFloat32_natCast n.toNat hb
  · have e : n = -(((-n).toNat : ℕ) : Int) := by
      rw [Int.toNat_of_nonneg (by omega)]
      omega
    have hb : (-n).toNat ≤ 2 ^ 24 := by
      rw [abs_of_nonpos h] at hn
      omega
    rw [e]
    push_cast
    rw [toFloat32_neg]
    congr 1
    exact toFloat32_natCast (-n).toNat hb

theorem PIDController.deltaTime_gt_one_iff (s : PIDController) (now : Nat) :
    toFloat32 (s.deltaTime now) > 1 ↔ 1000 < s.elapsedMs now :=
  toFloat32_ms_gt_one_iff (s.elapsedMs now)

theorem PIDController.deltaTime_lt_iff (s : PIDController) (now : Nat) :
    toFloat32 (s.deltaTime now) < 1 / 100 ↔ s.elapsedMs now ≤ 10 :=
  toFloat32_ms_lt_iff (s.elapsedMs now)

/-- First-sample / long-gap path of `compute`. -/
theorem PIDController.compute_restart (s : PIDController) (now : Nat) (input : ℚ)
    (h : s.lastTime = 0 ∨ 1000 < s.elapsedMs now) :
    s.compute now input =
      ({ s with lastTime := now % ulongMod, lastError := s.setpoint - input, integral := 0,
                pTerm := s.kp * (s.setpoint - input), iTerm := 0, dTerm := 0 },
       constrain (s.kp * (s.setpoint - input)) s.outputMin s.outputMax) := by
  have h' : s.lastTime = 0 ∨ toFloat32 (s.deltaTime now) > 1 := by
    rcases h with h | h
    · exact Or.inl h
    · exact Or.inr ((s.deltaTime_gt_one_iff now).2 h)
  unfold PIDController.compute
  simp only [if_pos h']

/-- Suppressed path of `compute`: up to 10 ms included after the last
sample. -/
theorem PIDController.compute_suppressed (s : PIDController) (now : Nat) (input : ℚ)
    (h0 : s.lastTime ≠ 0) (h : s.elapsedMs now ≤ 10) :
    s.compute now input =
      (s, constrain (s.pTerm + s.iTerm + s.dTerm) s.outputMin s.outputMax) := by
  have h1 : ¬ (s.lastTime = 0 ∨ toFloat32 (s.deltaTime now) > 1) := by
    rintro (h1 | h1)
    · exact h0 h1
    · have := (s.deltaTime_gt_one_iff now).1 h1
      omega
  have h2 : toFloat32 (s.deltaTime now) < 1 / 100 := (s.deltaTime_lt_iff now).2 h
  unfold PIDController.compute
  simp only [if_neg h1, if_pos h2]

/-- At exactly 10 ms after the last sample the call is suppressed: the
`float` nearest to `10 / 1000` is below `0.01`. -/
theorem PIDController.compute_at_ten_ms (s : PIDController) (now : Nat) (input : ℚ)
    (h0 : s.lastTime ≠ 0) (h : s.elapsedMs now = 10) :
    toFloat32 (s.deltaTime now) < 1 / 100 ∧
    s.compute now input =
      (s, constrain (s.pTerm + s.iTerm + s.dTerm) s.outputMin s.outputMax) :=
  ⟨(s.deltaTime_lt_iff now).2 (le_of_eq h), s.compute_suppressed now input h0 (le_of_eq h)⟩

/-- Normal path of `compute`. -/
theorem PIDController.compute_normal (s : PIDController) (now : Nat) (input : ℚ)
    (h : s.normalPath now) :
    s.compute now input =
      ({ s with pTerm := s.kp * (s.setpoint - input),
                integral := s.integralStep (s.setpoint - input) (s.deltaTime now),
                iTerm := if s.ki > 0 then
                    s.ki * s.integralStep (s.setpoint - input) (s.deltaTime now) else 0,
                dTerm := s.kd * (-(input - (s.setpoint - s.lastError)) / s.deltaTime now),
                lastError := s.setpoint - input, lastTime := now % ulongMod },
       constrain (s.kp * (s.setpoint - input)
          + (if s.ki > 0 then
              s.ki * s.integralStep (s.setpoint - input) (s.deltaTime now) else 0)
          + s.kd * (-(input - (s.setpoint - s.lastError)) / s.deltaTime now))
          s.outputMin s.outputMax) := by
  obtain ⟨h0, hlo, hhi⟩ := h
  have h1 : ¬ (s.lastTime = 0 ∨ toFloat32 (s.deltaTime now) > 1) := by
    rintro (h1 | h1)
    · exact h0 h1
    · have := (s.deltaTime_gt_one_iff now).1 h1
      omega
  have h2 : ¬ toFloat32 (s.deltaTime now) < 1 / 100 := by
    intro h2
    have := (s.deltaTime_lt_iff now).1 h2
    omega
  unfold PIDController.compute
  simp only [if_neg h1, if_neg h2]

/-- The three paths of `compute` are exhaustive. -/
theorem PIDController.path_cases (s : PIDController) (now : Nat) :
    (s.lastTime = 0 ∨ 1000 < s.elapsedMs now) ∨
    (s.lastTime ≠ 0 ∧ s.elapsedMs now ≤ 10) ∨ s.normalPath now := by
  unfold PIDController.normalPath
  by_cases h0 : s.lastTime = 0
  · exact Or.inl (Or.inl h0)
  · by_cases h1 : 1000 < s.elapsedMs now
    · exact Or.inl (Or.inr h1)
    · by_cases h2 : s.elapsedMs now ≤ 10
      · exact Or.inr (Or.inl ⟨h0, h2⟩)
      · exact Or.inr (Or.inr ⟨h0, by omega, by omega⟩)

/-! ### Steering controller: first sample, restart, suppression, bounds -/

/-- C1 (PID first sample): a controller with `lastTime = 0`, as a freshly
constructed one is whatever its gains, setpoint and limits, answers
`compute(m)` with `clamp(kp*(setpoint - m), outputMin, outputMax)` and leaves
`iTerm`, `dTerm` and the integral accumulator at 0. -/
theorem PIDController.compute_first_sample (s : PIDController) (now : Nat) (m : ℚ)
    (hfresh : s.lastTime = 0) (hlim : s.outputMin ≤ s.outputMax) :
    (s.compute now m).2 = max s.outputMin (min (s.kp * (s.setpoint - m)) s.outputMax) ∧
    (s.compute now m).2 = constrain (s.kp * (s.setpoint - m)) s.outputMin s.outputMax ∧
    (s.compute now m).1.iTerm = 0 ∧ (s.compute now m).1.dTerm = 0 ∧
    (s.compute now m).1.integral = 0 := by
  rw [s.compute_restart now m (Or.inl hfresh)]
  exact ⟨constrain_eq_max_min _ _ _ hlim, rfl, rfl, rfl, rfl⟩

theorem PIDController.compute_first_sample_witness :
    (PIDController.configured 2 1 3 10 (-255) 255 50).lastTime = 0 ∧
    ((PIDController.configured 2 1 3 10 (-255) 255 50).compute 1234 4).2 =
      max (-255) (min (2 * (10 - 4)) 255) := by
  refine ⟨rfl, ?_⟩
  have h := PIDController.compute_first_sample
    (PIDController.configured 2 1 3 10 (-255) 255 50) 1234 4 rfl (by
      simp [PIDController.configured, PIDController.setIntegralRange,
        PIDController.setOutputLimits])
  exact h.1

/-- With a zero accumulator and an error outside the separation range,
`integralStep` yields 0. -/
theorem PIDController.integralStep_separated (s : PIDController) (error deltaTime : ℚ)
    (hsep : |error| ≥ s.integralRange) : s.integralStep error deltaTime = 0 := by
  unfold PIDController.integralStep
  have h : ¬ |error| < s.integralRange := not_lt.mpr hsep
  by_cases hki : s.ki > 0
  · simp only [if_pos hki, if_neg h, constrain_zero_500]
  · simp only [if_neg hki]

/-- One `compute` call whose error is outside the separation range keeps a
zero accumulator and a zero `iTerm`, and never touches the configuration. -/
theorem PIDController.compute_separated (s : PIDController) (now : Nat) (m : ℚ)
    (hI : s.integral = 0) (hT : s.iTerm = 0) (hsep : |s.setpoint - m| ≥ s.integralRange) :
    (s.compute now m).1.integral = 0 ∧ (s.compute now m).1.iTerm = 0 ∧
    (s.compute now m).1.setpoint = s.setpoint ∧
    (s.compute now m).1.integralRange = s.integralRange := by
  rcases s.path_cases now with h | h | h
  · rw [s.compute_restart now m h]
    exact ⟨rfl, rfl, rfl, rfl⟩
  · rw [s.compute_suppressed now m h.1 h.2]
    exact ⟨hI, hT, rfl, rfl⟩
  · rw [s.compute_normal now m h]
    refine ⟨s.integralStep_separated _ _ hsep, ?_, rfl, rfl⟩
    show (if s.ki > 0 then s.ki * s.integralStep (s.setpoint - m) (s.deltaTime now) else 0) = 0
    rw [s.integralStep_separated _ _ hsep]
    simp

theorem PIDController.computeStates_separated (calls : List (Nat × ℚ)) :
    ∀ s : PIDController, s.integral = 0 → s.iTerm = 0 →
      (∀ c ∈ calls, |s.setpoint - c.2| ≥ s.integralRange) →
      ∀ t ∈ s.computeStates calls, t.integral = 0 ∧ t.iTerm = 0 := by
  induction calls with
  | nil => intro s _ _ _ t ht; simp [PIDController.computeStates] at ht
  | cons c cs ih =>
    intro s hI hT hsep t ht
    have hc := s.compute_separated c.1 c.2 hI hT (hsep c (List.mem_cons_self _ _))
    simp only [PIDController.computeStates, List.mem_cons] at ht
    rcases ht with rfl | ht
    · exact ⟨hc.1, hc.2.1⟩
    · refine ih _ hc.1 hc.2.1 ?_ t ht
      intro c' hc'
      rw [hc.2.2.1, hc.2.2.2]
      exact hsep c' (List.mem_cons_of_mem _ hc')

/-- C2 (PID integral separation): starting from a fresh controller with any
gains, setpoint, limits and separation range, if every call of a sequence of
`compute` calls (any timestamps) has `|setpoint - measurement| >= integralRange`,
then the integral accumulator and `iTerm` are 0 after every call. -/
theorem PIDController.integral_separation (kp ki kd setpoint min max range : ℚ)
    (calls : List (Nat × ℚ))
    (hsep : ∀ c ∈ calls, |setpoint - c.2| ≥ range) :
    ∀ t ∈ (PIDController.configured kp ki kd setpoint min max range).computeStates calls,
      t.integral = 0 ∧ t.iTerm = 0 :=
  PIDController.computeStates_separated calls _ rfl rfl hsep

theorem PIDController.integral_separation_witness :
    (∀ c ∈ [((1000 : Nat), (20 : ℚ)), (1100, -30), (1105, 25), (5000, 40)],
        |(0 : ℚ) - c.2| ≥ 15) ∧
    ∀ t ∈ (PIDController.configured 2 1 3 0 (-255) 255 15).computeStates
        [(1000, 20), (1100, -30), (1105, 25), (5000, 40)],
      t.integral = 0 ∧ t.iTerm = 0 := by
  have hsep : ∀ c ∈ [((1000 : Nat), (20 : ℚ)), (1100, -30), (1105, 25), (5000, 40)],
      |(0 : ℚ) - c.2| ≥ 15 := by
    intro c hc
    simp only [List.mem_cons, List.mem_singleton, List.not_mem_nil, or_false] at hc
    rcases hc with rfl | rfl | rfl | rfl <;> norm_num [abs_of_nonneg, abs_of_nonpos]
  exact ⟨hsep, PIDController.integral_separation 2 1 3 0 (-255) 255 15 _ hsep⟩

/-- C5 (PID call suppression): after any `compute` call, whatever setters
other than `setOutputLimits` ran since (new gains, setpoint, separation range),
a call with `lastTime != 0` arriving less than 10 ms after the last accepted
sample returns the value of the preceding call and changes no field. -/
theorem PIDController.compute_suppression (s0 : PIDController) (now1 : Nat) (m1 : ℚ)
    (kp ki kd setpoint range : ℚ) (now2 : Nat) (m2 : ℚ)
    (h0 : (s0.compute now1 m1).1.lastTime ≠ 0)
    (hdt : ((((s0.compute now1 m1).1.setGains kp ki kd).setSetpoint setpoint).setIntegralRange
              range).elapsedMs now2 < 10) :
    ((((s0.compute now1 m1).1.setGains kp ki kd).setSetpoint setpoint).setIntegralRange
        range).compute now2 m2 =
      ((((s0.compute now1 m1).1.setGains kp ki kd).setSetpoint setpoint).setIntegralRange range,
       (s0.compute now1 m1).2) := by
  rw [PIDController.compute_suppressed
    ((((s0.compute now1 m1).1.setGains kp ki kd).setSetpoint setpoint).setIntegralRange range)
    now2 m2 h0 (le_of_lt hdt)]
  congr 1
  rcases s0.path_cases now1 with h | h | h
  · rw [s0.compute_restart now1 m1 h]
    simp [PIDController.setGains, PIDController.setSetpoint, PIDController.setIntegralRange]
  · rw [s0.compute_suppressed now1 m1 h.1 h.2]
    simp [PIDController.setGains, PIDController.setSetpoint, PIDController.setIntegralRange]
  · rw [s0.compute_normal now1 m1 h]
    simp [PIDController.setGains, PIDController.setSetpoint, PIDController.setIntegralRange]

/-- C6 (PID restart): a `compute(m)` call on a controller with `lastTime = 0`
(as `reset()` leaves it) or arriving more than 1.0 s after the last accepted
sample returns `clamp(kp*(setpoint - m), outputMin, outputMax)` and leaves
`integral = 0`, `iTerm = 0`, `dTerm = 0`, `lastError = setpoint - m`; `reset()`
sets `lastTime = 0` and keeps gains, setpoint, limits and `integralRange`. -/
theorem PIDController.compute_restart_spec (s : PIDController) (now : Nat) (m : ℚ)
    (h : s.lastTime = 0 ∨ 1000 < s.elapsedMs now) :
    ((s.compute now m).2 = constrain (s.kp * (s.setpoint - m)) s.outputMin s.outputMax ∧
      (s.outputMin ≤ s.outputMax →
        (s.compute now m).2 = max s.outputMin (min (s.kp * (s.setpoint - m)) s.outputMax)) ∧
      (s.compute now m).1.integral = 0 ∧ (s.compute now m).1.iTerm = 0 ∧
      (s.compute now m).1.dTerm = 0 ∧ (s.compute now m).1.lastError = s.setpoint - m) ∧
    ((s.reset.compute now m).2 = constrain (s.kp * (s.setpoint - m)) s.outputMin s.outputMax ∧
      (s.reset.compute now m).1.integral = 0 ∧ (s.reset.compute now m).1.iTerm = 0 ∧
      (s.reset.compute now m).1.dTerm = 0 ∧
      (s.reset.compute now m).1.lastError = s.setpoint - m) ∧
    (s.reset.lastTime = 0 ∧ s.reset.kp = s.kp ∧ s.reset.ki = s.ki ∧ s.reset.kd = s.kd ∧
      s.reset.setpoint = s.setpoint ∧ s.reset.outputMin = s.outputMin ∧
      s.reset.outputMax = s.outputMax ∧ s.reset.integralRange = s.integralRange) := by
  refine ⟨?_, ?_, ⟨rfl, rfl, rfl, rfl, rfl, rfl, rfl, rfl⟩⟩
  · rw [s.compute_restart now m h]
    exact ⟨rfl, fun hlim => constrain_eq_max_min _ _ _ hlim, rfl, rfl, rfl, rfl⟩
  · rw [s.reset.compute_restart now m (Or.inl rfl)]
    exact ⟨rfl, rfl, rfl, rfl, rfl⟩

theorem PIDController.compute_restart_spec_witness :
    ((PIDController.configured 2 1 3 10 (-255) 255 50).lastTime = 0 ∨
      1000 < (PIDController.configured 2 1 3 10 (-255) 255 50).elapsedMs 77) ∧
    ((PIDController.configured 2 1 3 10 (-255) 255 50).compute 77 4).1.lastError = 10 - 4 :=
  ⟨Or.inl rfl,
   (PIDController.compute_restart_spec (PIDController.configured 2 1 3 10 (-255) 255 50) 77 4
      (Or.inl rfl)).1.2.2.2.2.2⟩

theorem PIDController.integralStep_abs_le (s : PIDController) (error deltaTime : ℚ) :
    |s.integralStep error deltaTime| ≤ 500 := by
  unfold PIDController.integralStep
  by_cases hki : s.ki > 0
  · simp only [if_pos hki]
    rw [abs_le]
    exact constrain_mem _ _ _ (by norm_num)
  · simp only [if_neg hki]
    norm_num

/-- C7 (PID output bound): with `outputMin <= outputMax` the value returned
by `compute` lies in `[outputMin, outputMax]` for every state, clock value and
measurement; on the normal path (previous sample more than 10 ms and at most
1 s old) it is `clamp(pTerm + iTerm + dTerm)` with `pTerm = kp*error`,
`iTerm = ki*integral` and `|integral| <= 500`. -/
theorem PIDController.compute_output_bound (s : PIDController) (now : Nat) (m : ℚ)
    (hlim : s.outputMin ≤ s.outputMax) :
    (s.outputMin ≤ (s.compute now m).2 ∧ (s.compute now m).2 ≤ s.outputMax) ∧
    (s.normalPath now →
      (s.compute now m).2 =
        max s.outputMin
          (min ((s.compute now m).1.pTerm + (s.compute now m).1.iTerm
                  + (s.compute now m).1.dTerm) s.outputMax) ∧
      (s.compute now m).1.pTerm = s.kp * (s.setpoint - m) ∧
      (s.compute now m).1.iTerm = s.ki * (s.compute now m).1.integral ∧
      |(s.compute now m).1.integral| ≤ 500) := by
  constructor
  · rcases s.path_cases now with h | h | h
    · rw [s.compute_restart now m h]; exact constrain_mem _ _ _ hlim
    · rw [s.compute_suppressed now m h.1 h.2]; exact constrain_mem _ _ _ hlim
    · rw [s.compute_normal now m h]; exact constrain_mem _ _ _ hlim
  · intro h
    rw [s.compute_normal now m h]
    refine ⟨constrain_eq_max_min _ _ _ hlim, rfl, ?_, s.integralStep_abs_le _ _⟩
    show (if s.ki > 0 then s.ki * s.integralStep (s.setpoint - m) (s.deltaTime now) else 0)
      = s.ki * s.integralStep (s.setpoint - m) (s.deltaTime now)
    by_cases hki : s.ki > 0
    · rw [if_pos hki]
    · rw [if_neg hki]
      unfold PIDController.integralStep
      rw [if_neg hki, mul_zero]

/-! ### Steering controller: anti-windup and derivative -/

theorem PIDController.windupExample_eq :
    PIDController.windupExample =
      { kp := 0, ki := 1, kd := 100, setpoint := 0, lastError := 0, integral := 0,
        integralRange := 10000, outputMin := -255, outputMax := 255, lastTime := 1000,
        pTerm := 0, iTerm := 0, dTerm := 0 } := by
  unfold PIDController.windupExample
  rw [PIDController.compute_restart _ _ _ (Or.inl rfl)]
  simp [PIDController.configured, PIDController.construct, PIDController.setSetpoint,
    PIDController.setOutputLimits, PIDController.setIntegralRange, ulongMod]

theorem PIDController.windupExample_normalPath :
    PIDController.windupExample.normalPath 1100 := by
  rw [PIDController.windupExample_eq]
  decide

theorem PIDController.compute_output_bound_witness :
    PIDController.windupExample.outputMin ≤ PIDController.windupExample.outputMax ∧
    PIDController.windupExample.normalPath 1100 ∧
    (PIDController.windupExample.outputMin ≤
        (PIDController.windupExample.compute 1100 (-1)).2 ∧
      (PIDController.windupExample.compute 1100 (-1)).2 ≤
        PIDController.windupExample.outputMax) ∧
    (PIDController.windupExample.compute 1100 (-1)).1.pTerm =
      PIDController.windupExample.kp * (PIDController.windupExample.setpoint - (-1)) ∧
    |(PIDController.windupExample.compute 1100 (-1)).1.integral| ≤ 500 := by
  have hlim : PIDController.windupExample.outputMin ≤ PIDController.windupExample.outputMax := by
    rw [PIDController.windupExample_eq]; norm_num
  have h := PIDController.compute_output_bound PIDController.windupExample 1100 (-1) hlim
  have h2 := h.2 PIDController.windupExample_normalPath
  exact ⟨hlim, PIDController.windupExample_normalPath, h.1, h2.2.1, h2.2.2.2⟩

theorem PIDController.setpointStepExample_eq :
    PIDController.setpointStepExample =
      { kp := 0, ki := 0, kd := 1, setpoint := 10, lastError := -5, integral := 0,
        integralRange := 10000, outputMin := -255, outputMax := 255, lastTime := 1000,
        pTerm := 0, iTerm := 0, dTerm := 0 } := by
  unfold PIDController.setpointStepExample
  rw [PIDController.compute_restart _ _ _ (Or.inl rfl)]
  simp [PIDController.configured, PIDController.construct, PIDController.setSetpoint,
    PIDController.setOutputLimits, PIDController.setIntegralRange, ulongMod]

/-- On the normal path `dTerm` is `kd` times the change of the error over
`deltaTime`; it is the change of the measurement only when `lastError` was
taken against the current setpoint. -/
theorem PIDController.compute_dTerm (s : PIDController) (now : Nat) (m mPrev : ℚ)
    (hn : s.normalPath now) :
    (s.compute now m).1.dTerm = s.kd * (((s.setpoint - m) - s.lastError) / s.deltaTime now) ∧
    (s.lastError = s.setpoint - mPrev →
      (s.compute now m).1.dTerm = s.kd * (-(m - mPrev) / s.deltaTime now)) := by
  rw [s.compute_normal now m hn]
  constructor
  · show s.kd * (-(m - (s.setpoint - s.lastError)) / s.deltaTime now) = _
    congr 2; ring
  · intro h
    show s.kd * (-(m - (s.setpoint - s.lastError)) / s.deltaTime now) = _
    rw [h]; congr 2; ring

/-- C4 (code behaviour at the failing input): previous sample `compute(5)`
at 1000 ms under setpoint 0, then `setSetpoint(10)`, then `compute(5)` at
1100 ms with `kd = 1`: the call takes the normal path and `dTerm` is 100,
whereas `kd * (-(m - mPrev) / deltaTime)` is 0 for the unchanged measurement. -/
theorem PIDController.dTerm_after_setpoint_change :
    PIDController.setpointStepExample.normalPath 1100 ∧
    (PIDController.setpointStepExample.compute 1100 5).1.dTerm = 100 ∧
    PIDController.setpointStepExample.kd *
      (-(5 - 5) / PIDController.setpointStepExample.deltaTime 1100) = 0 := by
  have hn : PIDController.setpointStepExample.normalPath 1100 := by
    rw [PIDController.setpointStepExample_eq]; decide
  refine ⟨hn, ?_, by norm_num⟩
  rw [PIDController.compute_normal _ _ _ hn, PIDController.setpointStepExample_eq]
  norm_num [PIDController.deltaTime, PIDController.elapsedMs, ulongMod]

theorem PIDController.compute_suppression_witness :
    ((PIDController.configured 2 1 3 10 (-255) 255 50).compute 1000 4).1.lastTime ≠ 0 ∧
    (((((PIDController.configured 2 1 3 10 (-255) 255 50).compute 1000 4).1.setGains
        5 6 7).setSetpoint 8).setIntegralRange 9).compute 1005 (-20) =
      ((((((PIDController.configured 2 1 3 10 (-255) 255 50).compute 1000 4).1.setGains
        5 6 7).setSetpoint 8).setIntegralRange 9),
       ((PIDController.configured 2 1 3 10 (-255) 255 50).compute 1000 4).2) := by
  have h0 : ((PIDController.configured 2 1 3 10 (-255) 255 50).compute 1000 4).1.lastTime
      ≠ 0 := by
    rw [PIDController.compute_restart _ _ _ (Or.inl rfl)]
    simp [ulongMod]
  refine ⟨h0, PIDController.compute_suppression _ 1000 4 5 6 7 8 9 1005 (-20) h0 ?_⟩
  rw [PIDController.compute_restart _ _ _ (Or.inl rfl)]
  simp [PIDController.elapsedMs, PIDController.setGains, PIDController.setSetpoint,
    PIDController.setIntegralRange, ulongMod]

/-! ### Range filter: a constant input is reproduced -/

theorem prevIdx_succ_mod (i : Nat) (h : i < 20) : prevIdx ((i + 1) % MAX_FILTER_SIZE) = i := by
  unfold prevIdx MAX_FILTER_SIZE
  interval_cases i <;> simp

theorem recent_push_one (c : Nat) (buf : Nat → Nat) (i : Nat) (h : i < 20) :
    Function.update buf i c (prevIdx ((i + 1) % MAX_FILTER_SIZE)) = c := by
  rw [prevIdx_succ_mod i h]; simp

theorem recent_push_two (c : Nat) (buf : Nat → Nat) (i : Nat) (h : i < 20)
    (h1 : buf (prevIdx i) = c) :
    Function.update buf i c (prevIdx (prevIdx ((i + 1) % MAX_FILTER_SIZE))) = c := by
  rw [prevIdx_succ_mod i h]
  unfold prevIdx MAX_FILTER_SIZE at *
  interval_cases i <;> simp_all [Function.update]

theorem recent_push_three (c : Nat) (buf : Nat → Nat) (i : Nat) (h : i < 20)
    (h2 : buf (prevIdx (prevIdx i)) = c) :
    Function.update buf i c (prevIdx (prevIdx (prevIdx ((i + 1) % MAX_FILTER_SIZE)))) = c := by
  rw [prevIdx_succ_mod i h]
  unfold prevIdx MAX_FILTER_SIZE at *
  interval_cases i <;> simp_all [Function.update]

theorem window_after_push (c : Nat) (buf : Nat → Nat) (i : Nat) (h : i < 20)
    (h3 : RecentThree c buf i) :
    copyWindow (Function.update buf i c) i 5 =
      [c, c, c, c, buf (prevIdx (prevIdx (prevIdx (prevIdx i))))] := by
  obtain ⟨h1, h2, h3⟩ := h3
  unfold prevIdx MAX_FILTER_SIZE at *
  interval_cases i <;> simp_all [copyWindow, prevIdx, MAX_FILTER_SIZE, Function.update]

theorem copyWindow_take (buf : Nat → Nat) (n : Nat) :
    ∀ (m idx : Nat), n ≤ m → copyWindow buf idx n = (copyWindow buf idx m).take n := by
  induction n with
  | zero => intro m idx _; simp [copyWindow]
  | succ n ih =>
    intro m idx hm
    obtain ⟨m', rfl⟩ : ∃ m', m = m' + 1 := ⟨m - 1, by omega⟩
    simp only [copyWindow, List.take_succ_cons]
    rw [ih m' (prevIdx idx) (by omega)]

/-- Sorting a window whose entries are `c` except possibly the oldest of
five leaves `c` as the median. -/
theorem median_const_window (c x count : Nat) (h2 : 2 ≤ count) (h5 : count ≤ 5) :
    medianOf (bubbleSort (([c, c, c, c, x] : List Nat).take count) count) count = c := by
  interval_cases count
  · simp [medianOf, bubbleSort, bubbleOuter, bubbleInner, swapStep]
    omega
  · simp [medianOf, bubbleSort, bubbleOuter, bubbleInner, swapStep]
  · simp [medianOf, bubbleSort, bubbleOuter, bubbleInner, swapStep]
    omega
  · by_cases hx : x < c
    · simp [medianOf, bubbleSort, bubbleOuter, bubbleInner, swapStep, hx]
    · simp [medianOf, bubbleSort, bubbleOuter, bubbleInner, swapStep, hx]

theorem RangeFilter.getFilteredDistance_small (s : RangeFilter) (c : Nat)
    (h : s.filterSize ≤ 1) : s.getFilteredDistance c = (s, c) := by
  unfold RangeFilter.getFilteredDistance
  rw [if_pos h]

theorem RangeFilter.getFilteredDistance_state (s : RangeFilter) (c : Nat)
    (h : 1 < s.filterSize) :
    (s.getFilteredDistance c).1 =
      { s with
        filterBuffer := Function.update s.filterBuffer s.filterIndex
          (outlierGuard (s.lastRaw.getD c) s.outlierCount c).1
        filterIndex := (s.filterIndex + 1) % MAX_FILTER_SIZE
        filterCount :=
          if s.filterCount < MAX_FILTER_SIZE then s.filterCount + 1 else s.filterCount
        lastRaw := some (outlierGuard (s.lastRaw.getD c) s.outlierCount c).1
        outlierCount := (outlierGuard (s.lastRaw.getD c) s.outlierCount c).2 } := by
  unfold RangeFilter.getFilteredDistance
  rw [if_neg (not_le.mpr h)]
  dsimp only
  split_ifs <;> rfl

theorem outlierGuard_accepts (s : RangeFilter) (c : Nat) (h : s.Accepts c) :
    outlierGuard (s.lastRaw.getD c) s.outlierCount c = (c, 0) := by
  unfold outlierGuard
  rcases h with h | h
  · rw [h]; simp
  · split_ifs with h1 h2
    · omega
    · rfl
    · rfl

/-- After any call with raw value `c` the guard passes `c` on the next. -/
theorem RangeFilter.accepts_after_call (s : RangeFilter) (c : Nat) (h : 1 < s.filterSize) :
    (s.getFilteredDistance c).1.Accepts c := by
  rw [s.getFilteredDistance_state c h]
  unfold RangeFilter.Accepts outlierGuard
  dsimp only
  split_ifs with h1 h2
  · right; simp
  · left; rfl
  · left; rfl

theorem RangeFilter.call_facts (s : RangeFilter) (c : Nat) (h : 1 < s.filterSize) :
    (s.getFilteredDistance c).1.filterSize = s.filterSize ∧
    (s.getFilteredDistance c).1.filterIndex < 20 ∧
    (s.filterCount < 20 → s.filterCount + 1 ≤ (s.getFilteredDistance c).1.filterCount) ∧
    s.filterCount ≤ (s.getFilteredDistance c).1.filterCount := by
  rw [s.getFilteredDistance_state c h]
  dsimp only
  refine ⟨rfl, Nat.mod_lt _ (by decide), ?_, ?_⟩
  · intro hlt
    rw [if_pos (by simpa [MAX_FILTER_SIZE] using hlt)]
  · split_ifs <;> omega

theorem RangeFilter.accepted_call_facts (s : RangeFilter) (c : Nat) (h : 1 < s.filterSize)
    (hi : s.filterIndex < 20) (ha : s.Accepts c) :
    (s.getFilteredDistance c).1.lastRaw = some c ∧
    (s.getFilteredDistance c).1.filterBuffer
      (prevIdx (s.getFilteredDistance c).1.filterIndex) = c ∧
    (s.filterBuffer (prevIdx s.filterIndex) = c →
      (s.getFilteredDistance c).1.filterBuffer
        (prevIdx (prevIdx (s.getFilteredDistance c).1.filterIndex)) = c) ∧
    (s.filterBuffer (prevIdx (prevIdx s.filterIndex)) = c →
      (s.getFilteredDistance c).1.filterBuffer
        (prevIdx (prevIdx (prevIdx (s.getFilteredDistance c).1.filterIndex))) = c) := by
  rw [s.getFilteredDistance_state c h, outlierGuard_accepts s c ha]
  dsimp only
  exact ⟨rfl, recent_push_one c _ _ hi, recent_push_two c _ _ hi, recent_push_three c _ _ hi⟩

theorem RangeFilter.settled_call (s : RangeFilter) (c : Nat) (h : 1 < s.filterSize)
    (hs : s.Settled c) : (s.getFilteredDistance c).1.Settled c := by
  obtain ⟨hi, hl, ⟨h1, h2, _⟩, hc⟩ := hs
  have hf := s.call_facts c h
  have ha := s.accepted_call_facts c h hi (Or.inl hl)
  exact ⟨hf.2.1, ha.1, ⟨ha.2.1, ha.2.2.1 h1, ha.2.2.2 h2⟩, le_trans hc hf.2.2.2⟩

theorem RangeFilter.feedConst_filterSize (s : RangeFilter) (c : Nat) (h : 1 < s.filterSize) :
    ∀ n, (s.feedConst c n).filterSize = s.filterSize := by
  intro n
  induction n with
  | zero => rfl
  | succ n ih =>
    show ((s.feedConst c n).getFilteredDistance c).1.filterSize = _
    rw [((s.feedConst c n).call_facts c (by rw [ih]; exact h)).1, ih]

theorem RangeFilter.settled_after_four (s : RangeFilter) (c : Nat) (h : 1 < s.filterSize) :
    (s.feedConst c 4).Settled c := by
  have hs := s.feedConst_filterSize c h
  have g1 : 1 < (s.feedConst c 1).filterSize := by rw [hs]; exact h
  have g2 : 1 < (s.feedConst c 2).filterSize := by rw [hs]; exact h
  have g3 : 1 < (s.feedConst c 3).filterSize := by rw [hs]; exact h
  have f1 := s.call_facts c h
  have a1 := s.accepts_after_call c h
  have f2 := (s.feedConst c 1).call_facts c g1
  have a2 := (s.feedConst c 1).accepted_call_facts c g1 f1.2.1 a1
  have f3 := (s.feedConst c 2).call_facts c g2
  have a3 := (s.feedConst c 2).accepted_call_facts c g2 f2.2.1 (Or.inl a2.1)
  have f4 := (s.feedConst c 3).call_facts c g3
  have a4 := (s.feedConst c 3).accepted_call_facts c g3 f3.2.1 (Or.inl a3.1)
  refine ⟨f4.2.1, a4.1, ⟨a4.2.1, a4.2.2.1 a3.2.1, a4.2.2.2 (a3.2.2.1 a2.2.1)⟩, ?_⟩
  have c1 := f1.2.2
  have c2 := f2.2.2
  have c3 := f3.2.2
  have c4 := f4.2.2
  show 4 ≤ ((s.feedConst c 3).getFilteredDistance c).1.filterCount
  change (_ → _ ≤ (s.feedConst c 1).filterCount) ∧ _ ≤ (s.feedConst c 1).filterCount at c1
  change (_ → _ ≤ (s.feedConst c 2).filterCount) ∧ _ ≤ (s.feedConst c 2).filterCount at c2
  change (_ → _ ≤ (s.feedConst c 3).filterCount) ∧ _ ≤ (s.feedConst c 3).filterCount at c3
  obtain ⟨c1a, c1b⟩ := c1
  obtain ⟨c2a, c2b⟩ := c2
  obtain ⟨c3a, c3b⟩ := c3
  obtain ⟨c4a, c4b⟩ := c4
  by_cases k0 : s.filterCount < 20
  · have := c1a k0
    by_cases k1 : (s.feedConst c 1).filterCount < 20
    · have := c2a k1
      by_cases k2 : (s.feedConst c 2).filterCount < 20
      · have := c3a k2
        by_cases k3 : (s.feedConst c 3).filterCount < 20
        · have := c4a k3
          omega
        · omega
      · omega
    · omega
  · omega

theorem RangeFilter.settled_output (s : RangeFilter) (c : Nat) (h : 1 < s.filterSize)
    (hs : s.Settled c) : (s.getFilteredDistance c).2 = c := by
  obtain ⟨hi, hl, h3, hc⟩ := hs
  unfold RangeFilter.getFilteredDistance
  rw [if_neg (not_le.mpr h)]
  dsimp only
  rw [outlierGuard_accepts s c (Or.inl hl)]
  dsimp only
  have hsize : ¬ (min (min ((if s.filterCount < MAX_FILTER_SIZE then s.filterCount + 1
      else s.filterCount : Nat) : Int) s.filterSize) 5 ≤ 1) := by
    unfold MAX_FILTER_SIZE
    split_ifs <;> omega
  rw [if_neg hsize]
  dsimp only
  rw [prevIdx_succ_mod _ hi]
  have hcount : 2 ≤ (min (min ((if s.filterCount < MAX_FILTER_SIZE then s.filterCount + 1
      else s.filterCount : Nat) : Int) s.filterSize) 5).toNat ∧
      (min (min ((if s.filterCount < MAX_FILTER_SIZE then s.filterCount + 1
      else s.filterCount : Nat) : Int) s.filterSize) 5).toNat ≤ 5 := by
    unfold MAX_FILTER_SIZE
    split_ifs <;> omega
  rw [copyWindow_take _ _ 5 _ hcount.2, window_after_push c _ _ hi h3]
  exact median_const_window c _ _ hcount.1 hcount.2

theorem RangeFilter.settled_feedConst (s : RangeFilter) (c : Nat) (h : 1 < s.filterSize) :
    ∀ n, 4 ≤ n → (s.feedConst c n).Settled c := by
  intro n hn
  induction n, hn using Nat.le_induction with
  | base => exact s.settled_after_four c h
  | succ n _ ih =>
    exact (s.feedConst c n).settled_call c (by rw [s.feedConst_filterSize c h]; exact h) ih

theorem RangeFilter.feedConst_small (s : RangeFilter) (c : Nat) (h : s.filterSize ≤ 1) :
    ∀ n, s.feedConst c n = s := by
  intro n
  induction n with
  | zero => rfl
  | succ n ih =>
    show ((s.feedConst c n).getFilteredDistance c).1 = s
    rw [ih, s.getFilteredDistance_small c h]

/-- C8 (median filter idempotence): from every prior filter state (any window
contents, `filterIndex`, `filterCount`, `filterSize`, remembered last value and
outlier counter), when `getFilteredDistance` is called with the same value `c`
on consecutive ticks, the call that follows `n >= 4` such calls, that is the
5th call and every later one, returns exactly `c`. -/
theorem RangeFilter.constant_input_idempotent (s : RangeFilter) (c n : Nat) (hn : 4 ≤ n) :
    ((s.feedConst c n).getFilteredDistance c).2 = c := by
  by_cases h : s.filterSize ≤ 1
  · rw [s.feedConst_small c h n, s.getFilteredDistance_small c h]
  · have h1 : 1 < s.filterSize := not_le.mp h
    exact (s.feedConst c n).settled_output c (by rw [s.feedConst_filterSize c h1]; exact h1)
      (s.settled_feedConst c h1 n hn)

theorem RangeFilter.constant_input_idempotent_witness :
    4 ≤ 4 ∧
    ((RangeFilter.staleExample.feedConst 200 4).getFilteredDistance 200).2 = 200 :=
  ⟨le_refl 4, RangeFilter.constant_input_idempotent RangeFilter.staleExample 200 4 (le_refl 4)⟩

/-! ### Edge search: the result stays inside the bracketing pair -/

theorem crossingValue_between (prev curr : HistorySample) (threshold : Nat) :
    min prev.globalDist curr.globalDist ≤ crossingValue prev curr threshold ∧
    crossingValue prev curr threshold ≤ max prev.globalDist curr.globalDist := by
  unfold crossingValue
  dsimp only
  split_ifs with h1 h2 h3
  · constructor
    · rcases le_total prev.globalDist curr.globalDist with h | h
      · rw [min_eq_left h]; linarith
      · rw [min_eq_right h]; linarith
    · rcases le_total prev.globalDist curr.globalDist with h | h
      · rw [max_eq_right h]; linarith
      · rw [max_eq_left h]; linarith
  · exact ⟨min_le_left _ _, le_max_left _ _⟩
  · exact ⟨min_le_right _ _, le_max_right _ _⟩
  · obtain ⟨hp0, hp1⟩ := constrain_mem
      (((threshold : ℚ) - (prev.laserDist : ℚ)) /
        ((curr.laserDist : ℚ) - (prev.laserDist : ℚ))) 0 1 (by norm_num)
    generalize constrain (((threshold : ℚ) - (prev.laserDist : ℚ)) /
        ((curr.laserDist : ℚ) - (prev.laserDist : ℚ))) 0 1 = p at hp0 hp1
    rcases le_total prev.globalDist curr.globalDist with h | h
    · rw [min_eq_left h, max_eq_right h]
      constructor
      · nlinarith
      · nlinarith
    · rw [min_eq_right h, max_eq_left h]
      constructor
      · nlinarith
      · nlinarith

theorem searchLoop_eq_crossingPair (h : History) (entering : Bool) (threshold : Nat) :
    ∀ (n idx : Nat), searchLoop h entering threshold idx n =
      match crossingPair h entering threshold idx n with
      | some pc => crossingValue pc.1 pc.2 threshold
      | none => -1 := by
  intro n
  induction n with
  | zero => intro idx; rfl
  | succ n ih =>
    intro idx
    unfold searchLoop crossingPair
    dsimp only
    split_ifs with h1 h2
    · rfl
    · rfl
    · exact ih (histPrev idx)

theorem crossingPair_spec (h : History) (entering : Bool) (threshold : Nat)
    (prev curr : HistorySample) :
    ∀ (n idx : Nat), crossingPair h entering threshold idx n = some (prev, curr) →
      isCrossing entering threshold prev curr = true ∧
      prev.timestamp ≠ 0 ∧ curr.timestamp ≠ 0 ∧
      ∃ i, curr = h.historyBuffer i ∧ prev = h.historyBuffer (histPrev i) := by
  intro n
  induction n with
  | zero => intro idx hp; simp [crossingPair] at hp
  | succ n ih =>
    intro idx hp
    unfold crossingPair at hp
    dsimp only at hp
    split_ifs at hp with h1 h2
    · push_neg at h1
      simp only [Option.some.injEq, Prod.mk.injEq] at hp
      obtain ⟨rfl, rfl⟩ := hp
      exact ⟨h2, h1.2, h1.1, idx, rfl, rfl⟩
    · exact ih (histPrev idx) hp

/-- When no pair is found, `findPreciseCrossingPoint` returns `-1`. -/
theorem History.findPreciseCrossingPoint_none (h : History) (entering : Bool)
    (threshold : Nat) (hnone : h.foundPair entering threshold = none) :
    h.findPreciseCrossingPoint entering threshold = -1 := by
  unfold History.findPreciseCrossingPoint History.foundPair at *
  dsimp only
  rw [searchLoop_eq_crossingPair, hnone]

/-- C9 (crossing interpolation stays inside the bracket): whenever
`findPreciseCrossingPoint` finds a pair of consecutive written history samples
`(prev, curr)` crossing the threshold in the requested direction, the value
it returns is the value of the `found` block for that pair and lies between
the travel positions of `prev` and `curr` inclusive, in every branch; hence
when the written samples have travel positions in `[p0, p1]` the result lies
in `[p0, p1]`. -/
theorem History.crossing_within_bracket (h : History) (entering : Bool) (threshold : Nat)
    (prev curr : HistorySample)
    (hfound : h.foundPair entering threshold = some (prev, curr)) :
    (isCrossing entering threshold prev curr = true ∧
      prev.timestamp ≠ 0 ∧ curr.timestamp ≠ 0 ∧
      ∃ i, curr = h.historyBuffer i ∧ prev = h.historyBuffer (histPrev i)) ∧
    h.findPreciseCrossingPoint entering threshold = crossingValue prev curr threshold ∧
    min prev.globalDist curr.globalDist ≤ h.findPreciseCrossingPoint entering threshold ∧
    h.findPreciseCrossingPoint entering threshold ≤ max prev.globalDist curr.globalDist ∧
    ∀ p0 p1 : ℚ,
      (∀ i, (h.historyBuffer i).timestamp ≠ 0 →
        p0 ≤ (h.historyBuffer i).globalDist ∧ (h.historyBuffer i).globalDist ≤ p1) →
      p0 ≤ h.findPreciseCrossingPoint entering threshold ∧
      h.findPreciseCrossingPoint entering threshold ≤ p1 := by
  have hspec := crossingPair_spec h entering threshold prev curr _ _ hfound
  have hval : h.findPreciseCrossingPoint entering threshold =
      crossingValue prev curr threshold := by
    unfold History.findPreciseCrossingPoint History.foundPair at *
    dsimp only
    rw [searchLoop_eq_crossingPair, hfound]
  have hb := crossingValue_between prev curr threshold
  refine ⟨hspec, hval, by rw [hval]; exact hb.1, by rw [hval]; exact hb.2, ?_⟩
  intro p0 p1 hspan
  obtain ⟨_, hpt, hct, i, hci, hpi⟩ := hspec
  have hc := hspan i (by rw [← hci]; exact hct)
  have hp := hspan (histPrev i) (by rw [← hpi]; exact hpt)
  rw [← hci] at hc
  rw [← hpi] at hp
  rw [hval]
  exact ⟨le_trans (le_min hp.1 hc.1) hb.1, le_trans hb.2 (max_le hp.2 hc.2)⟩

theorem History.crossing_within_bracket_witness :
    (History.ofSamples History.rampSamples).foundPair true 650 =
      some ({ timestamp := 1040, laserDist := 700, globalDist := 20 },
            { timestamp := 1060, laserDist := 600, globalDist := 30 }) ∧
    min (20 : ℚ) 30 ≤ (History.ofSamples History.rampSamples).findPreciseCrossingPoint true 650 ∧
    (History.ofSamples History.rampSamples).findPreciseCrossingPoint true 650 ≤ max (20 : ℚ) 30 :=
  ⟨by decide,
   (History.crossing_within_bracket (History.ofSamples History.rampSamples) true 650
      { timestamp := 1040, laserDist := 700, globalDist := 20 }
      { timestamp := 1060, laserDist := 600, globalDist := 30 } (by decide)).2.2.1,
   (History.crossing_within_bracket (History.ofSamples History.rampSamples) true 650
      { timestamp := 1040, laserDist := 700, globalDist := 20 }
      { timestamp := 1060, laserDist := 600, globalDist := 30 } (by decide)).2.2.2.1⟩

/-! ### Edge search: monotonic in the threshold -/

theorem constrain_mono (x y lo hi : ℚ) (hlh : lo ≤ hi) (hxy : x ≤ y) :
    constrain x lo hi ≤ constrain y lo hi := by
  rw [constrain_eq_max_min _ _ _ hlh, constrain_eq_max_min _ _ _ hlh]
  exact max_le_max (le_refl _) (min_le_min hxy (le_refl _))

/-- For one bracketing pair with non-decreasing travel, the value of the
`found` block does not increase when the threshold grows. -/
theorem crossingValue_antitone (prev curr : HistorySample) (t1 t2 : Nat)
    (hpos : prev.globalDist ≤ curr.globalDist) (h12 : t1 ≤ t2)
    (hc : curr.laserDist < t1) (hp : t2 ≤ prev.laserDist) :
    crossingValue prev curr t2 ≤ crossingValue prev curr t1 := by
  unfold crossingValue
  dsimp only
  split_ifs with h1 h2 h3
  · exact le_refl _
  · exact le_refl _
  · exact le_refl _
  · have hdd : (curr.laserDist : ℚ) - (prev.laserDist : ℚ) < 0 := by
      have : (curr.laserDist : ℚ) < (prev.laserDist : ℚ) := by
        exact_mod_cast (lt_of_lt_of_le hc (le_trans h12 hp))
      linarith
    have hnum : (t1 : ℚ) - (prev.laserDist : ℚ) ≤ (t2 : ℚ) - (prev.laserDist : ℚ) := by
      have : (t1 : ℚ) ≤ (t2 : ℚ) := by exact_mod_cast h12
      linarith
    have hq : ((t2 : ℚ) - (prev.laserDist : ℚ)) / ((curr.laserDist : ℚ) - (prev.laserDist : ℚ))
        ≤ ((t1 : ℚ) - (prev.laserDist : ℚ)) / ((curr.laserDist : ℚ) - (prev.laserDist : ℚ)) :=
      div_le_div_of_nonpos_of_le hdd.le hnum
    have hcon := constrain_mono _ _ 0 1 (by norm_num) hq
    have hpd : 0 ≤ curr.globalDist - prev.globalDist := by linarith
    have := mul_le_mul_of_nonneg_left hcon hpd
    linarith

theorem histPrev_pos (m : Nat) (h : m ≠ 0) : histPrev m = m - 1 := by
  unfold histPrev
  rw [if_neg h]

/-- The backward search from ring position `m` returns the value of the
newest pair `(j, j+1)` whose older sample is at or above the threshold. -/
theorem searchLoop_entering (h : History) (t j : Nat) :
    ∀ (fuel m : Nat), j < m → m - j ≤ fuel →
      (∀ i, j ≤ i → i ≤ m → (h.historyBuffer i).timestamp ≠ 0) →
      t ≤ (h.historyBuffer j).laserDist →
      (∀ i, j < i → i ≤ m → (h.historyBuffer i).laserDist < t) →
      searchLoop h true t m fuel =
        crossingValue (h.historyBuffer j) (h.historyBuffer (j + 1)) t := by
  intro fuel
  induction fuel with
  | zero => intro m hjm hf; omega
  | succ fuel ih =>
    intro m hjm hf hts hj hlt
    have hm0 : m ≠ 0 := by omega
    unfold searchLoop
    dsimp only
    rw [histPrev_pos m hm0]
    have hts1 : ¬ ((h.historyBuffer m).timestamp = 0 ∨ (h.historyBuffer (m - 1)).timestamp = 0) := by
      rintro (h0 | h0)
      · exact hts m (by omega) (le_refl _) h0
      · exact hts (m - 1) (by omega) (by omega) h0
    rw [if_neg hts1]
    by_cases hj1 : m - 1 = j
    · have hm : m = j + 1 := by omega
      subst hm
      have hcross : isCrossing true t (h.historyBuffer (j + 1 - 1)) (h.historyBuffer (j + 1)) = true := by
        simp only [isCrossing, if_true, Nat.add_sub_cancel, decide_eq_true_eq]
        exact ⟨hj, hlt (j + 1) (by omega) (le_refl _)⟩
      rw [if_pos hcross, Nat.add_sub_cancel]
    · have hlt1 := hlt (m - 1) (by omega) (by omega)
      have hcross : ¬ (isCrossing true t (h.historyBuffer (m - 1)) (h.historyBuffer m) = true) := by
        simp only [isCrossing, if_true, decide_eq_true_eq]
        intro hh
        omega
      rw [if_neg hcross]
      exact ih (m - 1) (by omega) (by omega)
        (fun i h1 h2 => hts i h1 (by omega)) hj
        (fun i h1 h2 => hlt i h1 (by omega))

/-- Between an old sample at or above the threshold and a newest sample
below it there is a newest sample at or above the threshold. -/
theorem exists_last_above (r : Nat → Nat) (t : Nat) :
    ∀ m, t ≤ r 0 → r m < t →
      ∃ j, j < m ∧ t ≤ r j ∧ ∀ i, j < i → i ≤ m → r i < t := by
  intro m
  induction m with
  | zero => intro h0 hm; omega
  | succ m ih =>
    intro h0 hm
    by_cases hprev : t ≤ r m
    · refine ⟨m, by omega, hprev, ?_⟩
      intro i h1 h2
      have : i = m + 1 := by omega
      rw [this]; exact hm
    · obtain ⟨j, hj, hjt, hlt⟩ := ih h0 (by omega)
      refine ⟨j, by omega, hjt, ?_⟩
      intro i h1 h2
      by_cases hi : i = m + 1
      · rw [hi]; exact hm
      · exact hlt i h1 (by omega)

/-- Index form of the monotonicity: ring positions `0..m` written, travel
non-decreasing, newest range below `t1 <= t2 <=` oldest range. -/
theorem searchLoop_antitone (h : History) (m t1 t2 : Nat) (hm : m ≤ 20)
    (hts : ∀ i, i ≤ m → (h.historyBuffer i).timestamp ≠ 0)
    (hpos : ∀ i j, i ≤ j → j ≤ m →
      (h.historyBuffer i).globalDist ≤ (h.historyBuffer j).globalDist)
    (h12 : t1 ≤ t2) (hlast : (h.historyBuffer m).laserDist < t1)
    (hfirst : t2 ≤ (h.historyBuffer 0).laserDist) :
    searchLoop h true t2 m 20 ≤ searchLoop h true t1 m 20 := by
  have hfirst1 : t1 ≤ (h.historyBuffer 0).laserDist := le_trans h12 hfirst
  have hlast2 : (h.historyBuffer m).laserDist < t2 := lt_of_lt_of_le hlast h12
  obtain ⟨j1, hj1, hj1t, hlt1⟩ :=
    exists_last_above (fun i => (h.historyBuffer i).laserDist) t1 m hfirst1 hlast
  obtain ⟨j2, hj2, hj2t, hlt2⟩ :=
    exists_last_above (fun i => (h.historyBuffer i).laserDist) t2 m hfirst hlast2
  rw [searchLoop_entering h t1 j1 20 m hj1 (by omega) (fun i _ hi => hts i hi) hj1t hlt1,
    searchLoop_entering h t2 j2 20 m hj2 (by omega) (fun i _ hi => hts i hi) hj2t hlt2]
  have hle : j2 ≤ j1 := by
    by_contra hcon
    have := hlt1 j2 (by omega) (by omega)
    omega
  rcases Nat.lt_or_eq_of_le hle with hlt | heq
  · have hb2 := (crossingValue_between (h.historyBuffer j2) (h.historyBuffer (j2 + 1)) t2).2
    have hb1 := (crossingValue_between (h.historyBuffer j1) (h.historyBuffer (j1 + 1)) t1).1
    have hp2 := hpos j2 (j2 + 1) (by omega) (by omega)
    have hp1 := hpos j1 (j1 + 1) (by omega) (by omega)
    have hmid := hpos (j2 + 1) j1 (by omega) (by omega)
    rw [max_eq_right hp2] at hb2
    rw [min_eq_left hp1] at hb1
    linarith
  · subst heq
    exact crossingValue_antitone _ _ t1 t2 (hpos j2 (j2 + 1) (by omega) (by omega)) h12
      (hlt1 (j2 + 1) (by omega) (by omega)) hj2t

theorem History.ofSamples_concat (l : List HistorySample) (a : HistorySample) :
    History.ofSamples (l ++ [a]) =
      (History.ofSamples l).pushHistory a.timestamp a.laserDist a.globalDist := by
  unfold History.ofSamples
  rw [List.foldl_append]
  rfl

/-- Up to `HISTORY_SIZE - 1` pushes after a reset fill ring positions
`0, 1, ...` in order. -/
theorem History.ofSamples_buffer (l : List HistorySample) :
    l.length < 50 →
    (History.ofSamples l).historyIndex = l.length ∧
    ∀ i, i < l.length → l[i]? = some ((History.ofSamples l).historyBuffer i) := by
  induction l using List.reverseRecOn with
  | nil =>
    intro _
    exact ⟨rfl, fun i hi => by simp at hi⟩
  | append_singleton l a ih =>
    intro hlen
    rw [List.length_append, List.length_singleton] at hlen
    obtain ⟨hidx, hbuf⟩ := ih (by omega)
    rw [History.ofSamples_concat]
    unfold History.pushHistory
    dsimp only
    rw [hidx]
    constructor
    · rw [List.length_append, List.length_singleton]
      unfold HISTORY_SIZE
      exact Nat.mod_eq_of_lt (by omega)
    · intro i hi
      rw [List.length_append, List.length_singleton] at hi
      by_cases hil : i = l.length
      · subst hil
        simp
      · have hi2 : i < l.length := by omega
        rw [List.getElem?_append_left hi2, hbuf i hi2, Function.update_noteq hil]

/-- C10 (crossing interpolation is monotonic in the threshold): for a history
written after a reset with at most 20 samples `first, ..., last`, all with
non-zero timestamps, whose travel position does not decrease from one sample
to the next (as when range falls strictly and linearly while travel
increases), and for thresholds `t1 <= t2` strictly between the last and the
first range value,
`findPreciseCrossingPoint(entering, t2) <= findPreciseCrossingPoint(entering, t1)`.
The strict and linear decrease of the range between `first` and `last` is not
needed. -/
theorem History.crossing_antitone_in_threshold (first last : HistorySample)
    (middle : List HistorySample) (t1 t2 : Nat)
    (hlen : (first :: (middle ++ [last])).length ≤ 20)
    (hts : ∀ s ∈ first :: (middle ++ [last]), s.timestamp ≠ 0)
    (hpos : (first :: (middle ++ [last])).Pairwise (fun a b => a.globalDist ≤ b.globalDist))
    (h12 : t1 ≤ t2) (hlast : last.laserDist < t1) (hfirst : t2 < first.laserDist) :
    (History.ofSamples (first :: (middle ++ [last]))).findPreciseCrossingPoint true t2 ≤
      (History.ofSamples (first :: (middle ++ [last]))).findPreciseCrossingPoint true t1 := by
  obtain ⟨hidx, hbuf⟩ := History.ofSamples_buffer (first :: (middle ++ [last])) (by omega)
  have hlen2 : (first :: (middle ++ [last])).length = middle.length + 2 := by simp
  have hget : ∀ i, i ≤ middle.length + 1 →
      (History.ofSamples (first :: (middle ++ [last]))).historyBuffer i ∈
        first :: (middle ++ [last]) := by
    intro i hi
    have := hbuf i (by omega)
    exact List.getElem?_mem this
  unfold History.findPreciseCrossingPoint
  dsimp only
  rw [hidx, hlen2, histPrev_pos _ (by omega)]
  have hmin : min 20 (HISTORY_SIZE - 1) = 20 := by decide
  rw [hmin]
  apply searchLoop_antitone _ (middle.length + 2 - 1) t1 t2 (by omega)
  · intro i hi
    exact hts _ (hget i (by omega))
  · intro i j hij hj
    rcases Nat.lt_or_eq_of_le hij with hlt | heq
    · have hpi := hbuf i (by omega)
      have hpj := hbuf j (by omega)
      rw [List.pairwise_iff_getElem] at hpos
      have hi2 : i < (first :: (middle ++ [last])).length := by omega
      have hj2 : j < (first :: (middle ++ [last])).length := by omega
      have := hpos i j hi2 hj2 hlt
      rw [List.getElem?_eq_getElem hi2, Option.some.injEq] at hpi
      rw [List.getElem?_eq_getElem hj2, Option.some.injEq] at hpj
      rw [← hpi, ← hpj]
      exact this
    · rw [heq]
  · exact h12
  · have hl := hbuf (middle.length + 2 - 1) (by omega)
    have hl2 : (first :: (middle ++ [last]))[middle.length + 2 - 1]? = some last := by
      simp
    rw [hl2, Option.some.injEq] at hl
    rw [← hl]
    exact hlast
  · have hf := hbuf 0 (by omega)
    rw [List.getElem?_cons_zero, Option.some.injEq] at hf
    rw [← hf]
    exact hfirst.le

theorem History.crossing_antitone_in_threshold_witness :
    (580 : Nat) ≤ 650 ∧ (500 : Nat) < 580 ∧ (650 : Nat) < 900 ∧
    History.rampSamples.Pairwise (fun a b => b.laserDist < a.laserDist) ∧
    History.rampSamples.Pairwise (fun a b => a.globalDist ≤ b.globalDist) ∧
    (History.ofSamples History.rampSamples).findPreciseCrossingPoint true 650 ≤
      (History.ofSamples History.rampSamples).findPreciseCrossingPoint true 580 :=
  ⟨by decide, by decide, by decide, by decide, by decide,
   History.crossing_antitone_in_threshold
     { timestamp := 1000, laserDist := 900, globalDist := 0 }
     { timestamp := 1080, laserDist := 500, globalDist := 40 }
     [ { timestamp := 1020, laserDist := 800, globalDist := 10 },
       { timestamp := 1040, laserDist := 700, globalDist := 20 },
       { timestamp := 1060, laserDist := 600, globalDist := 30 } ]
     580 650 (by decide) (by decide) (by decide) (by decide) (by decide) (by decide)⟩

/-! ### Detection state machine: exit confirmation -/

/-- The two clamping statements of `update` (lines 306-307) amount to
`constrain(length, 500, 1000)`. -/
theorem lengthBand_eq_constrain (x : ℚ) :
    (if (if x < 500 then 500 else x) > 1000 then 1000 else (if x < 500 then 500 else x)) =
      constrain x 500 1000 := by
  unfold constrain
  by_cases h1 : x < 500
  · simp only [if_pos h1]
    norm_num
  · simp only [if_neg h1]

/-- The detector left by a tick that confirms the exit. -/
theorem ObjectDetector.update_confirmsExit (d : ObjectDetector) (t : DetectorTick)
    (h : d.confirmsExit t) :
    d.update t =
      { (d.sense t).1 with
        stableCount := d.stableCount + 1
        endEncoderPos := (d.sense t).1.exitEndPos
        result :=
          { d.result with
            endPos := (d.sense t).1.exitEndPos
            length := constrain
              ((if (d.sense t).1.exitEndPos - d.startEncoderPos < 0 then 0
                  else (d.sense t).1.exitEndPos - d.startEncoderPos) * d.lengthScale
                + d.lengthOffset) 500 1000
            duration := ulongSub t.now d.objectEnterTime
            avgDistance :=
              if d.sampleCount > 5 then (d.sense t).1.calculateAverageDistance
              else ((d.sense t).2 : ℚ)
            minDistance :=
              if d.sampleCount > 5 then (d.sense t).1.calculateMedianDistance
              else ((d.sense t).2 : ℚ)
            valid := decide
              ((if (d.sense t).1.exitEndPos - d.startEncoderPos < 0 then 0
                  else (d.sense t).1.exitEndPos - d.startEncoderPos) > 10 ∧
               (if (d.sense t).1.exitEndPos - d.startEncoderPos < 0 then 0
                  else (d.sense t).1.exitEndPos - d.startEncoderPos) < 1200 ∧
               d.sampleCount > 5)
            timestamp := t.now }
        state := DetectionState.DETECT_COMPLETED } := by
  obtain ⟨hst, ⟨_, hto, hready⟩, hin, hcount⟩ := h
  have h1 : ¬ (d.state = DetectionState.DETECT_IDLE ∨ d.state = DetectionState.DETECT_COMPLETED ∨
      d.state = DetectionState.DETECT_FAILED) := by
    rw [hst]; decide
  have hs : (d.sense t).1.state = DetectionState.DETECT_IN_OBJECT := hst
  have hin2 : decide ((d.sense t).2 < (d.sense t).1.detectThreshold) = false := hin
  have hcount2 : (d.sense t).1.stableCount + 1 ≥ (d.sense t).1.stableCountThreshold := hcount
  unfold ObjectDetector.update
  rw [if_neg h1, if_neg hto, if_neg (by simp [hready])]
  dsimp only
  rw [hs]
  dsimp only
  unfold ObjectDetector.inObjectStep
  rw [hin2]
  simp only [Bool.false_eq_true, if_false]
  rw [if_pos hcount2]
  simp only [lengthBand_eq_constrain]
  rfl

/-- C11 (length-measurement round trip): when a tick confirms the exit with
start position 0, end position found 500, `lengthScale = 1`,
`lengthOffset = 0` and at least 6 accumulated samples, the state after the
update is `DETECT_COMPLETED` and `getResult()` has `length = 500` and
`valid = true`. -/
theorem ObjectDetector.length_round_trip (d : ObjectDetector) (t : DetectorTick)
    (hexit : d.confirmsExit t) (hstart : d.startEncoderPos = 0)
    (hend : (d.sense t).1.exitEndPos = 500) (hscale : d.lengthScale = 1)
    (hoffset : d.lengthOffset = 0) (hsamples : 6 ≤ d.sampleCount) :
    (d.update t).state = DetectionState.DETECT_COMPLETED ∧
    (d.update t).getResult.length = 500 ∧ (d.update t).getResult.valid = true := by
  rw [d.update_confirmsExit t hexit]
  refine ⟨rfl, ?_, ?_⟩
  · show constrain _ 500 1000 = 500
    rw [hend, hstart, hscale, hoffset]
    norm_num [constrain]
  · show decide _ = true
    rw [hend, hstart]
    have h5 : d.sampleCount > 5 := by omega
    simp only [decide_eq_true_eq]
    refine ⟨by norm_num, by norm_num, h5⟩

theorem ObjectDetector.exitExample_confirmsExit (x : ℚ) :
    ObjectDetector.exitExample.confirmsExit (DetectorTick.farAt x) := by
  have h2 : (ObjectDetector.exitExample.sense (DetectorTick.farAt x)).2 = 2000 := by
    simp [ObjectDetector.sense, DetectorTick.farAt, RangeFilter.getFilteredDistance,
      ObjectDetector.exitExample, ObjectDetector.startDetection, ObjectDetector.reset,
      ObjectDetector.setFilterSize, ObjectDetector.construct, jumpGuard]
  refine ⟨rfl, ⟨Or.inr rfl, ?_, rfl⟩, ?_, by decide⟩
  · show ¬ (ulongSub 1000 0 > 15000)
    decide
  · unfold ObjectDetector.tickInRange
    rw [h2]
    rfl

theorem ObjectDetector.exitExample_exitEndPos (x : ℚ) (hx : 10 ≤ x) :
    (ObjectDetector.exitExample.sense (DetectorTick.farAt x)).1.exitEndPos = x - 10 := by
  have h1 : (ObjectDetector.exitExample.sense (DetectorTick.farAt x)).1.history.findPreciseCrossingPoint
      false 300 = -1 := by
    simp [History.findPreciseCrossingPoint, searchLoop, ObjectDetector.sense, History.pushHistory, ObjectDetector.exitExample,
      ObjectDetector.startDetection, ObjectDetector.reset, History.reset, histPrev, HISTORY_SIZE, DetectorTick.farAt, ObjectDetector.setFilterSize, ObjectDetector.construct]
  have h2 : (ObjectDetector.exitExample.sense (DetectorTick.farAt x)).1.globalPathDistance = x := by
    simp [ObjectDetector.sense, DetectorTick.farAt]
  have h3 : (ObjectDetector.exitExample.sense (DetectorTick.farAt x)).1.detectThreshold = 300 := rfl
  have h4 : (ObjectDetector.exitExample.sense (DetectorTick.farAt x)).1.startEncoderPos = 0 := rfl
  unfold ObjectDetector.exitEndPos
  rw [h3, h1, h2, h4]
  have : ¬ (x - 10 < 0) := by linarith
  norm_num [this]

theorem ObjectDetector.length_round_trip_witness :
    ObjectDetector.exitExample.confirmsExit (DetectorTick.farAt 510) ∧
    (ObjectDetector.exitExample.sense (DetectorTick.farAt 510)).1.exitEndPos = 500 ∧
    (ObjectDetector.exitExample.update (DetectorTick.farAt 510)).getResult.length = 500 ∧
    (ObjectDetector.exitExample.update (DetectorTick.farAt 510)).getResult.valid = true := by
  have hend : (ObjectDetector.exitExample.sense (DetectorTick.farAt 510)).1.exitEndPos = 500 := by
    rw [ObjectDetector.exitExample_exitEndPos 510 (by norm_num)]; norm_num
  exact ⟨ObjectDetector.exitExample_confirmsExit 510, hend,
   (ObjectDetector.length_round_trip ObjectDetector.exitExample (DetectorTick.farAt 510)
      (ObjectDetector.exitExample_confirmsExit 510) rfl hend rfl rfl (by decide)).2⟩

/-- On the exit-confirmation path of `update`, `valid = true` implies a raw
length strictly between 10 and 1200 and more than 5 samples. -/
theorem ObjectDetector.update_valid_implies (d : ObjectDetector) (t : DetectorTick)
    (hexit : d.confirmsExit t) (hvalid : (d.update t).result.valid = true) :
    10 < (d.update t).result.endPos - d.startEncoderPos ∧
    (d.update t).result.endPos - d.startEncoderPos < 1200 ∧ 5 < d.sampleCount := by
  rw [d.update_confirmsExit t hexit] at hvalid ⊢
  have hv : decide
      ((if (d.sense t).1.exitEndPos - d.startEncoderPos < 0 then 0
          else (d.sense t).1.exitEndPos - d.startEncoderPos) > 10 ∧
       (if (d.sense t).1.exitEndPos - d.startEncoderPos < 0 then 0
          else (d.sense t).1.exitEndPos - d.startEncoderPos) < 1200 ∧
       d.sampleCount > 5) = true := hvalid
  rw [decide_eq_true_eq] at hv
  show 10 < (d.sense t).1.exitEndPos - d.startEncoderPos ∧
    (d.sense t).1.exitEndPos - d.startEncoderPos < 1200 ∧ 5 < d.sampleCount
  obtain ⟨h1, h2, h3⟩ := hv
  by_cases hneg : (d.sense t).1.exitEndPos - d.startEncoderPos < 0
  · rw [if_pos hneg] at h1
    norm_num at h1
  · rw [if_neg hneg] at h1 h2
    exact ⟨h1, h2, h3⟩

/-- The detector left by a tick that confirms the entry. -/
theorem ObjectDetector.update_confirmsEntry (d : ObjectDetector) (t : DetectorTick)
    (h : d.confirmsEntry t) :
    d.update t =
      { (d.sense t).1 with
        state := DetectionState.DETECT_IN_OBJECT
        objectEnterTime := t.now
        startEncoderPos := (d.sense t).1.entryStartPos
        lastEncoderPos := (d.sense t).1.entryStartPos
        accumulatedDistance := 0
        result := { d.result with startPos := (d.sense t).1.entryStartPos }
        sampleCount := 0
        stableCount := 0 } := by
  obtain ⟨hst, ⟨_, hto, hready⟩, hin, hcount⟩ := h
  have h1 : ¬ (d.state = DetectionState.DETECT_IDLE ∨ d.state = DetectionState.DETECT_COMPLETED ∨
      d.state = DetectionState.DETECT_FAILED) := by
    rw [hst]; decide
  have hs : (d.sense t).1.state = DetectionState.DETECT_WAITING := hst
  have hin2 : decide ((d.sense t).2 < (d.sense t).1.detectThreshold) = true := hin
  have hcount2 : (d.sense t).1.stableCount + 1 ≥ (d.sense t).1.stableCountThreshold := hcount
  unfold ObjectDetector.update
  rw [if_neg h1, if_neg hto, if_neg (by simp [hready])]
  dsimp only
  rw [hs]
  dsimp only
  unfold ObjectDetector.waitingStep
  rw [hin2]
  simp only [if_true]
  rw [if_pos hcount2]
  rfl

set_option maxHeartbeats 2000000 in
theorem ObjectDetector.beforeEntry_confirmsEntry :
    ObjectDetector.beforeEntry.confirmsEntry (DetectorTick.near 50) := by
  decide

set_option maxHeartbeats 2000000 in
theorem ObjectDetector.beforeEntry_search :
    (ObjectDetector.beforeEntry.sense (DetectorTick.near 50)).1.history.findPreciseCrossingPoint
      true 300 = -1 ∧
    (ObjectDetector.beforeEntry.sense (DetectorTick.near 50)).1.detectThreshold = 300 ∧
    (ObjectDetector.beforeEntry.sense (DetectorTick.near 50)).1.lengthScale = 1 ∧
    (ObjectDetector.beforeEntry.sense (DetectorTick.near 50)).1.lengthOffset = 0 := by
  decide

theorem ObjectDetector.justEntered_eq :
    ObjectDetector.justEntered = ObjectDetector.beforeEntry.update (DetectorTick.near 50) := rfl

theorem ObjectDetector.justEntered_fields :
    ObjectDetector.justEntered.state = DetectionState.DETECT_IN_OBJECT ∧
    ObjectDetector.justEntered.sampleCount = 0 ∧
    ObjectDetector.justEntered.startEncoderPos = 0 ∧
    ObjectDetector.justEntered.accumulatedDistance = 0 ∧
    ObjectDetector.justEntered.lengthScale = 1 ∧
    ObjectDetector.justEntered.lengthOffset = 0 := by
  rw [ObjectDetector.justEntered_eq,
    ObjectDetector.update_confirmsEntry _ _ ObjectDetector.beforeEntry_confirmsEntry]
  obtain ⟨h1, h3, h4, h5⟩ := ObjectDetector.beforeEntry_search
  refine ⟨rfl, rfl, ?_, rfl, h4, h5⟩
  show (ObjectDetector.beforeEntry.sense (DetectorTick.near 50)).1.entryStartPos = 0
  have h2 : (ObjectDetector.beforeEntry.sense (DetectorTick.near 50)).1.globalPathDistance = 0 := by
    norm_num [ObjectDetector.sense, DetectorTick.near]
  unfold ObjectDetector.entryStartPos
  rw [h3, h1, h2]
  norm_num

/-- C12 (code behaviour at the failing input): a detector constructed,
started with threshold 300 and fed five in-range ticks has just confirmed an
entry and holds no sample; `stopDetection` with both wheels at 100 mm then
leaves it `DETECT_COMPLETED` with `valid = true` although no range sample was
accumulated. -/
theorem ObjectDetector.stopDetection_valid_without_samples :
    ObjectDetector.justEntered.state = DetectionState.DETECT_IN_OBJECT ∧
    (ObjectDetector.justEntered.stopDetection 1000 100 100).state =
      DetectionState.DETECT_COMPLETED ∧
    (ObjectDetector.justEntered.stopDetection 1000 100 100).result.valid = true ∧
    (ObjectDetector.justEntered.stopDetection 1000 100 100).sampleCount = 0 := by
  obtain ⟨hst, hn, hs, ha, hsc, hof⟩ := ObjectDetector.justEntered_fields
  unfold ObjectDetector.stopDetection
  rw [if_pos hst]
  refine ⟨hst, rfl, ?_, hn⟩
  show decide (_ ∧ _) = true
  rw [ha, hs, hsc, hof]
  norm_num

/-- C13 (an implausible length never aborts the measurement): a tick that
confirms the exit (timeout not expired) leaves the state `DETECT_COMPLETED`,
not `DETECT_FAILED`, whatever the start position, end position, scale and
offset; when the raw length `max(end - start, 0)` is `<= 10` or `>= 1200` the
result has `valid = false`, while `length`, `endPos` and `timestamp` are
written and `startPos` keeps the value recorded at entry. -/
theorem ObjectDetector.implausible_length_completes (d : ObjectDetector) (t : DetectorTick)
    (hexit : d.confirmsExit t) :
    (d.update t).state = DetectionState.DETECT_COMPLETED ∧
    (d.update t).state ≠ DetectionState.DETECT_FAILED ∧
    ((max ((d.sense t).1.exitEndPos - d.startEncoderPos) 0 ≤ 10 ∨
        max ((d.sense t).1.exitEndPos - d.startEncoderPos) 0 ≥ 1200) →
      (d.update t).getResult.valid = false) ∧
    (d.update t).getResult.length =
      constrain (max ((d.sense t).1.exitEndPos - d.startEncoderPos) 0 * d.lengthScale
        + d.lengthOffset) 500 1000 ∧
    (d.update t).getResult.endPos = (d.sense t).1.exitEndPos ∧
    (d.update t).getResult.startPos = d.result.startPos ∧
    (d.update t).getResult.timestamp = t.now := by
  have hmax : (if (d.sense t).1.exitEndPos - d.startEncoderPos < 0 then (0 : ℚ)
      else (d.sense t).1.exitEndPos - d.startEncoderPos) =
      max ((d.sense t).1.exitEndPos - d.startEncoderPos) 0 := by
    split_ifs with h
    · rw [max_eq_right h.le]
    · rw [max_eq_left (not_lt.mp h)]
  rw [d.update_confirmsExit t hexit, hmax]
  refine ⟨rfl, ?_, ?_, rfl, rfl, rfl, rfl⟩
  · show DetectionState.DETECT_COMPLETED ≠ DetectionState.DETECT_FAILED
    decide
  intro hout
  show decide (_ ∧ _ ∧ _) = false
  rw [decide_eq_false_iff_not]
  rintro ⟨h1, h2, _⟩
  rcases hout with h | h
  · exact absurd h (not_le.mpr h1)
  · exact absurd h (not_le.mpr h2)

theorem ObjectDetector.implausible_length_completes_witness :
    ObjectDetector.exitExample.confirmsExit (DetectorTick.farAt 15) ∧
    (ObjectDetector.exitExample.update (DetectorTick.farAt 15)).state =
      DetectionState.DETECT_COMPLETED ∧
    (ObjectDetector.exitExample.update (DetectorTick.farAt 15)).getResult.valid = false := by
  have h := ObjectDetector.implausible_length_completes ObjectDetector.exitExample
    (DetectorTick.farAt 15) (ObjectDetector.exitExample_confirmsExit 15)
  refine ⟨ObjectDetector.exitExample_confirmsExit 15, h.1, h.2.2.1 (Or.inl ?_)⟩
  rw [ObjectDetector.exitExample_exitEndPos 15 (by norm_num)]
  have hs : ObjectDetector.exitExample.startEncoderPos = 0 := rfl
  rw [hs]
  norm_num

/-- C14 (final length band): the result written by exit confirmation has
`500 <= length <= 1000` and
`length = clamp(max(endPos - startPos, 0) * lengthScale + lengthOffset, 500, 1000)`,
for every start position, end position, scale and offset and whatever the
value of `valid`. -/
theorem ObjectDetector.final_length_band (d : ObjectDetector) (t : DetectorTick)
    (hexit : d.confirmsExit t) :
    500 ≤ (d.update t).getResult.length ∧ (d.update t).getResult.length ≤ 1000 ∧
    (d.update t).getResult.length =
      max 500 (min (max ((d.update t).getResult.endPos - d.startEncoderPos) 0 * d.lengthScale
        + d.lengthOffset) 1000) := by
  have hmax : (if (d.sense t).1.exitEndPos - d.startEncoderPos < 0 then (0 : ℚ)
      else (d.sense t).1.exitEndPos - d.startEncoderPos) =
      max ((d.sense t).1.exitEndPos - d.startEncoderPos) 0 := by
    split_ifs with h
    · rw [max_eq_right h.le]
    · rw [max_eq_left (not_lt.mp h)]
  rw [d.update_confirmsExit t hexit, hmax]
  have hb := constrain_mem
    (max ((d.sense t).1.exitEndPos - d.startEncoderPos) 0 * d.lengthScale + d.lengthOffset)
    500 1000 (by norm_num)
  exact ⟨hb.1, hb.2, constrain_eq_max_min _ _ _ (by norm_num)⟩

theorem ObjectDetector.final_length_band_witness :
    ObjectDetector.exitExample.confirmsExit (DetectorTick.farAt 710) ∧
    (500 : ℚ) ≤ (ObjectDetector.exitExample.update (DetectorTick.farAt 710)).getResult.length ∧
    (ObjectDetector.exitExample.update (DetectorTick.farAt 710)).getResult.length ≤ 1000 :=
  ⟨ObjectDetector.exitExample_confirmsExit 710,
   (ObjectDetector.final_length_band ObjectDetector.exitExample (DetectorTick.farAt 710)
      (ObjectDetector.exitExample_confirmsExit 710)).1,
   (ObjectDetector.final_length_band ObjectDetector.exitExample (DetectorTick.farAt 710)
      (ObjectDetector.exitExample_confirmsExit 710)).2.1⟩

/-! ### Detection state machine: timeout -/

theorem ObjectDetector.waitingStep_state (d : ObjectDetector) (now : Nat) (inRange : Bool) :
    (d.waitingStep now inRange).state =
      if inRange = true ∧ d.stableCount + 1 ≥ d.stableCountThreshold then
        DetectionState.DETECT_IN_OBJECT
      else d.state := by
  unfold ObjectDetector.waitingStep
  cases inRange with
  | false => simp
  | true =>
    by_cases hc : d.stableCount + 1 ≥ d.stableCountThreshold
    · simp only [if_true, true_and]
      rw [if_pos hc, if_pos hc]
    · simp only [if_true, true_and]
      rw [if_neg hc, if_neg hc]

theorem ObjectDetector.inObjectStep_state (d : ObjectDetector) (now filteredDistance : Nat)
    (inRange : Bool) :
    (d.inObjectStep now filteredDistance inRange).state =
      if inRange = false ∧ d.stableCount + 1 ≥ d.stableCountThreshold then
        DetectionState.DETECT_COMPLETED
      else d.state := by
  unfold ObjectDetector.inObjectStep
  cases inRange with
  | true =>
    simp only [if_true, Bool.true_eq_false, false_and, if_false]
    unfold ObjectDetector.addDistanceSample
    split_ifs <;> rfl
  | false =>
    by_cases hc : d.stableCount + 1 ≥ d.stableCountThreshold
    · simp only [Bool.false_eq_true, if_false, true_and]
      rw [if_pos hc, if_pos hc]
    · simp only [Bool.false_eq_true, if_false, true_and]
      rw [if_neg hc, if_neg hc]

/-- The state after a processed tick. -/
theorem ObjectDetector.update_processed_state (d : ObjectDetector) (t : DetectorTick)
    (hp : d.processes t) :
    (d.update t).state =
      if d.state = DetectionState.DETECT_WAITING then
        (if d.tickInRange t = true ∧ d.stableCount + 1 ≥ d.stableCountThreshold then
          DetectionState.DETECT_IN_OBJECT else DetectionState.DETECT_WAITING)
      else
        (if d.tickInRange t = false ∧ d.stableCount + 1 ≥ d.stableCountThreshold then
          DetectionState.DETECT_COMPLETED else DetectionState.DETECT_IN_OBJECT) := by
  obtain ⟨hst, hto, hready⟩ := hp
  have h1 : ¬ (d.state = DetectionState.DETECT_IDLE ∨ d.state = DetectionState.DETECT_COMPLETED ∨
      d.state = DetectionState.DETECT_FAILED) := by
    rcases hst with h | h <;> rw [h] <;> decide
  have hs : (d.sense t).1.state = d.state := rfl
  unfold ObjectDetector.update
  rw [if_neg h1, if_neg hto, if_neg (by simp [hready])]
  dsimp only
  rw [hs]
  rcases hst with h | h
  · rw [h]
    dsimp only
    rw [ObjectDetector.waitingStep_state, if_pos rfl, hs, h]
    rfl
  · rw [h]
    dsimp only
    rw [ObjectDetector.inObjectStep_state, hs, h,
      if_neg (show ¬ (DetectionState.DETECT_IN_OBJECT = DetectionState.DETECT_WAITING) by
        decide)]
    rfl

/-- A tick that is not processed leaves the state as it is, except that an
expired timeout in a detecting state sets `DETECT_FAILED`. -/
theorem ObjectDetector.update_unprocessed (d : ObjectDetector) (t : DetectorTick)
    (hp : ¬ d.processes t) :
    d.update t = d ∨ d.update t = { d with state := DetectionState.DETECT_FAILED } := by
  unfold ObjectDetector.update
  split_ifs with h1 h2 h3
  · exact Or.inl rfl
  · exact Or.inr rfl
  · exfalso
    apply hp
    refine ⟨?_, h2, h3⟩
    cases hd : d.state with
    | DETECT_IDLE => exact absurd (Or.inl hd) h1
    | DETECT_COMPLETED => exact absurd (Or.inr (Or.inl hd)) h1
    | DETECT_FAILED => exact absurd (Or.inr (Or.inr hd)) h1
    | DETECT_WAITING => exact Or.inl rfl
    | DETECT_IN_OBJECT => exact Or.inr rfl
  · exact Or.inl rfl

/-- The state after `update` is `DETECT_FAILED` only if it was before or the
timeout has expired. -/
theorem ObjectDetector.update_failed_only_by_timeout (d : ObjectDetector) (t : DetectorTick)
    (hto : ¬ (ulongSub t.now d.startTime > d.timeoutMs))
    (hst : d.state ≠ DetectionState.DETECT_FAILED) :
    (d.update t).state ≠ DetectionState.DETECT_FAILED := by
  by_cases hp : d.processes t
  · rw [d.update_processed_state t hp]
    split_ifs <;> decide
  · unfold ObjectDetector.update
    split_ifs with h1 h2
    · exact hst
    · exfalso
      apply hp
      refine ⟨?_, hto, h2⟩
      cases hd : d.state with
      | DETECT_IDLE => exact absurd (Or.inl hd) h1
      | DETECT_COMPLETED => exact absurd (Or.inr (Or.inl hd)) h1
      | DETECT_FAILED => exact absurd (Or.inr (Or.inr hd)) h1
      | DETECT_WAITING => exact Or.inl rfl
      | DETECT_IN_OBJECT => exact Or.inr rfl
    · exact hst

/-- C15 (measurement timeout): an `update` call in state `DETECT_WAITING` or
`DETECT_IN_OBJECT` with `now - startTime > timeoutMs` sets the state to
`DETECT_FAILED` and changes nothing else (no filtering, no history push, no
result field), whatever the reading of the tick; with
`now - startTime <= timeoutMs` the call does not set `DETECT_FAILED`. -/
theorem ObjectDetector.update_timeout (d : ObjectDetector) (t : DetectorTick)
    (hstate : d.state = DetectionState.DETECT_WAITING ∨
      d.state = DetectionState.DETECT_IN_OBJECT) :
    (ulongSub t.now d.startTime > d.timeoutMs →
      d.update t = { d with state := DetectionState.DETECT_FAILED }) ∧
    (¬ (ulongSub t.now d.startTime > d.timeoutMs) →
      (d.update t).state ≠ DetectionState.DETECT_FAILED) := by
  constructor
  · intro hto
    have h1 : ¬ (d.state = DetectionState.DETECT_IDLE ∨
        d.state = DetectionState.DETECT_COMPLETED ∨
        d.state = DetectionState.DETECT_FAILED) := by
      rcases hstate with h | h <;> rw [h] <;> decide
    unfold ObjectDetector.update
    rw [if_neg h1, if_pos hto]
  · intro hto
    apply d.update_failed_only_by_timeout t hto
    rcases hstate with h | h <;> rw [h] <;> decide

theorem ObjectDetector.update_timeout_witness :
    (ObjectDetector.waitingExample.state = DetectionState.DETECT_WAITING ∨
      ObjectDetector.waitingExample.state = DetectionState.DETECT_IN_OBJECT) ∧
    ulongSub DetectorTick.late.now ObjectDetector.waitingExample.startTime >
      ObjectDetector.waitingExample.timeoutMs ∧
    (ObjectDetector.waitingExample.update DetectorTick.late).state =
      DetectionState.DETECT_FAILED := by
  have hto : ulongSub DetectorTick.late.now ObjectDetector.waitingExample.startTime >
      ObjectDetector.waitingExample.timeoutMs := by decide
  have h := (ObjectDetector.update_timeout ObjectDetector.waitingExample DetectorTick.late
    (Or.inl rfl)).1 hto
  exact ⟨Or.inl rfl, hto, by rw [h]⟩

/-! ### Detection state machine: entry debounce -/

theorem countTrailing_concat (l : List Bool) (b : Bool) :
    countTrailing (l ++ [b]) = if b then countTrailing l + 1 else 0 := by
  unfold countTrailing
  rw [List.foldl_append]
  rfl

theorem countTrailing_ge_iff (k : Nat) :
    ∀ l : List Bool, k ≤ countTrailing l ↔ ∃ pre, l = pre ++ List.replicate k true := by
  induction k with
  | zero => intro l; exact ⟨fun _ => ⟨l, by simp⟩, fun _ => Nat.zero_le _⟩
  | succ k ih =>
    intro l
    induction l using List.reverseRecOn with
    | nil =>
      constructor
      · intro h; simp [countTrailing] at h
      · rintro ⟨pre, h⟩
        have := congrArg List.length h
        simp at this
        omega
    | append_singleton l b _ =>
      rw [countTrailing_concat]
      constructor
      · intro h
        cases b with
        | false => simp at h
        | true =>
          simp only [if_true] at h
          obtain ⟨pre, hpre⟩ := (ih l).1 (by omega)
          refine ⟨pre, ?_⟩
          rw [hpre, List.replicate_succ', List.append_assoc]
      · rintro ⟨pre, h⟩
        rw [List.replicate_succ', ← List.append_assoc] at h
        have h2 := List.append_inj' h rfl
        obtain ⟨hl, hb⟩ := h2
        have hb2 : b = true := by simpa using hb
        subst hb2
        simp only [if_true]
        have := (ih l).2 ⟨pre, hl⟩
        omega

theorem ObjectDetector.update_stableCountThreshold (d : ObjectDetector) (t : DetectorTick) :
    (d.update t).stableCountThreshold = d.stableCountThreshold := by
  unfold ObjectDetector.update
  split_ifs with h1 h2 h3
  · rfl
  · rfl
  · dsimp only
    split
    · unfold ObjectDetector.waitingStep
      dsimp only
      split_ifs <;> rfl
    · unfold ObjectDetector.inObjectStep ObjectDetector.addDistanceSample
      dsimp only
      split_ifs <;> rfl
    · rfl
  · rfl

theorem ObjectDetector.waitingStep_stableCount (d : ObjectDetector) (now : Nat)
    (inRange : Bool) :
    (d.waitingStep now inRange).stableCount =
      if inRange = true then
        (if d.stableCount + 1 ≥ d.stableCountThreshold then 0 else d.stableCount + 1)
      else 0 := by
  unfold ObjectDetector.waitingStep
  cases inRange with
  | false => simp
  | true =>
    by_cases hc : d.stableCount + 1 ≥ d.stableCountThreshold
    · simp only [if_true]
      rw [if_pos hc, if_pos hc]
    · simp only [if_true]
      rw [if_neg hc, if_neg hc]

/-- The counter after a processed tick in state `DETECT_WAITING`. -/
theorem ObjectDetector.update_waiting_stableCount (d : ObjectDetector) (t : DetectorTick)
    (hw : d.state = DetectionState.DETECT_WAITING) (hp : d.processes t) :
    (d.update t).stableCount =
      if d.tickInRange t = true then
        (if d.stableCount + 1 ≥ d.stableCountThreshold then 0 else d.stableCount + 1)
      else 0 := by
  obtain ⟨_, hto, hready⟩ := hp
  have h1 : ¬ (d.state = DetectionState.DETECT_IDLE ∨ d.state = DetectionState.DETECT_COMPLETED ∨
      d.state = DetectionState.DETECT_FAILED) := by
    rw [hw]; decide
  have hs : (d.sense t).1.state = DetectionState.DETECT_WAITING := hw
  unfold ObjectDetector.update
  rw [if_neg h1, if_neg hto, if_neg (by simp [hready])]
  dsimp only
  rw [hs]
  dsimp only
  rw [ObjectDetector.waitingStep_stableCount]
  rfl

theorem ObjectDetector.update_waiting_back (d : ObjectDetector) (t : DetectorTick)
    (h : (d.update t).state = DetectionState.DETECT_WAITING) :
    d.state = DetectionState.DETECT_WAITING := by
  by_cases hp : d.processes t
  · rw [d.update_processed_state t hp] at h
    by_contra hw
    rw [if_neg hw] at h
    split_ifs at h
  · rcases d.update_unprocessed t hp with h1 | h1
    · rw [h1] at h; exact h
    · rw [h1] at h
      have h2 : DetectionState.DETECT_FAILED = DetectionState.DETECT_WAITING := h
      exact absurd h2 (by decide)

theorem ObjectDetector.run_waiting_back (ts : List DetectorTick) :
    ∀ d : ObjectDetector, (d.run ts).state = DetectionState.DETECT_WAITING →
      d.state = DetectionState.DETECT_WAITING := by
  induction ts with
  | nil => intro d h; exact h
  | cons t ts ih =>
    intro d h
    exact d.update_waiting_back t (ih (d.update t) h)

/-- While a run stays in `DETECT_WAITING` with threshold 5, the counter is
the number of in-range flags at the end of the trace, and is below 5. -/
theorem ObjectDetector.run_waiting_counter (ts : List DetectorTick) :
    ∀ (d : ObjectDetector) (pre : List Bool),
      d.state = DetectionState.DETECT_WAITING → d.stableCountThreshold = 5 →
      d.stableCount = (countTrailing pre : Int) → countTrailing pre < 5 →
      (d.run ts).state = DetectionState.DETECT_WAITING →
      (d.run ts).stableCount = (countTrailing (pre ++ d.inRangeTrace ts) : Int) ∧
      countTrailing (pre ++ d.inRangeTrace ts) < 5 ∧
      (d.run ts).stableCountThreshold = 5 := by
  induction ts with
  | nil =>
    intro d pre _ hthr hcnt hlt _
    simp only [ObjectDetector.inRangeTrace, List.append_nil]
    exact ⟨hcnt, hlt, hthr⟩
  | cons t ts ih =>
    intro d pre hw hthr hcnt hlt hfin
    have hfin2 : ((d.update t).run ts).state = DetectionState.DETECT_WAITING := hfin
    have hw2 := ObjectDetector.run_waiting_back ts (d.update t) hfin2
    have hthr2 : (d.update t).stableCountThreshold = 5 := by
      rw [d.update_stableCountThreshold t, hthr]
    show ((d.update t).run ts).stableCount = _ ∧ _ ∧ ((d.update t).run ts).stableCountThreshold = 5
    unfold ObjectDetector.inRangeTrace
    by_cases hp : d.processes t
    · rw [if_pos hp, ← List.append_assoc]
      have hst := d.update_processed_state t hp
      rw [hw2, if_pos hw] at hst
      have hsc := d.update_waiting_stableCount t hw hp
      apply ih (d.update t) (pre ++ [d.tickInRange t]) hw2 hthr2
      · rw [hsc, countTrailing_concat]
        cases hb : d.tickInRange t with
        | false => simp
        | true =>
          rw [hb] at hst
          simp only [true_and] at hst
          by_cases hc : d.stableCount + 1 ≥ d.stableCountThreshold
          · rw [if_pos hc] at hst
            exact absurd hst (by decide)
          · simp only [if_true]
            rw [if_neg hc, hcnt]
            push_cast
            rfl
      · rw [countTrailing_concat]
        cases hb : d.tickInRange t with
        | false => simp
        | true =>
          rw [hb] at hst
          simp only [true_and] at hst
          by_cases hc : d.stableCount + 1 ≥ d.stableCountThreshold
          · rw [if_pos hc] at hst
            exact absurd hst (by decide)
          · simp only [if_true]
            rw [hthr, hcnt] at hc
            omega
      · exact hfin2
    · rw [if_neg hp, List.nil_append]
      rcases d.update_unprocessed t hp with h1 | h1
      · rw [h1] at hw2 hthr2 ⊢
        exact ih d pre hw hthr hcnt hlt (by rw [h1] at hfin2; exact hfin2)
      · rw [h1] at hw2
        have h2 : DetectionState.DETECT_FAILED = DetectionState.DETECT_WAITING := hw2
        exact absurd h2 (by decide)

/-- C16 (entry debounce): with the stable count at 5, after `startDetection`
and any run of ticks that leaves the detector waiting, the next `update`
moves it to `DETECT_IN_OBJECT` if and only if that tick is processed with
`filteredRange < threshold` and the four processed ticks immediately before
it had `filteredRange < threshold` too; a processed tick with
`filteredRange >= threshold` resets the counter to 0 and leaves the detector
waiting. -/
theorem ObjectDetector.entry_debounce (d : ObjectDetector) (now : Nat)
    (leftDistance rightDistance : ℚ) (baselineDistance threshold : Nat)
    (ts : List DetectorTick) (t : DetectorTick)
    (hdefault : d.stableCountThreshold = 5)
    (hwaiting : ((d.startDetection now leftDistance rightDistance baselineDistance
        threshold).run ts).state = DetectionState.DETECT_WAITING) :
    ((((d.startDetection now leftDistance rightDistance baselineDistance threshold).run
          ts).update t).state = DetectionState.DETECT_IN_OBJECT ↔
      (((d.startDetection now leftDistance rightDistance baselineDistance threshold).run
          ts).processes t ∧
        ((d.startDetection now leftDistance rightDistance baselineDistance threshold).run
          ts).tickInRange t = true ∧
        ∃ pre, (d.startDetection now leftDistance rightDistance baselineDistance
            threshold).inRangeTrace ts = pre ++ [true, true, true, true])) ∧
    (((d.startDetection now leftDistance rightDistance baselineDistance threshold).run
          ts).processes t →
      ((d.startDetection now leftDistance rightDistance baselineDistance threshold).run
          ts).tickInRange t = false →
      (((d.startDetection now leftDistance rightDistance baselineDistance threshold).run
          ts).update t).stableCount = 0 ∧
      (((d.startDetection now leftDistance rightDistance baselineDistance threshold).run
          ts).update t).state = DetectionState.DETECT_WAITING) := by
  have hthr0 : (d.startDetection now leftDistance rightDistance baselineDistance
      threshold).stableCountThreshold = 5 := by
    show (if d.stableCountThreshold < 5 then 5 else d.stableCountThreshold) = 5
    rw [hdefault]; rfl
  obtain ⟨hcnt, hlt, hthr⟩ := ObjectDetector.run_waiting_counter ts
    (d.startDetection now leftDistance rightDistance baselineDistance threshold) []
    rfl hthr0 rfl (by decide) hwaiting
  rw [List.nil_append] at hcnt hlt
  generalize (d.startDetection now leftDistance rightDistance baselineDistance
      threshold).run ts = d1 at hwaiting hcnt hthr ⊢
  generalize (d.startDetection now leftDistance rightDistance baselineDistance
      threshold).inRangeTrace ts = tr at hcnt hlt ⊢
  have hfour : (∃ pre, tr = pre ++ [true, true, true, true]) ↔ 4 ≤ countTrailing tr :=
    (countTrailing_ge_iff 4 tr).symm
  constructor
  · constructor
    · intro hin
      by_cases hp : d1.processes t
      · have hst := d1.update_processed_state t hp
        rw [hin, if_pos hwaiting] at hst
        by_cases hc : d1.tickInRange t = true ∧ d1.stableCount + 1 ≥ d1.stableCountThreshold
        · refine ⟨hp, hc.1, hfour.2 ?_⟩
          have := hc.2
          rw [hthr, hcnt] at this
          omega
        · rw [if_neg hc] at hst
          exact absurd hst (by decide)
      · rcases d1.update_unprocessed t hp with h1 | h1
        · rw [h1, hwaiting] at hin
          exact absurd hin (by decide)
        · rw [h1] at hin
          have h2 : DetectionState.DETECT_FAILED = DetectionState.DETECT_IN_OBJECT := hin
          exact absurd h2 (by decide)
    · rintro ⟨hp, hb, hpre⟩
      have h4 := hfour.1 hpre
      rw [d1.update_processed_state t hp, if_pos hwaiting, if_pos]
      refine ⟨hb, ?_⟩
      rw [hthr, hcnt]
      omega
  · intro hp hb
    constructor
    · rw [d1.update_waiting_stableCount t hwaiting hp, hb]
      rfl
    · rw [d1.update_processed_state t hp, if_pos hwaiting, hb]
      rfl

set_option maxHeartbeats 2000000 in
theorem ObjectDetector.entry_debounce_witness :
    ObjectDetector.construct.stableCountThreshold = 5 ∧
    ((ObjectDetector.construct.startDetection 0 0 0 0 300).run
      [DetectorTick.near 10, DetectorTick.near 20, DetectorTick.near 30,
       DetectorTick.near 40]).state = DetectionState.DETECT_WAITING ∧
    (((ObjectDetector.construct.startDetection 0 0 0 0 300).run
      [DetectorTick.near 10, DetectorTick.near 20, DetectorTick.near 30,
       DetectorTick.near 40]).update (DetectorTick.near 50)).state =
      DetectionState.DETECT_IN_OBJECT :=
  ⟨by decide, by decide,
   (ObjectDetector.entry_debounce ObjectDetector.construct 0 0 0 0 300
      [DetectorTick.near 10, DetectorTick.near 20, DetectorTick.near 30, DetectorTick.near 40]
      (DetectorTick.near 50) (by decide) (by decide)).1.2
      ⟨ObjectDetector.beforeEntry_confirmsEntry.2.1, ObjectDetector.beforeEntry_confirmsEntry.2.2.1,
       [], by decide⟩⟩

/-! ### Detection state machine: what `startDetection` resets -/

/-- After `startDetection` the detector waits with an empty history, an
empty median window and zero counters; the statics of the outlier guard and
of the continuity check keep the values of the previous measurement. -/
theorem ObjectDetector.startDetection_fields (d : ObjectDetector) (now : Nat)
    (leftDistance rightDistance : ℚ) (baselineDistance threshold : Nat) :
    (d.startDetection now leftDistance rightDistance baselineDistance threshold).state =
      DetectionState.DETECT_WAITING ∧
    (d.startDetection now leftDistance rightDistance baselineDistance threshold).history.historyIndex
      = 0 ∧
    (∀ i, ((d.startDetection now leftDistance rightDistance baselineDistance
      threshold).history.historyBuffer i).timestamp = 0) ∧
    (d.startDetection now leftDistance rightDistance baselineDistance threshold).filter.filterCount
      = 0 ∧
    (d.startDetection now leftDistance rightDistance baselineDistance threshold).filter.filterIndex
      = 0 ∧
    (d.startDetection now leftDistance rightDistance baselineDistance threshold).stableCount = 0 ∧
    (d.startDetection now leftDistance rightDistance baselineDistance threshold).sampleCount = 0 ∧
    (d.startDetection now leftDistance rightDistance baselineDistance threshold).filter.lastRaw =
      d.filter.lastRaw ∧
    (d.startDetection now leftDistance rightDistance baselineDistance threshold).filter.outlierCount
      = d.filter.outlierCount ∧
    (d.startDetection now leftDistance rightDistance baselineDistance threshold).lastFilteredDist =
      d.lastFilteredDist ∧
    (d.startDetection now leftDistance rightDistance baselineDistance threshold).jumpCount =
      d.jumpCount :=
  ⟨rfl, rfl, fun _ => rfl, rfl, rfl, rfl, rfl, rfl, rfl, rfl, rfl⟩

/-- C17 (code behaviour at the failing input): two detectors, one newly
constructed and one that saw a 2000 mm reading in an earlier measurement,
both after the same `startDetection(0, 300)`, are fed the same tick with raw
range 200: the first filters it to 200 and counts an in-range tick, the
second filters it to 2000 (the outlier guard still remembers 2000) and counts
none. -/
theorem ObjectDetector.startDetection_keeps_outlier_memory :
    ObjectDetector.freshStart.state = DetectionState.DETECT_WAITING ∧
    ObjectDetector.restarted.state = DetectionState.DETECT_WAITING ∧
    ObjectDetector.freshStart.filter.lastRaw = none ∧
    ObjectDetector.restarted.filter.lastRaw = some 2000 ∧
    (ObjectDetector.freshStart.sense (DetectorTick.near 1010)).2 = 200 ∧
    (ObjectDetector.restarted.sense (DetectorTick.near 1010)).2 = 2000 ∧
    (ObjectDetector.freshStart.update (DetectorTick.near 1010)).stableCount = 1 ∧
    (ObjectDetector.restarted.update (DetectorTick.near 1010)).stableCount = 0 := by
  decide

/-! ### Motion sequencer: parking -/

theorem Sequencer.handleParking_step (s : Sequencer) (i : LoopInputs) :
    ((s.handleParking i).parkingSubState = s.parkingSubState ∨
      (s.handleParking i).parkingSubState.rank = s.parkingSubState.rank + 1) ∧
    ((s.handleParking i).currentState ≠ s.currentState →
      s.parkingSubState = ParkingSubState.PARK_ALARM ∧
      (s.handleParking i).currentState = SystemState.STATE_FINISHED) := by
  unfold Sequencer.handleParking
  cases hp : s.parkingSubState with
  | PARK_APPROACH =>
    dsimp only
    split_ifs <;> simp [ParkingSubState.rank, hp]
  | PARK_VERY_SLOW =>
    dsimp only
    split_ifs <;> simp [ParkingSubState.rank, hp]
  | PARK_STOP =>
    dsimp only
    simp [ParkingSubState.rank]
  | PARK_ALARM =>
    dsimp only
    split_ifs <;> simp [ParkingSubState.rank, hp]

theorem Sequencer.handleParking_rank_mono (inputs : List LoopInputs) :
    ∀ s : Sequencer, s.parkingSubState.rank ≤
      (inputs.foldl Sequencer.handleParking s).parkingSubState.rank := by
  induction inputs with
  | nil => intro s; exact le_refl _
  | cons i is ih =>
    intro s
    have h := (s.handleParking_step i).1
    have h2 := ih (s.handleParking i)
    simp only [List.foldl_cons]
    rcases h with h | h
    · rw [h] at h2; exact h2
    · omega

/-- C18 (parking band ordering): whatever the ultrasonic reading, one
`handleParking` tick keeps the parking phase or moves it to the next phase
of Approach, VerySlow, Stop, Alarm (never skipping one, never going back), and
changes the top-level state only from phase Alarm and only to
`STATE_FINISHED`; so along every sequence of readings the phase never
returns to an earlier one. -/
theorem Sequencer.parking_phase_order (s : Sequencer) (i : LoopInputs)
    (inputs : List LoopInputs) :
    ((s.handleParking i).parkingSubState = s.parkingSubState ∨
      (s.handleParking i).parkingSubState.rank = s.parkingSubState.rank + 1) ∧
    ((s.handleParking i).currentState ≠ s.currentState →
      s.parkingSubState = ParkingSubState.PARK_ALARM ∧
      (s.handleParking i).currentState = SystemState.STATE_FINISHED) ∧
    s.parkingSubState.rank ≤ (inputs.foldl Sequencer.handleParking s).parkingSubState.rank :=
  ⟨(s.handleParking_step i).1, (s.handleParking_step i).2,
   Sequencer.handleParking_rank_mono inputs s⟩

/-! ### Motion sequencer: obstacle avoidance -/

/-- The sub-state, top-level state and step start time left by the
`switch` block, step by step. -/
theorem Sequencer.avoidSwitch_effect (s : Sequencer) (i : LoopInputs) :
    (s.avoidSubState ≠ AvoidanceSubState.AVOID_FORWARD_IN →
      s.avoidSubState ≠ AvoidanceSubState.AVOID_NONE →
      (s.avoidTarget i →
        (s.avoidSwitch i).avoidSubState ≠ s.avoidSubState ∧
        (s.avoidSubState ≠ AvoidanceSubState.AVOID_TURN_LEFT_ALIGN →
          (s.avoidSwitch i).avoidStateStartTime = i.now ∧
          (s.avoidSwitch i).currentState = s.currentState) ∧
        (s.avoidSubState = AvoidanceSubState.AVOID_TURN_LEFT_ALIGN →
          (s.avoidSwitch i).avoidSubState = AvoidanceSubState.AVOID_NONE ∧
          (s.avoidSwitch i).currentState = SystemState.STATE_LINE_FOLLOW)) ∧
      (¬ s.avoidTarget i →
        (s.avoidSwitch i).avoidSubState = s.avoidSubState ∧
        (s.avoidSwitch i).currentState = s.currentState ∧
        (s.avoidSwitch i).avoidStateStartTime = s.avoidStateStartTime)) ∧
    (s.avoidSubState = AvoidanceSubState.AVOID_FORWARD_IN →
      (s.avoidSwitch i).currentState = s.currentState ∧
      ((i.lineDataReady = true ∧ i.lineRawStates ≠ 0) →
        (s.avoidSwitch i).avoidSubState = AvoidanceSubState.AVOID_TURN_LEFT_ALIGN ∧
        (s.avoidSwitch i).avoidStateStartTime = i.now) ∧
      (¬ (i.lineDataReady = true ∧ i.lineRawStates ≠ 0) →
        (s.avoidSwitch i).avoidStateStartTime = s.avoidStateStartTime ∧
        ((i.leftDistance + i.rightDistance) / 2 ≥ (s.params.avoidSearchDist : ℚ) →
          (s.avoidSwitch i).avoidSubState = AvoidanceSubState.AVOID_TURN_LEFT_ALIGN) ∧
        (¬ ((i.leftDistance + i.rightDistance) / 2 ≥ (s.params.avoidSearchDist : ℚ)) →
          (s.avoidSwitch i).avoidSubState = AvoidanceSubState.AVOID_FORWARD_IN))) := by
  unfold Sequencer.avoidSwitch Sequencer.avoidTarget
  cases hs : s.avoidSubState with
  | AVOID_NONE => simp
  | AVOID_TURN_LEFT =>
    dsimp only
    refine ⟨fun _ _ => ⟨fun h => ?_, fun h => ?_⟩, fun h => by simp at h⟩
    · rw [if_pos h]; simp [Sequencer.avoidStepDone]
    · rw [if_neg h]; simp [hs]
  | AVOID_FORWARD_OUT =>
    dsimp only
    refine ⟨fun _ _ => ⟨fun h => ?_, fun h => ?_⟩, fun h => by simp at h⟩
    · rw [if_pos h]; simp [Sequencer.avoidStepDone]
    · rw [if_neg h]; simp [hs]
  | AVOID_TURN_RIGHT_1 =>
    dsimp only
    refine ⟨fun _ _ => ⟨fun h => ?_, fun h => ?_⟩, fun h => by simp at h⟩
    · rw [if_pos h]; simp [Sequencer.avoidStepDone]
    · rw [if_neg h]; simp [hs]
  | AVOID_FORWARD_PARALLEL =>
    dsimp only
    refine ⟨fun _ _ => ⟨fun h => ?_, fun h => ?_⟩, fun h => by simp at h⟩
    · rw [if_pos h]; simp [Sequencer.avoidStepDone]
    · rw [if_neg h]; simp [hs]
  | AVOID_TURN_RIGHT_2 =>
    dsimp only
    refine ⟨fun _ _ => ⟨fun h => ?_, fun h => ?_⟩, fun h => by simp at h⟩
    · rw [if_pos h]; simp [Sequencer.avoidStepDone]
    · rw [if_neg h]; simp [hs]
  | AVOID_TURN_LEFT_ALIGN =>
    dsimp only
    refine ⟨fun _ _ => ⟨fun h => ?_, fun h => ?_⟩, fun h => by simp at h⟩
    · rw [if_pos h]; simp
    · rw [if_neg h]; simp [hs]
  | AVOID_FORWARD_IN =>
    dsimp only
    refine ⟨fun h => absurd rfl h, fun _ => ⟨?_, fun h => ?_, fun h => ⟨?_, fun h2 => ?_, fun h2 => ?_⟩⟩⟩
    · split_ifs <;> simp [Sequencer.avoidStepDone]
    · rw [if_pos h]; simp [Sequencer.avoidStepDone]
    · rw [if_neg h]; split_ifs <;> simp
    · rw [if_neg h, if_pos h2]
    · rw [if_neg h, if_neg h2]

theorem ulongSub_self (a : Nat) : ulongSub a a = 0 := by
  unfold ulongSub
  have h : a % ulongMod + ulongMod - a % ulongMod = ulongMod := by omega
  rw [h, Nat.mod_self]

theorem Sequencer.handleObstacleAvoidance_fields (s : Sequencer) (i : LoopInputs) :
    (s.handleObstacleAvoidance i).avoidSubState =
      (if ulongSub i.now (s.avoidSwitch i).avoidStateStartTime > AVOID_TIME_MS then
        AvoidanceSubState.AVOID_NONE else (s.avoidSwitch i).avoidSubState) ∧
    (s.handleObstacleAvoidance i).currentState =
      (if ulongSub i.now (s.avoidSwitch i).avoidStateStartTime > AVOID_TIME_MS then
        SystemState.STATE_LINE_FOLLOW else (s.avoidSwitch i).currentState) := by
  unfold Sequencer.handleObstacleAvoidance
  dsimp only
  split_ifs <;> exact ⟨rfl, rfl⟩

/-- C19, amended (avoidance step progress): a `handleObstacleAvoidance` tick
in one of the steps 1-5 and 7 leaves the step exactly when the step's
odometry-delta target is reached or more than `AVOID_TIME_MS` has passed since
the step's start time; a tick in step 6 leaves it exactly when the line is
seen (data ready, raw bitmask non-zero), or the mean of the two wheel
distances has reached `avoidSearchDist`, or that time has passed. -/
theorem Sequencer.avoid_step_exit (s : Sequencer) (i : LoopInputs)
    (hstep : s.avoidSubState ≠ AvoidanceSubState.AVOID_NONE) :
    s.leavesStep (s.handleObstacleAvoidance i) ↔
      ((if s.avoidSubState = AvoidanceSubState.AVOID_FORWARD_IN then
          ((i.lineDataReady = true ∧ i.lineRawStates ≠ 0) ∨
            (i.leftDistance + i.rightDistance) / 2 ≥ (s.params.avoidSearchDist : ℚ))
        else s.avoidTarget i) ∨ s.avoidTimedOut i) := by
  obtain ⟨hsub, hcur⟩ := s.handleObstacleAvoidance_fields i
  obtain ⟨hother, hsix⟩ := s.avoidSwitch_effect i
  unfold Sequencer.leavesStep Sequencer.avoidTimedOut
  rw [hsub, hcur]
  have hnow : ¬ (ulongSub i.now i.now > AVOID_TIME_MS) := by
    rw [ulongSub_self]; exact Nat.not_lt_zero _
  by_cases h6 : s.avoidSubState = AvoidanceSubState.AVOID_FORWARD_IN
  · rw [if_pos h6]
    obtain ⟨hcs, hseen, hnot⟩ := hsix h6
    by_cases hl : i.lineDataReady = true ∧ i.lineRawStates ≠ 0
    · obtain ⟨ha, ht⟩ := hseen hl
      rw [ht, if_neg hnow, if_neg hnow, ha, h6]
      exact ⟨fun _ => Or.inl (Or.inl hl), fun _ => Or.inl (by decide)⟩
    · obtain ⟨ht, hge, hlt⟩ := hnot hl
      rw [ht]
      by_cases hto : ulongSub i.now s.avoidStateStartTime > AVOID_TIME_MS
      · rw [if_pos hto, if_pos hto, h6]
        exact ⟨fun _ => Or.inr hto, fun _ => Or.inl (by decide)⟩
      · rw [if_neg hto, if_neg hto]
        by_cases hd : (i.leftDistance + i.rightDistance) / 2 ≥ (s.params.avoidSearchDist : ℚ)
        · rw [hge hd, h6]
          exact ⟨fun _ => Or.inl (Or.inr hd), fun _ => Or.inl (by decide)⟩
        · rw [hlt hd, hcs, h6]
          constructor
          · rintro (h | h)
            · exact absurd rfl h
            · exact absurd rfl h
          · rintro ((h | h) | h)
            · exact absurd h hl
            · exact absurd h hd
            · exact absurd h hto
  · rw [if_neg h6]
    obtain ⟨hreach, hstay⟩ := hother h6 hstep
    by_cases htg : s.avoidTarget i
    · obtain ⟨hne, hmid, hlast⟩ := hreach htg
      refine ⟨fun _ => Or.inl htg, fun _ => Or.inl ?_⟩
      by_cases h7 : s.avoidSubState = AvoidanceSubState.AVOID_TURN_LEFT_ALIGN
      · rw [(hlast h7).1]
        split_ifs
        · exact fun h => hstep h.symm
        · exact fun h => hstep h.symm
      · rw [(hmid h7).1, if_neg hnow]
        exact hne
    · obtain ⟨ha, hc, ht⟩ := hstay htg
      rw [ht, ha, hc]
      by_cases hto : ulongSub i.now s.avoidStateStartTime > AVOID_TIME_MS
      · rw [if_pos hto, if_pos hto]
        exact ⟨fun _ => Or.inr hto, fun _ => Or.inl (fun h => hstep h.symm)⟩
      · rw [if_neg hto, if_neg hto]
        constructor
        · rintro (h | h)
          · exact absurd rfl h
          · exact absurd rfl h
        · rintro (h | h)
          · exact absurd h htg
          · exact absurd h hto

theorem Sequencer.searchingExample_facts :
    Sequencer.searchingExample.avoidSubState = AvoidanceSubState.AVOID_FORWARD_IN ∧
    ¬ Sequencer.searchingExample.avoidTarget LoopInputs.lineSeen ∧
    (Sequencer.searchingExample.handleObstacleAvoidance LoopInputs.lineSeen).avoidSubState =
      AvoidanceSubState.AVOID_TURN_LEFT_ALIGN := by
  refine ⟨rfl, ?_, ?_⟩
  · norm_num [Sequencer.avoidTarget, Sequencer.searchingExample, Sequencer.initial,
      LoopInputs.lineSeen, ParameterManager.defaults]
  · have h := (Sequencer.searchingExample.handleObstacleAvoidance_fields LoopInputs.lineSeen).1
    have h2 := ((Sequencer.searchingExample.avoidSwitch_effect LoopInputs.lineSeen).2 rfl).2.1
      (by decide)
    rw [h, h2.2, h2.1, if_neg]
    show ¬ (ulongSub 1100 1100 > AVOID_TIME_MS)
    decide

/-- C19 as stated fails: in step 6 with both wheel deltas at 50 mm (search
distance 800 mm) and the line seen, the tick leaves the step although the
odometry target has not been reached. -/
theorem Sequencer.avoid_step_exit_counterexample :
    ¬ (Sequencer.searchingExample.leavesStep
          (Sequencer.searchingExample.handleObstacleAvoidance LoopInputs.lineSeen) →
        Sequencer.searchingExample.avoidTarget LoopInputs.lineSeen) := by
  intro h
  obtain ⟨h6, hnt, hsub⟩ := Sequencer.searchingExample_facts
  apply hnt
  apply h
  left
  rw [hsub, h6]
  decide

theorem Sequencer.avoid_step_exit_witness :
    Sequencer.searchingExample.avoidSubState ≠ AvoidanceSubState.AVOID_NONE ∧
    Sequencer.searchingExample.leavesStep
      (Sequencer.searchingExample.handleObstacleAvoidance LoopInputs.lineSeen) :=
  ⟨by decide,
   (Sequencer.avoid_step_exit Sequencer.searchingExample LoopInputs.lineSeen (by decide)).2
     (Or.inl (by
       rw [if_pos (show Sequencer.searchingExample.avoidSubState =
         AvoidanceSubState.AVOID_FORWARD_IN from rfl)]
       exact Or.inl (by decide)))⟩

/-! ### Motion sequencer: obstacle trigger -/

theorem Sequencer.stabilityCheck_frame (s : Sequencer) (i : LoopInputs) :
    (s.stabilityCheck i).currentState = s.currentState ∧
    (s.stabilityCheck i).avoidSubState = s.avoidSubState ∧
    (s.stabilityCheck i).parkingSubState = s.parkingSubState ∧
    (s.stabilityCheck i).obstacleDetectCount = s.obstacleDetectCount ∧
    (s.stabilityCheck i).obstacleDetectionEnabled = s.obstacleDetectionEnabled ∧
    (s.stabilityCheck i).params = s.params := by
  unfold Sequencer.stabilityCheck
  split_ifs <;> exact ⟨rfl, rfl, rfl, rfl, rfl, rfl⟩

theorem Sequencer.followLine_frame (s : Sequencer) (i : LoopInputs) :
    (s.followLine i).currentState = s.currentState ∧
    (s.followLine i).avoidSubState = s.avoidSubState ∧
    (s.followLine i).parkingSubState = s.parkingSubState ∧
    (s.followLine i).obstacleDetectCount = s.obstacleDetectCount := by
  unfold Sequencer.followLine
  dsimp only
  split_ifs <;> exact ⟨rfl, rfl, rfl, rfl⟩

/-- When no obstacle branch is taken, `lineFollowControl` leaves the
top-level state, both sub-states and the obstacle counter as they are. -/
theorem Sequencer.lineFollowControl_no_trigger (s : Sequencer) (i : LoopInputs)
    (h : ¬ (s.obstacleDetectionEnabled = true ∧ s.obstacleDetectCount < 2 ∧
      i.ultraDist < (s.params.obstacleDetectDist : ℚ) ∧ i.ultraDist > 2) ∨
      i.lineDataReady = false) :
    (s.lineFollowControl i).currentState = s.currentState ∧
    (s.lineFollowControl i).avoidSubState = s.avoidSubState ∧
    (s.lineFollowControl i).parkingSubState = s.parkingSubState ∧
    (s.lineFollowControl i).obstacleDetectCount = s.obstacleDetectCount := by
  obtain ⟨h1, h2, h3, h4, h5, h6⟩ := s.stabilityCheck_frame i
  unfold Sequencer.lineFollowControl
  dsimp only
  by_cases hr : i.lineDataReady = false
  · rw [if_pos hr]
    exact ⟨h1, h2, h3, h4⟩
  · rw [if_neg hr]
    have h' := h.resolve_right hr
    obtain ⟨f1, f2, f3, f4⟩ := (s.stabilityCheck i).followLine_frame i
    by_cases ha : (s.stabilityCheck i).obstacleDetectionEnabled = true ∧
        (s.stabilityCheck i).obstacleDetectCount < 2
    · rw [if_pos ha]
      have hu : ¬ (i.ultraDist < ((s.stabilityCheck i).params.obstacleDetectDist : ℚ) ∧
          i.ultraDist > 2) := by
        rw [h6]
        intro hu
        rw [h5, h4] at ha
        exact h' ⟨ha.1, ha.2, hu.1, hu.2⟩
      rw [if_neg hu]
      exact ⟨f1.trans h1, f2.trans h2, f3.trans h3, f4.trans h4⟩
    · rw [if_neg ha]
      exact ⟨f1.trans h1, f2.trans h2, f3.trans h3, f4.trans h4⟩

/-- C20 (obstacle trigger sequencing): in `lineFollowControl` with line data
ready and obstacle detection armed, a reading `d` with
`2.0 < d < obstacleDetectDist` moves the sequencer to `STATE_OBSTACLE_AVOID` at
step `AVOID_TURN_LEFT` with zeroed baselines when no obstacle was counted
before, and to `STATE_PARKING` in phase `PARK_APPROACH` when one was; with
`obstacleDetectCount = 2` no reading changes the state, and a reading outside
`(2.0, obstacleDetectDist)` never does. -/
theorem Sequencer.obstacle_trigger (s : Sequencer) (i : LoopInputs)
    (hready : i.lineDataReady = true) (harmed : s.obstacleDetectionEnabled = true) :
    ((2 < i.ultraDist ∧ i.ultraDist < (s.params.obstacleDetectDist : ℚ)) →
      s.obstacleDetectCount = 0 →
      (s.lineFollowControl i).currentState = SystemState.STATE_OBSTACLE_AVOID ∧
      (s.lineFollowControl i).avoidSubState = AvoidanceSubState.AVOID_TURN_LEFT ∧
      (s.lineFollowControl i).avoidStartLeftDist = 0 ∧
      (s.lineFollowControl i).avoidStartRightDist = 0 ∧
      (s.lineFollowControl i).avoidStateStartDistance = 0 ∧
      (s.lineFollowControl i).avoidStateStartTime = i.now ∧
      (s.lineFollowControl i).obstacleDetectCount = 1) ∧
    ((2 < i.ultraDist ∧ i.ultraDist < (s.params.obstacleDetectDist : ℚ)) →
      s.obstacleDetectCount = 1 →
      (s.lineFollowControl i).currentState = SystemState.STATE_PARKING ∧
      (s.lineFollowControl i).parkingSubState = ParkingSubState.PARK_APPROACH ∧
      (s.lineFollowControl i).obstacleDetectCount = 2) ∧
    (s.obstacleDetectCount = 2 →
      (s.lineFollowControl i).currentState = s.currentState ∧
      (s.lineFollowControl i).avoidSubState = s.avoidSubState ∧
      (s.lineFollowControl i).parkingSubState = s.parkingSubState ∧
      (s.lineFollowControl i).obstacleDetectCount = 2) ∧
    (¬ (2 < i.ultraDist ∧ i.ultraDist < (s.params.obstacleDetectDist : ℚ)) →
      (s.lineFollowControl i).currentState = s.currentState ∧
      (s.lineFollowControl i).avoidSubState = s.avoidSubState ∧
      (s.lineFollowControl i).parkingSubState = s.parkingSubState ∧
      (s.lineFollowControl i).obstacleDetectCount = s.obstacleDetectCount) := by
  obtain ⟨h1, h2, h3, h4, h5, h6⟩ := s.stabilityCheck_frame i
  have hr : ¬ (i.lineDataReady = false) := by rw [hready]; decide
  refine ⟨fun hd hc => ?_, fun hd hc => ?_, fun hc => ?_, fun hd => ?_⟩
  · have ha : (s.stabilityCheck i).obstacleDetectionEnabled = true ∧
        (s.stabilityCheck i).obstacleDetectCount < 2 := by
      rw [h5, h4, hc]; exact ⟨harmed, by decide⟩
    have hu : i.ultraDist < ((s.stabilityCheck i).params.obstacleDetectDist : ℚ) ∧
        i.ultraDist > 2 := by
      rw [h6]; exact ⟨hd.2, hd.1⟩
    have hone : (s.stabilityCheck i).obstacleDetectCount + 1 = 1 := by rw [h4, hc]; rfl
    unfold Sequencer.lineFollowControl
    dsimp only
    rw [if_neg hr, if_pos ha, if_pos hu, if_pos hone]
    exact ⟨rfl, rfl, rfl, rfl, rfl, rfl, hone⟩
  · have ha : (s.stabilityCheck i).obstacleDetectionEnabled = true ∧
        (s.stabilityCheck i).obstacleDetectCount < 2 := by
      rw [h5, h4, hc]; exact ⟨harmed, by decide⟩
    have hu : i.ultraDist < ((s.stabilityCheck i).params.obstacleDetectDist : ℚ) ∧
        i.ultraDist > 2 := by
      rw [h6]; exact ⟨hd.2, hd.1⟩
    have hone : ¬ ((s.stabilityCheck i).obstacleDetectCount + 1 = 1) := by
      rw [h4, hc]; decide
    have htwo : (s.stabilityCheck i).obstacleDetectCount + 1 = 2 := by rw [h4, hc]; rfl
    unfold Sequencer.lineFollowControl
    dsimp only
    rw [if_neg hr, if_pos ha, if_pos hu, if_neg hone, if_pos htwo]
    exact ⟨rfl, rfl, htwo⟩
  · have h := s.lineFollowControl_no_trigger i (Or.inl (by
      rintro ⟨_, hlt, _⟩
      rw [hc] at hlt
      exact absurd hlt (by decide)))
    rw [hc] at h
    exact ⟨h.1, h.2.1, h.2.2.1, h.2.2.2⟩
  · exact s.lineFollowControl_no_trigger i (Or.inl (by
      rintro ⟨_, _, hlt, hgt⟩
      exact hd ⟨hgt, hlt⟩))

theorem Sequencer.obstacle_trigger_witness :
    LoopInputs.obstacleAhead.lineDataReady = true ∧
    Sequencer.armedExample.obstacleDetectionEnabled = true ∧
    (Sequencer.armedExample.lineFollowControl LoopInputs.obstacleAhead).currentState =
      SystemState.STATE_OBSTACLE_AVOID ∧
    (Sequencer.armedExample.lineFollowControl LoopInputs.obstacleAhead).avoidSubState =
      AvoidanceSubState.AVOID_TURN_LEFT := by
  have h := (Sequencer.obstacle_trigger Sequencer.armedExample LoopInputs.obstacleAhead
    rfl rfl).1
    (by norm_num [LoopInputs.obstacleAhead, Sequencer.armedExample, Sequencer.initial,
      ParameterManager.defaults]) rfl
  exact ⟨rfl, rfl, h.1, h.2.1⟩


/-! ### Arming of the obstacle detection (C21) -/

theorem Sequencer.followLine_enabled (s : Sequencer) (i : LoopInputs) :
    (s.followLine i).obstacleDetectionEnabled = s.obstacleDetectionEnabled := by
  unfold Sequencer.followLine
  dsimp only
  split_ifs <;> rfl

theorem Sequencer.lineFollowControl_enabled (s : Sequencer) (i : LoopInputs) :
    (s.lineFollowControl i).obstacleDetectionEnabled = s.obstacleDetectionEnabled := by
  have h5 := (s.stabilityCheck_frame i).2.2.2.2.1
  have hf := (s.stabilityCheck i).followLine_enabled i
  have hg : ∀ c : Int, (({ s.stabilityCheck i with obstacleDetectCount := c }).followLine
      i).obstacleDetectionEnabled = s.obstacleDetectionEnabled := by
    intro c
    rw [Sequencer.followLine_enabled]
    exact h5
  unfold Sequencer.lineFollowControl
  dsimp only
  split_ifs
  · exact h5
  · exact h5
  · exact h5
  · exact hg _
  · rw [hf]; exact h5
  · rw [hf]; exact h5

theorem Sequencer.avoidSwitch_enabled (s : Sequencer) (i : LoopInputs) :
    (s.avoidSwitch i).obstacleDetectionEnabled = s.obstacleDetectionEnabled := by
  unfold Sequencer.avoidSwitch Sequencer.avoidStepDone
  cases s.avoidSubState <;> dsimp only <;> split_ifs <;> rfl

theorem Sequencer.handleObstacleAvoidance_enabled (s : Sequencer) (i : LoopInputs) :
    (s.handleObstacleAvoidance i).obstacleDetectionEnabled = s.obstacleDetectionEnabled := by
  unfold Sequencer.handleObstacleAvoidance
  dsimp only
  split_ifs
  · exact s.avoidSwitch_enabled i
  · exact s.avoidSwitch_enabled i

theorem Sequencer.handleParking_enabled (s : Sequencer) (i : LoopInputs) :
    (s.handleParking i).obstacleDetectionEnabled = s.obstacleDetectionEnabled := by
  unfold Sequencer.handleParking
  cases s.parkingSubState <;> dsimp only <;> split_ifs <;> rfl

theorem Sequencer.testSwitch_enabled (s : Sequencer) (i : LoopInputs) :
    (s.testSwitch i).obstacleDetectionEnabled = s.obstacleDetectionEnabled := by
  unfold Sequencer.testSwitch
  cases s.currentTestState <;> dsimp only <;> split_ifs <;> rfl

theorem Sequencer.handleTestMode_enabled (s : Sequencer) (i : LoopInputs) :
    (s.handleTestMode i).obstacleDetectionEnabled = s.obstacleDetectionEnabled := by
  unfold Sequencer.handleTestMode
  dsimp only
  split_ifs
  · exact s.testSwitch_enabled i
  · exact s.testSwitch_enabled i

/-- The three guarded test blocks keep the arming flag and the parking-test
flag. -/
theorem Sequencer.applyTest_enabled (s : Sequencer) (now : Nat) :
    (((s.applyTestTurn now).applyTestStraight now).applyTestAvoid
        now).obstacleDetectionEnabled = s.obstacleDetectionEnabled ∧
    (((s.applyTestTurn now).applyTestStraight now).applyTestAvoid
        now).pendingTestParking = s.pendingTestParking := by
  have h1 : (s.applyTestTurn now).obstacleDetectionEnabled = s.obstacleDetectionEnabled ∧
      (s.applyTestTurn now).pendingTestParking = s.pendingTestParking := by
    unfold Sequencer.applyTestTurn
    dsimp only
    split_ifs <;> exact ⟨rfl, rfl⟩
  have h2 : ∀ u : Sequencer,
      (u.applyTestStraight now).obstacleDetectionEnabled = u.obstacleDetectionEnabled ∧
      (u.applyTestStraight now).pendingTestParking = u.pendingTestParking := by
    intro u
    unfold Sequencer.applyTestStraight
    dsimp only
    split_ifs <;> exact ⟨rfl, rfl⟩
  have h3 : ∀ u : Sequencer,
      (u.applyTestAvoid now).obstacleDetectionEnabled = u.obstacleDetectionEnabled ∧
      (u.applyTestAvoid now).pendingTestParking = u.pendingTestParking := by
    intro u
    unfold Sequencer.applyTestAvoid
    dsimp only
    split_ifs <;> exact ⟨rfl, rfl⟩
  exact ⟨by rw [(h3 _).1, (h2 _).1, h1.1], by rw [(h3 _).2, (h2 _).2, h1.2]⟩

/-- A test block whose flag is not pending does nothing. -/
theorem Sequencer.applyTest_idle (s : Sequencer) (now : Nat) :
    (s.pendingTestTurn = false → s.applyTestTurn now = s) ∧
    (s.pendingTestStraight = false → s.applyTestStraight now = s) ∧
    (s.pendingTestAvoid = false → s.applyTestAvoid now = s) ∧
    (s.pendingTestParking = false → s.applyTestParking now = s) := by
  refine ⟨fun h => ?_, fun h => ?_, fun h => ?_, fun h => ?_⟩
  · unfold Sequencer.applyTestTurn
    rw [if_neg (by rw [h]; decide)]
  · unfold Sequencer.applyTestStraight
    rw [if_neg (by rw [h]; decide)]
  · unfold Sequencer.applyTestAvoid
    rw [if_neg (by rw [h]; decide)]
  · unfold Sequencer.applyTestParking
    rw [if_neg (by rw [h]; decide)]

theorem Sequencer.applyManualCommand_enabled (s : Sequencer) (now : Nat) :
    (s.applyManualCommand now).obstacleDetectionEnabled = s.obstacleDetectionEnabled := by
  unfold Sequencer.applyManualCommand
  dsimp only
  split_ifs <;> first | rfl | (split <;> rfl)

theorem Sequencer.applyManualCommand_state (s : Sequencer) (now : Nat) :
    (s.applyManualCommand now).currentState = s.currentState := by
  unfold Sequencer.applyManualCommand
  dsimp only
  split_ifs <;> first | rfl | (split <;> rfl)

/-- A short press of the button never arms the obstacle detection. -/
theorem Sequencer.shortPress_enabled (s : Sequencer) (i : LoopInputs)
    (h : (s.shortPress i).obstacleDetectionEnabled = true) :
    s.obstacleDetectionEnabled = true := by
  unfold Sequencer.shortPress at h
  dsimp only at h
  split_ifs at h <;> exact h

/-- With detection armed and one obstacle counted, a reading inside the
trigger window moves `lineFollowControl` to `STATE_PARKING`. -/
theorem Sequencer.lineFollowControl_second_obstacle (s : Sequencer) (i : LoopInputs)
    (hready : i.lineDataReady = true) (harmed : s.obstacleDetectionEnabled = true)
    (hd : 2 < i.ultraDist ∧ i.ultraDist < (s.params.obstacleDetectDist : ℚ))
    (hc : s.obstacleDetectCount = 1) :
    (s.lineFollowControl i).currentState = SystemState.STATE_PARKING := by
  obtain ⟨h1, h2, h3, h4, h5, h6⟩ := s.stabilityCheck_frame i
  have hr : ¬ (i.lineDataReady = false) := by rw [hready]; decide
  have ha : (s.stabilityCheck i).obstacleDetectionEnabled = true ∧
      (s.stabilityCheck i).obstacleDetectCount < 2 := by
    rw [h5, h4, hc]; exact ⟨harmed, by decide⟩
  have hu : i.ultraDist < ((s.stabilityCheck i).params.obstacleDetectDist : ℚ) ∧
      i.ultraDist > 2 := by
    rw [h6]; exact ⟨hd.2, hd.1⟩
  have hone : ¬ ((s.stabilityCheck i).obstacleDetectCount + 1 = 1) := by
    rw [h4, hc]; decide
  have htwo : (s.stabilityCheck i).obstacleDetectCount + 1 = 2 := by rw [h4, hc]; rfl
  unfold Sequencer.lineFollowControl
  dsimp only
  rw [if_neg hr, if_pos ha, if_pos hu, if_neg hone, if_pos htwo]

/-- After the parking-test command the detection is armed with one obstacle
counted, so the next obstacle reading moves the sequencer to `STATE_PARKING`
although the measurement pipeline never ran. -/
theorem Sequencer.parkingTest_then_parking :
    (Sequencer.parkingTestPending.processPendingCommands 1000).objectDetector.state
      = DetectionState.DETECT_IDLE ∧
    ((Sequencer.parkingTestPending.processPendingCommands 1000).lineFollowControl
      LoopInputs.obstacleAhead).currentState = SystemState.STATE_PARKING := by
  refine ⟨rfl, ?_⟩
  exact Sequencer.lineFollowControl_second_obstacle
    (Sequencer.parkingTestPending.processPendingCommands 1000) LoopInputs.obstacleAhead
    rfl rfl
    (by norm_num [LoopInputs.obstacleAhead, Sequencer.parkingTestPending,
      Sequencer.processPendingCommands, Sequencer.applyTestTurn, Sequencer.applyTestStraight,
      Sequencer.applyTestAvoid, Sequencer.applyTestParking, Sequencer.applyManualCommand,
      Sequencer.initial, ParameterManager.defaults]) rfl

/-- C21 as stated fails: from the initial state with the parking-test
command pending, `processPendingCommands` changes `obstacleDetectionEnabled`
from false to true while the measurement pipeline is idle, not completed. -/
theorem Sequencer.arming_counterexample :
    ¬ (Sequencer.parkingTestPending.obstacleDetectionEnabled = false →
        (Sequencer.parkingTestPending.processPendingCommands 1000).obstacleDetectionEnabled
          = true →
        (Sequencer.parkingTestPending.processPendingCommands 1000).objectDetector.state
          = DetectionState.DETECT_COMPLETED) := by
  intro h
  have h2 := h rfl rfl
  have h3 : (Sequencer.parkingTestPending.processPendingCommands 1000).objectDetector.state
      = DetectionState.DETECT_IDLE := rfl
  rw [h3] at h2
  exact absurd h2 (by decide)

/-- The avoidance-test command enters the avoidance maneuver directly: after
a `TASK_STOP` task the sequencer is in `STATE_LINE_FOLLOW` with the system not
running, and a pending avoidance-test command moves it to
`STATE_OBSTACLE_AVOID` although the detection is not armed. -/
theorem Sequencer.avoidTest_from_lineFollow :
    Sequencer.stoppedWithAvoidTest.currentState = SystemState.STATE_LINE_FOLLOW ∧
    Sequencer.stoppedWithAvoidTest.systemRunning = false ∧
    Sequencer.stoppedWithAvoidTest.obstacleDetectionEnabled = false ∧
    (Sequencer.stoppedWithAvoidTest.processPendingCommands 2000).currentState =
      SystemState.STATE_OBSTACLE_AVOID ∧
    (Sequencer.stoppedWithAvoidTest.processPendingCommands 2000).obstacleDetectionEnabled =
      false :=
  ⟨rfl, rfl, rfl, rfl, rfl⟩

/-- The top-level state after `processPendingCommands`: unchanged, or
`STATE_TESTING`, or `STATE_LINE_FOLLOW`, or `STATE_OBSTACLE_AVOID` by the
avoidance-test command, which needs its flag pending and the system not
running. -/
theorem Sequencer.processPendingCommands_state (s : Sequencer) (now : Nat) :
    (s.processPendingCommands now).currentState = s.currentState ∨
    (s.processPendingCommands now).currentState = SystemState.STATE_TESTING ∨
    (s.processPendingCommands now).currentState = SystemState.STATE_LINE_FOLLOW ∨
    ((s.processPendingCommands now).currentState = SystemState.STATE_OBSTACLE_AVOID ∧
      s.pendingTestAvoid = true ∧ s.systemRunning = false) := by
  have hturn : ∀ u : Sequencer,
      ((u.applyTestTurn now).currentState = u.currentState ∨
        (u.applyTestTurn now).currentState = SystemState.STATE_TESTING) ∧
      (u.applyTestTurn now).pendingTestAvoid = u.pendingTestAvoid ∧
      ((u.applyTestTurn now).systemRunning = false → u.systemRunning = false) := by
    intro u
    unfold Sequencer.applyTestTurn
    dsimp only
    split_ifs with h1 h2
    · exact ⟨Or.inr rfl, rfl, fun h => absurd h (by decide)⟩
    · exact ⟨Or.inl rfl, rfl, fun h => h⟩
    · exact ⟨Or.inl rfl, rfl, fun h => h⟩
  have hstraight : ∀ u : Sequencer,
      ((u.applyTestStraight now).currentState = u.currentState ∨
        (u.applyTestStraight now).currentState = SystemState.STATE_TESTING) ∧
      (u.applyTestStraight now).pendingTestAvoid = u.pendingTestAvoid ∧
      ((u.applyTestStraight now).systemRunning = false → u.systemRunning = false) := by
    intro u
    unfold Sequencer.applyTestStraight
    dsimp only
    split_ifs with h1 h2
    · exact ⟨Or.inr rfl, rfl, fun h => absurd h (by decide)⟩
    · exact ⟨Or.inl rfl, rfl, fun h => h⟩
    · exact ⟨Or.inl rfl, rfl, fun h => h⟩
  have havoid : ∀ u : Sequencer,
      (u.applyTestAvoid now).currentState = u.currentState ∨
      ((u.applyTestAvoid now).currentState = SystemState.STATE_OBSTACLE_AVOID ∧
        u.pendingTestAvoid = true ∧ u.systemRunning = false) := by
    intro u
    unfold Sequencer.applyTestAvoid
    dsimp only
    split_ifs with h1 h2
    · exact Or.inr ⟨rfl, h1, h2⟩
    · exact Or.inl rfl
    · exact Or.inl rfl
  have hpark : ∀ u : Sequencer,
      (u.applyTestParking now).currentState = u.currentState ∨
      (u.applyTestParking now).currentState = SystemState.STATE_LINE_FOLLOW := by
    intro u
    unfold Sequencer.applyTestParking
    split_ifs
    · exact Or.inr rfl
    · exact Or.inl rfl
  obtain ⟨t1, t2, t3⟩ := hturn s
  obtain ⟨s1, s2, s3⟩ := hstraight (s.applyTestTurn now)
  have hm := Sequencer.applyManualCommand_state
    ((((s.applyTestTurn now).applyTestStraight now).applyTestAvoid now).applyTestParking
      now) now
  unfold Sequencer.processPendingCommands
  rw [hm]
  rcases hpark (((s.applyTestTurn now).applyTestStraight now).applyTestAvoid now) with hp | hp
  · rw [hp]
    rcases havoid ((s.applyTestTurn now).applyTestStraight now) with ha | ⟨ha, hb, hc⟩
    · rw [ha]
      rcases s1 with s1 | s1
      · rw [s1]
        rcases t1 with t1 | t1
        · exact Or.inl t1
        · exact Or.inr (Or.inl t1)
      · exact Or.inr (Or.inl s1)
    · exact Or.inr (Or.inr (Or.inr ⟨ha, by rw [← t2, ← s2]; exact hb, t3 (s3 hc)⟩))
  · exact Or.inr (Or.inr (Or.inl hp))

theorem Sequencer.updateSensors_state (s : Sequencer) (t : DetectorTick) :
    (s.updateSensors t).currentState = s.currentState := by
  unfold Sequencer.updateSensors
  dsimp only
  split_ifs <;> rfl

/-- The button part never arms the detection and leaves the top-level state
or sets it to `STATE_LINE_FOLLOW` or `STATE_IDLE`. -/
theorem Sequencer.buttonStep_facts (s : Sequencer) (b : ButtonEvent) (i : LoopInputs) :
    ((s.buttonStep b i).obstacleDetectionEnabled = true → s.obstacleDetectionEnabled = true) ∧
    ((s.buttonStep b i).currentState = s.currentState ∨
      (s.buttonStep b i).currentState = SystemState.STATE_LINE_FOLLOW ∨
      (s.buttonStep b i).currentState = SystemState.STATE_IDLE) := by
  cases b with
  | none => exact ⟨fun h => h, Or.inl rfl⟩
  | longPress => exact ⟨fun h => h, Or.inl rfl⟩
  | shortPress =>
    refine ⟨fun h => s.shortPress_enabled i h, ?_⟩
    have hb : s.buttonStep ButtonEvent.shortPress i = s.shortPress i := rfl
    rw [hb]
    unfold Sequencer.shortPress
    dsimp only
    split_ifs
    · exact Or.inr (Or.inl rfl)
    · exact Or.inr (Or.inr rfl)
    · exact Or.inr (Or.inr rfl)

/-- The task callbacks never change the arming flag and leave the top-level
state or set it to `STATE_LINE_FOLLOW`. -/
theorem Sequencer.taskUpdate_facts (s : Sequencer) (c : TaskCall) (i : LoopInputs) :
    (s.taskUpdate c i).obstacleDetectionEnabled = s.obstacleDetectionEnabled ∧
    ((s.taskUpdate c i).currentState = s.currentState ∨
      (s.taskUpdate c i).currentState = SystemState.STATE_LINE_FOLLOW) := by
  cases c with
  | none => exact ⟨rfl, Or.inl rfl⟩
  | execute type p =>
    have hb : s.taskUpdate (TaskCall.execute type p) i = (s.executeTask type p i).1 := rfl
    rw [hb]
    unfold Sequencer.executeTask
    cases type <;> first | exact ⟨rfl, Or.inl rfl⟩ | exact ⟨rfl, Or.inr rfl⟩
  | check type p startTime =>
    have hb : s.taskUpdate (TaskCall.check type p startTime) i =
        (s.checkTaskCompletion type p startTime i).1 := rfl
    rw [hb]
    unfold Sequencer.checkTaskCompletion
    cases type <;> dsimp only <;> (try split_ifs) <;> exact ⟨rfl, Or.inl rfl⟩

theorem Sequencer.handleObstacleAvoidance_state (s : Sequencer) (i : LoopInputs) :
    (s.handleObstacleAvoidance i).currentState = s.currentState ∨
    (s.handleObstacleAvoidance i).currentState = SystemState.STATE_LINE_FOLLOW := by
  have hsw : (s.avoidSwitch i).currentState = s.currentState ∨
      (s.avoidSwitch i).currentState = SystemState.STATE_LINE_FOLLOW := by
    unfold Sequencer.avoidSwitch Sequencer.avoidStepDone
    cases s.avoidSubState <;> dsimp only <;> (try split_ifs) <;>
      first
      | exact Or.inl rfl
      | exact Or.inr rfl
  rw [(s.handleObstacleAvoidance_fields i).2]
  split_ifs
  · exact Or.inr rfl
  · exact hsw

theorem Sequencer.handleParking_state (s : Sequencer) (i : LoopInputs) :
    (s.handleParking i).currentState = s.currentState ∨
    (s.handleParking i).currentState = SystemState.STATE_FINISHED := by
  by_cases h : (s.handleParking i).currentState = s.currentState
  · exact Or.inl h
  · exact Or.inr ((s.handleParking_step i).2 h).2

theorem Sequencer.handleTestMode_state (s : Sequencer) (i : LoopInputs) :
    (s.handleTestMode i).currentState = s.currentState ∨
    (s.handleTestMode i).currentState = SystemState.STATE_IDLE := by
  have hsw : (s.testSwitch i).currentState = s.currentState ∨
      (s.testSwitch i).currentState = SystemState.STATE_IDLE := by
    unfold Sequencer.testSwitch
    cases s.currentTestState <;> dsimp only <;> (try split_ifs) <;>
      first
      | exact Or.inl rfl
      | exact Or.inr rfl
  unfold Sequencer.handleTestMode
  dsimp only
  split_ifs
  · exact Or.inr rfl
  · exact hsw

/-- The state handler of a pass never changes the arming flag; it changes the
top-level state to `STATE_LINE_FOLLOW`, `STATE_FINISHED` or `STATE_IDLE` only,
unless it is `lineFollowControl` running with the detection armed. -/
theorem Sequencer.dispatch_facts (s : Sequencer) (i : LoopInputs) :
    (s.dispatch i).obstacleDetectionEnabled = s.obstacleDetectionEnabled ∧
    ((s.dispatch i).currentState = s.currentState ∨
      (s.dispatch i).currentState = SystemState.STATE_LINE_FOLLOW ∨
      (s.dispatch i).currentState = SystemState.STATE_FINISHED ∨
      (s.dispatch i).currentState = SystemState.STATE_IDLE ∨
      (s.currentState = SystemState.STATE_LINE_FOLLOW ∧ s.obstacleDetectionEnabled = true)) := by
  unfold Sequencer.dispatch
  cases hs : s.currentState with
  | STATE_IDLE => exact ⟨rfl, Or.inl rfl⟩
  | STATE_FINISHED => exact ⟨rfl, Or.inl rfl⟩
  | STATE_LINE_FOLLOW =>
    dsimp only
    split_ifs with hr
    · refine ⟨s.lineFollowControl_enabled i, ?_⟩
      cases he : s.obstacleDetectionEnabled with
      | true => exact Or.inr (Or.inr (Or.inr (Or.inr ⟨rfl, rfl⟩)))
      | false =>
        have h := (s.lineFollowControl_no_trigger i (Or.inl (by
          rintro ⟨h1, _⟩
          rw [he] at h1
          exact absurd h1 (by decide)))).1
        rw [hs] at h
        exact Or.inl h
    · exact ⟨rfl, Or.inl rfl⟩
  | STATE_OBSTACLE_AVOID =>
    dsimp only
    refine ⟨s.handleObstacleAvoidance_enabled i, ?_⟩
    rcases s.handleObstacleAvoidance_state i with h | h
    · rw [hs] at h; exact Or.inl h
    · exact Or.inr (Or.inl h)
  | STATE_PARKING =>
    dsimp only
    refine ⟨s.handleParking_enabled i, ?_⟩
    rcases s.handleParking_state i with h | h
    · rw [hs] at h; exact Or.inl h
    · exact Or.inr (Or.inr (Or.inl h))
  | STATE_TESTING =>
    dsimp only
    refine ⟨s.handleTestMode_enabled i, ?_⟩
    rcases s.handleTestMode_state i with h | h
    · rw [hs] at h; exact Or.inl h
    · exact Or.inr (Or.inr (Or.inr (Or.inl h)))

/-- The part of a pass after the sensor pass: it never arms the detection,
and if the detection is not armed when it ends, it has entered neither
`STATE_PARKING` nor `STATE_OBSTACLE_AVOID`. -/
theorem Sequencer.pass_tail (s : Sequencer) (p : PassInputs) :
    let t :=
      if (s.buttonStep p.button p.inputs).manualControlActive = true then
        if p.now ≥ (s.buttonStep p.button p.inputs).manualControlEndTime then
          { s.buttonStep p.button p.inputs with
            motor := (s.buttonStep p.button p.inputs).motor.stop
            manualControlActive := false }
        else s.buttonStep p.button p.inputs
      else ((s.buttonStep p.button p.inputs).taskUpdate p.task p.inputs).dispatch p.inputs
    (t.obstacleDetectionEnabled = true → s.obstacleDetectionEnabled = true) ∧
    (t.obstacleDetectionEnabled = false →
      (t.currentState = SystemState.STATE_PARKING →
        s.currentState = SystemState.STATE_PARKING) ∧
      (t.currentState = SystemState.STATE_OBSTACLE_AVOID →
        s.currentState = SystemState.STATE_OBSTACLE_AVOID)) := by
  intro t
  obtain ⟨b1, b2⟩ := s.buttonStep_facts p.button p.inputs
  obtain ⟨k1, k2⟩ := (s.buttonStep p.button p.inputs).taskUpdate_facts p.task p.inputs
  obtain ⟨d1, d2⟩ :=
    ((s.buttonStep p.button p.inputs).taskUpdate p.task p.inputs).dispatch_facts p.inputs
  have hback : ∀ X : SystemState, X ≠ SystemState.STATE_LINE_FOLLOW →
      X ≠ SystemState.STATE_IDLE → (s.buttonStep p.button p.inputs).currentState = X →
      s.currentState = X := by
    intro X h1 h2 hX
    rcases b2 with h | h | h
    · rw [← h]; exact hX
    · rw [h] at hX; exact absurd hX.symm h1
    · rw [h] at hX; exact absurd hX.symm h2
  by_cases hm : (s.buttonStep p.button p.inputs).manualControlActive = true
  · have ht : t.obstacleDetectionEnabled =
          (s.buttonStep p.button p.inputs).obstacleDetectionEnabled ∧
        t.currentState = (s.buttonStep p.button p.inputs).currentState := by
      show (if _ then _ else _ : Sequencer).obstacleDetectionEnabled = _ ∧
        (if _ then _ else _ : Sequencer).currentState = _
      rw [if_pos hm]
      split_ifs <;> exact ⟨rfl, rfl⟩
    rw [ht.1, ht.2]
    exact ⟨b1, fun _ => ⟨hback _ (by decide) (by decide), hback _ (by decide) (by decide)⟩⟩
  · have ht : t =
        ((s.buttonStep p.button p.inputs).taskUpdate p.task p.inputs).dispatch p.inputs := by
      show (if _ then _ else _ : Sequencer) = _
      rw [if_neg hm]
    rw [ht, d1, k1]
    refine ⟨b1, fun hf => ?_⟩
    have hstep : ∀ X : SystemState, X ≠ SystemState.STATE_LINE_FOLLOW →
        X ≠ SystemState.STATE_IDLE → X ≠ SystemState.STATE_FINISHED →
        (((s.buttonStep p.button p.inputs).taskUpdate p.task p.inputs).dispatch
          p.inputs).currentState = X → s.currentState = X := by
      intro X h1 h2 h3 hX
      apply hback X h1 h2
      have hk : ((s.buttonStep p.button p.inputs).taskUpdate p.task p.inputs).currentState
          = X := by
        rcases d2 with h | h | h | h | ⟨_, h⟩
        · rw [← h]; exact hX
        · rw [h] at hX; exact absurd hX.symm h1
        · rw [h] at hX; exact absurd hX.symm h3
        · rw [h] at hX; exact absurd hX.symm h2
        · rw [k1, hf] at h; exact absurd h (by decide)
      rcases k2 with h | h
      · rw [← h]; exact hk
      · rw [h] at hk; exact absurd hk.symm h1
    exact ⟨hstep _ (by decide) (by decide) (by decide),
      hstep _ (by decide) (by decide) (by decide)⟩

theorem Sequencer.loop_eq (s : Sequencer) (p : PassInputs) :
    s.loop p =
      if (((s.processPendingCommands p.now).updateSensors p.tick).buttonStep p.button
          p.inputs).manualControlActive = true then
        if p.now ≥ (((s.processPendingCommands p.now).updateSensors p.tick).buttonStep
            p.button p.inputs).manualControlEndTime then
          { ((s.processPendingCommands p.now).updateSensors p.tick).buttonStep p.button
              p.inputs with
            motor := (((s.processPendingCommands p.now).updateSensors p.tick).buttonStep
              p.button p.inputs).motor.stop
            manualControlActive := false }
        else ((s.processPendingCommands p.now).updateSensors p.tick).buttonStep p.button
          p.inputs
      else ((((s.processPendingCommands p.now).updateSensors p.tick).buttonStep p.button
        p.inputs).taskUpdate p.task p.inputs).dispatch p.inputs := rfl

/-- One pass of `loop`: it arms the detection only in one of the two ways of
`armedBy`, and a pass that ends with the detection not armed enters
`STATE_PARKING` never and `STATE_OBSTACLE_AVOID` only by the avoidance-test
command. -/
theorem Sequencer.loop_facts (s : Sequencer) (p : PassInputs) :
    (s.obstacleDetectionEnabled = false → (s.loop p).obstacleDetectionEnabled = true →
      s.armedBy (LoopEvent.pass p)) ∧
    ((s.loop p).obstacleDetectionEnabled = false →
      ((s.loop p).currentState = SystemState.STATE_PARKING →
        s.currentState = SystemState.STATE_PARKING) ∧
      ((s.loop p).currentState = SystemState.STATE_OBSTACLE_AVOID →
        s.currentState = SystemState.STATE_OBSTACLE_AVOID ∨
        (s.pendingTestAvoid = true ∧ s.systemRunning = false))) := by
  obtain ⟨t1, t2⟩ := Sequencer.pass_tail ((s.processPendingCommands p.now).updateSensors p.tick) p
  rw [← Sequencer.loop_eq] at t1 t2
  have hus := (s.processPendingCommands p.now).updateSensors_state p.tick
  constructor
  · intro h0 h1
    have h2 := t1 h1
    show s.pendingTestParking = true ∨ _
    by_cases hc : (s.processPendingCommands p.now).obstacleDetectionEnabled = true
    · left
      by_contra hp
      have hp2 : s.pendingTestParking = false := by
        cases h : s.pendingTestParking
        · rfl
        · exact absurd h hp
      obtain ⟨e1, e2⟩ := s.applyTest_enabled p.now
      have e3 := ((((s.applyTestTurn p.now).applyTestStraight p.now).applyTestAvoid
        p.now).applyTest_idle p.now).2.2.2 (by rw [e2, hp2])
      unfold Sequencer.processPendingCommands at hc
      rw [Sequencer.applyManualCommand_enabled, e3, e1, h0] at hc
      exact absurd hc (by decide)
    · right
      have hc2 : (s.processPendingCommands p.now).obstacleDetectionEnabled = false := by
        cases h : (s.processPendingCommands p.now).obstacleDetectionEnabled
        · rfl
        · exact absurd h hc
      unfold Sequencer.updateSensors at h2 ⊢
      dsimp only at h2 ⊢
      by_cases hd : (s.processPendingCommands p.now).objectDetector.isDetecting = true
      · rw [if_pos hd] at h2 ⊢
        by_cases hk : ((s.processPendingCommands p.now).objectDetector.update
            p.tick).isCompleted = true ∧
            (s.processPendingCommands p.now).obstacleDetectionEnabled = false
        · rw [if_pos hk]
          have hk1 := hk.1
          unfold ObjectDetector.isCompleted at hk1
          exact of_decide_eq_true hk1
        · rw [if_neg hk] at h2
          rw [hc2] at h2
          exact absurd h2 (by decide)
      · rw [if_neg hd] at h2
        rw [hc2] at h2
        exact absurd h2 (by decide)
  · intro hf
    obtain ⟨q1, q2⟩ := t2 hf
    rw [hus] at q1 q2
    constructor
    · intro hX
      have h := q1 hX
      rcases s.processPendingCommands_state p.now with c | c | c | ⟨c, _, _⟩
      · rw [← c]; exact h
      · rw [c] at h; exact absurd h (by decide)
      · rw [c] at h; exact absurd h (by decide)
      · rw [c] at h; exact absurd h (by decide)
    · intro hX
      have h := q2 hX
      rcases s.processPendingCommands_state p.now with c | c | c | ⟨_, c2, c3⟩
      · rw [← c]; exact Or.inl h
      · rw [c] at h; exact absurd h (by decide)
      · rw [c] at h; exact absurd h (by decide)
      · exact Or.inr ⟨c2, c3⟩

/-- A web request changes neither the arming flag nor the top-level state. -/
theorem Sequencer.request_facts (s : Sequencer) (r : WebRequest) :
    (s.request r).obstacleDetectionEnabled = s.obstacleDetectionEnabled ∧
    (s.request r).currentState = s.currentState := by
  cases r <;> exact ⟨rfl, rfl⟩

theorem Sequencer.runLoop_append (s : Sequencer) (pre : List LoopEvent) (e : LoopEvent) :
    s.runLoop (pre ++ [e]) = (s.runLoop pre).step e := by
  unfold Sequencer.runLoop
  rw [List.foldl_append]
  rfl

/-- While no event of a run arms the detection, it stays unarmed. -/
theorem Sequencer.runLoop_unarmed (events : List LoopEvent) :
    ∀ s : Sequencer, s.obstacleDetectionEnabled = false →
      (∀ (a : List LoopEvent) (b : LoopEvent) (c : List LoopEvent),
        events = a ++ b :: c → ¬ (s.runLoop a).armedBy b) →
      (s.runLoop events).obstacleDetectionEnabled = false := by
  induction events with
  | nil => intro s h0 _; exact h0
  | cons e es ih =>
    intro s h0 hno
    have hfirst : ¬ s.armedBy e := hno [] e es rfl
    have h1 : (s.step e).obstacleDetectionEnabled = false := by
      cases e with
      | request r => exact (s.request_facts r).1.trans h0
      | pass p =>
        cases h : (s.step (LoopEvent.pass p)).obstacleDetectionEnabled
        · rfl
        · exact absurd ((s.loop_facts p).1 h0 h) hfirst
    show ((s.step e).runLoop es).obstacleDetectionEnabled = false
    apply ih (s.step e) h1
    intro a b c habc
    have := hno (e :: a) b c (by rw [habc]; rfl)
    exact this

/-- C21 (amended): `obstacleDetectionEnabled` changes from false to true only
in `updateSensors` on a tick after whose update the measurement pipeline is
in state `DETECT_COMPLETED`, or in `processPendingCommands` when the
parking-test command is pending; the button press, the task callbacks and the
state handlers never set it. Consequently, in every run of web requests and
`loop` passes that starts unarmed, as long as no pass has begun with the
parking-test command pending and no measurement tick has left the pipeline
completed, the detection stays unarmed and no event enters `STATE_PARKING`, and
none enters `STATE_OBSTACLE_AVOID` except a pass that begins with the
avoidance-test command pending and the system not running. -/
theorem Sequencer.arming_sources (s : Sequencer) :
    (∀ t : DetectorTick, s.obstacleDetectionEnabled = false →
      (s.updateSensors t).obstacleDetectionEnabled = true →
      (s.updateSensors t).objectDetector.state = DetectionState.DETECT_COMPLETED) ∧
    (∀ now : Nat, s.obstacleDetectionEnabled = false →
      (s.processPendingCommands now).obstacleDetectionEnabled = true →
      s.pendingTestParking = true) ∧
    (∀ (b : ButtonEvent) (c : TaskCall) (i : LoopInputs),
      ((s.buttonStep b i).obstacleDetectionEnabled = true →
        s.obstacleDetectionEnabled = true) ∧
      (s.taskUpdate c i).obstacleDetectionEnabled = s.obstacleDetectionEnabled ∧
      (s.dispatch i).obstacleDetectionEnabled = s.obstacleDetectionEnabled) ∧
    (∀ p : PassInputs, s.obstacleDetectionEnabled = false →
      (s.loop p).obstacleDetectionEnabled = true → s.armedBy (LoopEvent.pass p)) ∧
    (∀ (pre : List LoopEvent) (e : LoopEvent), s.obstacleDetectionEnabled = false →
      (∀ (a : List LoopEvent) (b : LoopEvent) (c : List LoopEvent),
        pre ++ [e] = a ++ b :: c → ¬ (s.runLoop a).armedBy b) →
      ((s.runLoop pre).step e).obstacleDetectionEnabled = false ∧
      (((s.runLoop pre).step e).currentState = SystemState.STATE_PARKING →
        (s.runLoop pre).currentState = SystemState.STATE_PARKING) ∧
      (((s.runLoop pre).step e).currentState = SystemState.STATE_OBSTACLE_AVOID →
        (s.runLoop pre).currentState = SystemState.STATE_OBSTACLE_AVOID ∨
        ((s.runLoop pre).pendingTestAvoid = true ∧
          (s.runLoop pre).systemRunning = false))) := by
  refine ⟨fun t h0 h1 => ?_, fun now h0 h1 => ?_, fun b c i => ?_, fun p h0 h1 => ?_,
    fun pre e h0 hno => ?_⟩
  · unfold Sequencer.updateSensors at h1 ⊢
    dsimp only at h1 ⊢
    by_cases hd : s.objectDetector.isDetecting = true
    · rw [if_pos hd] at h1 ⊢
      by_cases hc : (s.objectDetector.update t).isCompleted = true ∧
          s.obstacleDetectionEnabled = false
      · rw [if_pos hc]
        have hc1 := hc.1
        unfold ObjectDetector.isCompleted at hc1
        exact of_decide_eq_true hc1
      · rw [if_neg hc] at h1
        rw [h0] at h1
        exact absurd h1 (by decide)
    · rw [if_neg hd] at h1
      rw [h0] at h1
      exact absurd h1 (by decide)
  · by_contra hp
    have hp' : s.pendingTestParking = false := by
      cases h : s.pendingTestParking
      · rfl
      · exact absurd h hp
    obtain ⟨e1, e2⟩ := s.applyTest_enabled now
    have e3 := ((((s.applyTestTurn now).applyTestStraight now).applyTestAvoid
      now).applyTest_idle now).2.2.2 (by rw [e2, hp'])
    unfold Sequencer.processPendingCommands at h1
    rw [Sequencer.applyManualCommand_enabled, e3, e1, h0] at h1
    exact absurd h1 (by decide)
  · exact ⟨(s.buttonStep_facts b i).1, (s.taskUpdate_facts c i).1, (s.dispatch_facts i).1⟩
  · exact (s.loop_facts p).1 h0 h1
  · have hend := Sequencer.runLoop_unarmed (pre ++ [e]) s h0 hno
    rw [Sequencer.runLoop_append] at hend
    refine ⟨hend, ?_⟩
    cases e with
    | request r =>
      have h := ((s.runLoop pre).request_facts r).2
      exact ⟨fun hX => by rw [← h]; exact hX, fun hX => Or.inl (by rw [← h]; exact hX)⟩
    | pass p => exact ((s.runLoop pre).loop_facts p).2 hend

theorem Sequencer.arming_sources_witness :
    (Sequencer.measuringExample.obstacleDetectionEnabled = false ∧
      (Sequencer.measuringExample.updateSensors
        (DetectorTick.farAt 500)).obstacleDetectionEnabled = true ∧
      (Sequencer.measuringExample.updateSensors (DetectorTick.farAt 500)).objectDetector.state
        = DetectionState.DETECT_COMPLETED) ∧
    (Sequencer.stoppedWithAvoidTest.obstacleDetectionEnabled = false ∧
      ¬ Sequencer.stoppedWithAvoidTest.armedBy (LoopEvent.pass PassInputs.quiet) ∧
      (Sequencer.stoppedWithAvoidTest.loop PassInputs.quiet).currentState =
        SystemState.STATE_OBSTACLE_AVOID ∧
      (Sequencer.stoppedWithAvoidTest.loop PassInputs.quiet).obstacleDetectionEnabled = false ∧
      (Sequencer.stoppedWithAvoidTest.currentState = SystemState.STATE_OBSTACLE_AVOID ∨
        (Sequencer.stoppedWithAvoidTest.pendingTestAvoid = true ∧
          Sequencer.stoppedWithAvoidTest.systemRunning = false))) := by
  have hstate : (ObjectDetector.exitExample.update (DetectorTick.farAt 500)).state =
      DetectionState.DETECT_COMPLETED := by
    rw [ObjectDetector.update_confirmsExit _ _ (ObjectDetector.exitExample_confirmsExit 500)]
  have harm : (Sequencer.measuringExample.updateSensors
      (DetectorTick.farAt 500)).obstacleDetectionEnabled = true := by
    unfold Sequencer.updateSensors
    dsimp only
    rw [if_pos (by rfl), if_pos]
    refine ⟨?_, rfl⟩
    unfold ObjectDetector.isCompleted
    exact decide_eq_true hstate
  have hquiet : ¬ Sequencer.stoppedWithAvoidTest.armedBy (LoopEvent.pass PassInputs.quiet) := by
    show ¬ (Sequencer.stoppedWithAvoidTest.pendingTestParking = true ∨
      ((Sequencer.stoppedWithAvoidTest.processPendingCommands
        PassInputs.quiet.now).updateSensors PassInputs.quiet.tick).objectDetector.state =
        DetectionState.DETECT_COMPLETED)
    decide
  have hno : ∀ (a : List LoopEvent) (b : LoopEvent) (c : List LoopEvent),
      [] ++ [LoopEvent.pass PassInputs.quiet] = a ++ b :: c →
      ¬ (Sequencer.stoppedWithAvoidTest.runLoop a).armedBy b := by
    intro a b c h
    cases a with
    | nil =>
      simp only [List.nil_append, List.cons.injEq] at h
      rw [← h.1]
      exact hquiet
    | cons x xs => simp at h
  have hstep : (Sequencer.stoppedWithAvoidTest.loop PassInputs.quiet).currentState =
      SystemState.STATE_OBSTACLE_AVOID := by decide!
  have hrun := (Sequencer.arming_sources Sequencer.stoppedWithAvoidTest).2.2.2.2 []
    (LoopEvent.pass PassInputs.quiet) rfl hno
  exact ⟨⟨rfl, harm, (Sequencer.arming_sources Sequencer.measuringExample).1
    (DetectorTick.farAt 500) rfl harm⟩, rfl, hquiet, hstep, hrun.1, hrun.2.2 hstep⟩

/-! ### Base speed of the line follower (C22) -/

theorem truncInt_of_nonneg (q : ℚ) (h : 0 ≤ q) : truncInt q = ⌊q⌋ := by
  unfold truncInt
  rw [if_pos h]
  rfl

theorem truncInt_of_nonpos (q : ℚ) (h : q ≤ 0) : truncInt q = -⌊-q⌋ := by
  unfold truncInt
  by_cases h0 : 0 ≤ q
  · have hq : q = 0 := le_antisymm h h0
    subst hq
    simp [Rat.floor]
  · rw [if_neg h0]
    rfl

theorem truncInt_intCast (n : Int) : truncInt (n : ℚ) = n := by
  rcases le_total 0 n with h | h
  · rw [truncInt_of_nonneg _ (by exact_mod_cast h)]
    exact Int.floor_intCast n
  · rw [truncInt_of_nonpos _ (by exact_mod_cast h)]
    have : (-(n : ℚ)) = ((-n : Int) : ℚ) := by push_cast; rfl
    rw [this, Int.floor_intCast]
    omega

/-- Truncation toward zero is monotone. -/
theorem truncInt_mono {q r : ℚ} (h : q ≤ r) : truncInt q ≤ truncInt r := by
  rcases le_total 0 q with hq | hq
  · rw [truncInt_of_nonneg q hq, truncInt_of_nonneg r (le_trans hq h)]
    exact Int.floor_mono h
  · rcases le_total 0 r with hr | hr
    · rw [truncInt_of_nonpos q hq, truncInt_of_nonneg r hr]
      have h1 : 0 ≤ ⌊-q⌋ := Int.floor_nonneg.mpr (by linarith)
      have h2 : 0 ≤ ⌊r⌋ := Int.floor_nonneg.mpr hr
      omega
    · rw [truncInt_of_nonpos q hq, truncInt_of_nonpos r hr]
      have h1 : ⌊-r⌋ ≤ ⌊-q⌋ := Int.floor_mono (by linarith)
      omega

theorem truncInt_zero : truncInt 0 = 0 := by
  have h := truncInt_intCast 0
  simpa using h

/-- The error ratio of the curve lies in `[0, 1]` and is the smaller of the
rounded quotient and 1. -/
theorem errorRatio_facts (e : Int) :
    0 ≤ constrain (toFloat32 ((|e| : ℚ) / 1000)) 0 1 ∧
    constrain (toFloat32 ((|e| : ℚ) / 1000)) 0 1 ≤ 1 ∧
    constrain (toFloat32 ((|e| : ℚ) / 1000)) 0 1 = min (toFloat32 ((|e| : ℚ) / 1000)) 1 := by
  obtain ⟨h0, h1⟩ := constrain_mem (toFloat32 ((|e| : ℚ) / 1000)) 0 1 (by norm_num)
  refine ⟨h0, h1, ?_⟩
  have hq : (0 : ℚ) ≤ (|e| : ℚ) / 1000 := by positivity
  have hf : 0 ≤ toFloat32 ((|e| : ℚ) / 1000) := by
    have := toFloat32_mono (le_refl (0 : ℚ)) hq
    rwa [toFloat32_zero] at this
  rw [constrain_eq_max_min _ _ _ (by norm_num)]
  exact max_eq_right (le_min hf (by norm_num))

/-- The rounded factor `1.0f - errorRatio * errorRatio` lies in `[0, 1]`. -/
theorem curveFactor_mem (r : ℚ) (h0 : 0 ≤ r) (h1 : r ≤ 1) :
    0 ≤ toFloat32 (1 - toFloat32 (r * r)) ∧ toFloat32 (1 - toFloat32 (r * r)) ≤ 1 := by
  have hsq0 : 0 ≤ r * r := mul_nonneg h0 h0
  have hsq1 : r * r ≤ 1 := by nlinarith
  have a0 : 0 ≤ toFloat32 (r * r) := by
    have := toFloat32_mono (le_refl (0 : ℚ)) hsq0
    rwa [toFloat32_zero] at this
  have a1 : toFloat32 (r * r) ≤ 1 := by
    have := toFloat32_mono hsq0 hsq1
    rwa [toFloat32_one] at this
  constructor
  · have := toFloat32_mono (le_refl (0 : ℚ)) (by linarith : (0 : ℚ) ≤ 1 - toFloat32 (r * r))
    rwa [toFloat32_zero] at this
  · have := toFloat32_mono (by linarith : (0 : ℚ) ≤ 1 - toFloat32 (r * r))
      (by linarith : 1 - toFloat32 (r * r) ≤ 1)
    rwa [toFloat32_one] at this

/-- The curve value lies between the two speeds when they are ordered and
their difference is a `float`. -/
theorem quadraticSpeed_between (a b e : Int) (hab : a ≤ b) (hd : b - a ≤ 2 ^ 24) :
    a ≤ quadraticSpeed a b e ∧ quadraticSpeed a b e ≤ b := by
  unfold quadraticSpeed
  dsimp only
  obtain ⟨hr0, hr1, _⟩ := errorRatio_facts e
  obtain ⟨hy0, hy1⟩ := curveFactor_mem _ hr0 hr1
  have hD : toFloat32 ((b - a : Int) : ℚ) = ((b - a : Int) : ℚ) :=
    toFloat32_intCast _ (by rw [abs_of_nonneg (by omega)]; exact hd)
  rw [hD]
  have hk : (0 : ℚ) ≤ ((b - a : Int) : ℚ) := by exact_mod_cast (by omega : (0 : Int) ≤ b - a)
  have hlo := toFloat32_mono (le_refl (0 : ℚ)) (mul_nonneg hk hy0)
  have hhi := toFloat32_mono (mul_nonneg hk hy0)
    (by nlinarith : ((b - a : Int) : ℚ) *
      toFloat32 (1 - toFloat32 (constrain (toFloat32 ((|e| : ℚ) / 1000)) 0 1 *
        constrain (toFloat32 ((|e| : ℚ) / 1000)) 0 1)) ≤ ((b - a : Int) : ℚ))
  rw [toFloat32_zero] at hlo
  rw [hD] at hhi
  have h1 := truncInt_mono hlo
  have h2 := truncInt_mono hhi
  rw [truncInt_zero] at h1
  rw [truncInt_intCast] at h2
  constructor <;> omega

theorem quadraticSpeed_zero (a b : Int) (hd : |b - a| ≤ 2 ^ 24) : quadraticSpeed a b 0 = b := by
  unfold quadraticSpeed
  dsimp only
  have hD : toFloat32 ((b - a : Int) : ℚ) = ((b - a : Int) : ℚ) := toFloat32_intCast _ hd
  have hc : constrain (toFloat32 ((|(0 : Int)| : ℚ) / 1000)) 0 1 = 0 := by
    norm_num [constrain, toFloat32_zero]
  rw [hc]
  have h1 : toFloat32 (1 - toFloat32 ((0 : ℚ) * 0)) = 1 := by
    rw [mul_zero, toFloat32_zero, sub_zero, toFloat32_one]
  rw [h1, hD, mul_one, hD, truncInt_intCast]
  omega

/-- The ratio of the curve is `min(float(|e| / 1000), 1)`. -/
theorem quadraticSpeed_eq_min (a b e : Int) :
    quadraticSpeed a b e =
      a + truncInt (toFloat32 (toFloat32 ((b - a : Int) : ℚ) *
        toFloat32 (1 - toFloat32 (min (toFloat32 ((|e| : ℚ) / 1000)) 1 *
          min (toFloat32 ((|e| : ℚ) / 1000)) 1)))) := by
  unfold quadraticSpeed
  dsimp only
  rw [(errorRatio_facts e).2.2]

theorem Sequencer.baseSpeed_eq (s : Sequencer) (e : Int) :
    s.baseSpeed e =
      if |e| > 800 then s.params.speedSlow else quadraticSpeed s.minSpeed s.maxSpeed e := by
  rfl

/-- On the PID path both wheel commands are the base speed minus and plus
one PID output, truncated and limited to `[-255, 255]`. -/
theorem Sequencer.followLine_uses_baseSpeed (s : Sequencer) (i : LoopInputs)
    (h : i.lineLost = false) :
    ∃ pidOutput : ℚ,
      (s.followLine i).motor.leftCommand =
        constrainInt (truncInt ((s.baseSpeed i.linePosition : ℚ) - pidOutput)) (-255) 255 ∧
      (s.followLine i).motor.rightCommand =
        constrainInt (truncInt ((s.baseSpeed i.linePosition : ℚ) + pidOutput)) (-255) 255 := by
  have hl : ¬ (i.lineLost = true) := by rw [h]; decide
  unfold Sequencer.followLine
  dsimp only
  rw [if_neg hl]
  by_cases hw : s.wasLost = true
  · simp only [if_pos hw]
    exact ⟨_, rfl, rfl⟩
  · simp only [if_neg hw]
    exact ⟨_, rfl, rfl⟩

/-- The `float` evaluation can fall one below the exact formula: with turn
speed 120 and fast speed 220 at line position 800 the product is rounded to
35.999996 and the base speed is 155, while the exact formula gives 156. -/
theorem Sequencer.baseSpeed_float_example :
    Sequencer.fastExample.minSpeed = 120 ∧ Sequencer.fastExample.maxSpeed = 220 ∧
    Sequencer.fastExample.baseSpeed 800 = 155 ∧ quadraticSpeedExact 120 220 800 = 156 := by
  refine ⟨by decide, by decide, by decide!, by decide!⟩

/-- C22 as stated fails: at line position 1000 with the default parameters
the base speed is `speedSlow = 80`, not the value 120 of the formula (which is
`minSpeed` there). -/
theorem Sequencer.base_speed_counterexample :
    ¬ (|(1000 : Int)| ≤ 1000 →
        Sequencer.initial.baseSpeed 1000 =
          quadraticSpeedExact Sequencer.initial.minSpeed Sequencer.initial.maxSpeed 1000) := by
  intro h
  have h1 := h (by decide)
  have h2 : Sequencer.initial.baseSpeed 1000 = 80 := by
    rw [Sequencer.baseSpeed_eq, if_pos (by decide)]
    rfl
  have h3 : quadraticSpeedExact Sequencer.initial.minSpeed Sequencer.initial.maxSpeed 1000
      = 120 := by decide!
  rw [h2, h3] at h1
  exact absurd h1 (by decide)

/-- C22 (amended): on the PID path of `lineFollowControl` both wheel commands
are built from one base speed; for a line position `e` with `|e| ≤ 800` it is
`minSpeed + trunc((maxSpeed - minSpeed) * (1 - ratio^2))` with
`ratio = min(|e| / 1000, 1)` evaluated in `float` arithmetic, the quotient, the
square, the difference and the product each rounded to `float`, where
`minSpeed` is the turn speed and `maxSpeed` the fast speed of the active
profile; it lies between the two when `minSpeed ≤ maxSpeed ≤ minSpeed + 2^24`
and equals `maxSpeed` at `e = 0` when `|maxSpeed - minSpeed| ≤ 2^24`; for
`|e| > 800` it is `params.speedSlow`. -/
theorem Sequencer.base_speed_curve (s : Sequencer) (e : Int) :
    (∀ i : LoopInputs, i.lineLost = false → i.linePosition = e →
      ∃ pidOutput : ℚ,
        (s.followLine i).motor.leftCommand =
          constrainInt (truncInt ((s.baseSpeed e : ℚ) - pidOutput)) (-255) 255 ∧
        (s.followLine i).motor.rightCommand =
          constrainInt (truncInt ((s.baseSpeed e : ℚ) + pidOutput)) (-255) 255) ∧
    (|e| ≤ 800 →
      s.baseSpeed e =
        s.minSpeed + truncInt (toFloat32 (toFloat32 ((s.maxSpeed - s.minSpeed : Int) : ℚ) *
          toFloat32 (1 - toFloat32 (min (toFloat32 ((|e| : ℚ) / 1000)) 1 *
            min (toFloat32 ((|e| : ℚ) / 1000)) 1)))) ∧
      (s.minSpeed ≤ s.maxSpeed → s.maxSpeed - s.minSpeed ≤ 2 ^ 24 →
        s.minSpeed ≤ s.baseSpeed e ∧ s.baseSpeed e ≤ s.maxSpeed)) ∧
    (|s.maxSpeed - s.minSpeed| ≤ 2 ^ 24 → s.baseSpeed 0 = s.maxSpeed) ∧
    (800 < |e| → s.baseSpeed e = s.params.speedSlow) := by
  refine ⟨fun i hl he => ?_, fun he => ?_, fun hd => ?_, fun he => ?_⟩
  · subst he
    exact s.followLine_uses_baseSpeed i hl
  · have hn : ¬ (|e| > 800) := by omega
    rw [Sequencer.baseSpeed_eq, if_neg hn]
    exact ⟨quadraticSpeed_eq_min _ _ _, fun hab hd => quadraticSpeed_between _ _ _ hab hd⟩
  · rw [Sequencer.baseSpeed_eq, if_neg (by decide)]
    exact quadraticSpeed_zero _ _ hd
  · rw [Sequencer.baseSpeed_eq, if_pos he]

theorem Sequencer.base_speed_curve_witness :
    |(500 : Int)| ≤ 800 ∧ Sequencer.initial.minSpeed ≤ Sequencer.initial.maxSpeed ∧
    Sequencer.initial.maxSpeed - Sequencer.initial.minSpeed ≤ 2 ^ 24 ∧
    Sequencer.initial.minSpeed ≤ Sequencer.initial.baseSpeed 500 ∧
    Sequencer.initial.baseSpeed 500 ≤ Sequencer.initial.maxSpeed :=
  ⟨by decide, by decide, by decide,
   (((Sequencer.base_speed_curve Sequencer.initial 500).2.1 (by decide)).2 (by decide)
      (by decide)).1,
   (((Sequencer.base_speed_curve Sequencer.initial 500).2.1 (by decide)).2 (by decide)
      (by decide)).2⟩

/-! ### Pending commands while a maneuver is running (C23) -/

theorem Sequencer.sameStep_refl (s : Sequencer) : s.sameStep s :=
  ⟨rfl, rfl, rfl, rfl, rfl, rfl, rfl, rfl, rfl, rfl, rfl⟩

theorem Sequencer.sameStep_trans {s t u : Sequencer} (h1 : s.sameStep t) (h2 : t.sameStep u) :
    s.sameStep u := by
  obtain ⟨a1, a2, a3, a4, a5, a6, a7, a8, a9, a10, a11⟩ := h1
  obtain ⟨b1, b2, b3, b4, b5, b6, b7, b8, b9, b10, b11⟩ := h2
  exact ⟨b1.trans a1, b2.trans a2, b3.trans a3, b4.trans a4, b5.trans a5, b6.trans a6,
    b7.trans a7, b8.trans a8, b9.trans a9, b10.trans a10, b11.trans a11⟩

/-- While the system is running, the turn-test block only clears its flag. -/
theorem Sequencer.applyTestTurn_running (s : Sequencer) (now : Nat)
    (hrun : s.systemRunning = true) :
    s.sameStep (s.applyTestTurn now) ∧ (s.applyTestTurn now).systemRunning = true ∧
    (s.applyTestTurn now).pendingTestParking = s.pendingTestParking := by
  have hn : ¬ (s.systemRunning = false) := by rw [hrun]; decide
  unfold Sequencer.applyTestTurn
  dsimp only
  by_cases hp : s.pendingTestTurn = true
  · rw [if_pos hp, if_neg hn]
    exact ⟨⟨rfl, rfl, rfl, rfl, rfl, rfl, rfl, rfl, rfl, rfl, rfl⟩, hrun, rfl⟩
  · rw [if_neg hp]
    exact ⟨s.sameStep_refl, hrun, rfl⟩

/-- While the system is running, the straight-test block only clears its
flag. -/
theorem Sequencer.applyTestStraight_running (s : Sequencer) (now : Nat)
    (hrun : s.systemRunning = true) :
    s.sameStep (s.applyTestStraight now) ∧ (s.applyTestStraight now).systemRunning = true ∧
    (s.applyTestStraight now).pendingTestParking = s.pendingTestParking := by
  have hn : ¬ (s.systemRunning = false) := by rw [hrun]; decide
  unfold Sequencer.applyTestStraight
  dsimp only
  by_cases hp : s.pendingTestStraight = true
  · rw [if_pos hp, if_neg hn]
    exact ⟨⟨rfl, rfl, rfl, rfl, rfl, rfl, rfl, rfl, rfl, rfl, rfl⟩, hrun, rfl⟩
  · rw [if_neg hp]
    exact ⟨s.sameStep_refl, hrun, rfl⟩

/-- While the system is running, the avoidance-test block only clears its
flag. -/
theorem Sequencer.applyTestAvoid_running (s : Sequencer) (now : Nat)
    (hrun : s.systemRunning = true) :
    s.sameStep (s.applyTestAvoid now) ∧ (s.applyTestAvoid now).systemRunning = true ∧
    (s.applyTestAvoid now).pendingTestParking = s.pendingTestParking := by
  have hn : ¬ (s.systemRunning = false) := by rw [hrun]; decide
  unfold Sequencer.applyTestAvoid
  dsimp only
  by_cases hp : s.pendingTestAvoid = true
  · rw [if_pos hp, if_neg hn]
    exact ⟨⟨rfl, rfl, rfl, rfl, rfl, rfl, rfl, rfl, rfl, rfl, rfl⟩, hrun, rfl⟩
  · rw [if_neg hp]
    exact ⟨s.sameStep_refl, hrun, rfl⟩

/-- The manual-command block never touches the step bookkeeping. -/
theorem Sequencer.applyManualCommand_sameStep (s : Sequencer) (now : Nat) :
    s.sameStep (s.applyManualCommand now) := by
  unfold Sequencer.applyManualCommand
  dsimp only
  split_ifs <;>
    first
    | exact ⟨rfl, rfl, rfl, rfl, rfl, rfl, rfl, rfl, rfl, rfl, rfl⟩
    | (split <;> exact ⟨rfl, rfl, rfl, rfl, rfl, rfl, rfl, rfl, rfl, rfl, rfl⟩)

/-- The parking-test block with its flag set: the state becomes
`STATE_LINE_FOLLOW` and the encoders are reset once more. -/
theorem Sequencer.applyTestParking_pending (s : Sequencer) (now : Nat)
    (hp : s.pendingTestParking = true) :
    (s.applyTestParking now).currentState = SystemState.STATE_LINE_FOLLOW ∧
    (s.applyTestParking now).motor.encoderResets = s.motor.encoderResets + 1 := by
  unfold Sequencer.applyTestParking
  rw [if_pos hp]
  exact ⟨rfl, rfl⟩

/-- The turn-test block applied while the system is not running. -/
theorem Sequencer.applyTestTurn_start (s : Sequencer) (now : Nat)
    (hp : s.pendingTestTurn = true) (hrun : s.systemRunning = false) :
    (s.applyTestTurn now).currentState = SystemState.STATE_TESTING ∧
    (s.applyTestTurn now).currentTestState = TestSubState.TEST_TURN_90 ∧
    (s.applyTestTurn now).testStartTime = now ∧
    (s.applyTestTurn now).motor.encoderResets = s.motor.encoderResets + 1 ∧
    (s.applyTestTurn now).systemRunning = true ∧
    (s.applyTestTurn now).pendingTestParking = s.pendingTestParking := by
  unfold Sequencer.applyTestTurn
  dsimp only
  rw [if_pos hp, if_pos hrun]
  exact ⟨rfl, rfl, rfl, rfl, rfl, rfl⟩

/-- The straight-test block applied while the system is not running. -/
theorem Sequencer.applyTestStraight_start (s : Sequencer) (now : Nat)
    (hp : s.pendingTestStraight = true) (hrun : s.systemRunning = false) :
    (s.applyTestStraight now).currentState = SystemState.STATE_TESTING ∧
    (s.applyTestStraight now).currentTestState = TestSubState.TEST_STRAIGHT_1M ∧
    (s.applyTestStraight now).testStartTime = now ∧
    (s.applyTestStraight now).motor.encoderResets = s.motor.encoderResets + 1 ∧
    (s.applyTestStraight now).systemRunning = true ∧
    (s.applyTestStraight now).pendingTestParking = s.pendingTestParking := by
  unfold Sequencer.applyTestStraight
  dsimp only
  rw [if_pos hp, if_pos hrun]
  exact ⟨rfl, rfl, rfl, rfl, rfl, rfl⟩

/-- The avoidance-test block applied while the system is not running. -/
theorem Sequencer.applyTestAvoid_start (s : Sequencer) (now : Nat)
    (hp : s.pendingTestAvoid = true) (hrun : s.systemRunning = false) :
    (s.applyTestAvoid now).currentState = SystemState.STATE_OBSTACLE_AVOID ∧
    (s.applyTestAvoid now).avoidSubState = AvoidanceSubState.AVOID_TURN_LEFT ∧
    (s.applyTestAvoid now).avoidStateStartTime = now ∧
    (s.applyTestAvoid now).motor.encoderResets = s.motor.encoderResets + 1 ∧
    (s.applyTestAvoid now).systemRunning = true ∧
    (s.applyTestAvoid now).pendingTestParking = s.pendingTestParking := by
  unfold Sequencer.applyTestAvoid
  dsimp only
  rw [if_pos hp, if_pos hrun]
  exact ⟨rfl, rfl, rfl, rfl, rfl, rfl⟩

/-- The parking-test block with its flag not set and the manual-command
block keep the step bookkeeping. -/
theorem Sequencer.tail_sameStep (s : Sequencer) (now : Nat)
    (hp : s.pendingTestParking = false) :
    s.sameStep ((s.applyTestParking now).applyManualCommand now) := by
  rw [(s.applyTest_idle now).2.2.2 hp]
  exact s.applyManualCommand_sameStep now

/-- C23 as stated fails: in avoidance step 6 with the system running and the
parking-test command pending, `processPendingCommands` changes the top-level
state to `STATE_LINE_FOLLOW`. -/
theorem Sequencer.pending_commands_counterexample :
    ¬ (Sequencer.searchingWithParkingTest.currentState = SystemState.STATE_OBSTACLE_AVOID →
        Sequencer.searchingWithParkingTest.systemRunning = true →
        (Sequencer.searchingWithParkingTest.processPendingCommands 2000).currentState =
          Sequencer.searchingWithParkingTest.currentState) := by
  intro h
  have h1 := h rfl rfl
  have h2 : (Sequencer.searchingWithParkingTest.processPendingCommands 2000).currentState =
      SystemState.STATE_LINE_FOLLOW := rfl
  rw [h2] at h1
  exact absurd h1 (by decide)

/-- The claim of C23 fails in a second way: in avoidance step 6 after a
`TASK_STOP` task (which clears `systemRunning` and leaves the state), a
pending turn-test command is applied at once and the sequencer leaves the
maneuver for `STATE_TESTING`. -/
theorem Sequencer.turnTest_after_stop :
    Sequencer.stoppedWithTurnTest.currentState = SystemState.STATE_OBSTACLE_AVOID ∧
    Sequencer.stoppedWithTurnTest.avoidSubState = AvoidanceSubState.AVOID_FORWARD_IN ∧
    Sequencer.stoppedWithTurnTest.systemRunning = false ∧
    (Sequencer.stoppedWithTurnTest.processPendingCommands 2000).currentState =
      SystemState.STATE_TESTING :=
  ⟨rfl, rfl, rfl, rfl⟩

/-- C23 (amended): for every sequencer state and every combination of
pending command flags, `processPendingCommands` leaves `currentState`, the
avoidance, parking and test sub-states, the step start times and baselines and
the encoder counts unchanged when the parking-test flag is not set and either
`systemRunning` is true or none of the turn-test, straight-test and
avoidance-test flags is set (the manual command never touches them). A pending
parking-test command is applied at once in every state: the state becomes
`STATE_LINE_FOLLOW` and the encoders are reset. While `systemRunning` is false
the first pending one of the turn test, the straight test and the avoidance
test is started at once. -/
theorem Sequencer.pending_commands_frame (s : Sequencer) (now : Nat) :
    (s.pendingTestParking = false →
      (s.systemRunning = true ∨
        (s.pendingTestTurn = false ∧ s.pendingTestStraight = false ∧
          s.pendingTestAvoid = false)) →
      s.sameStep (s.processPendingCommands now)) ∧
    (s.pendingTestParking = true →
      (s.processPendingCommands now).currentState = SystemState.STATE_LINE_FOLLOW ∧
      s.motor.encoderResets < (s.processPendingCommands now).motor.encoderResets) ∧
    (s.systemRunning = false → s.pendingTestParking = false →
      (s.pendingTestTurn = true →
        (s.processPendingCommands now).currentState = SystemState.STATE_TESTING ∧
        (s.processPendingCommands now).currentTestState = TestSubState.TEST_TURN_90 ∧
        (s.processPendingCommands now).testStartTime = now ∧
        (s.processPendingCommands now).motor.encoderResets = s.motor.encoderResets + 1) ∧
      (s.pendingTestTurn = false → s.pendingTestStraight = true →
        (s.processPendingCommands now).currentState = SystemState.STATE_TESTING ∧
        (s.processPendingCommands now).currentTestState = TestSubState.TEST_STRAIGHT_1M ∧
        (s.processPendingCommands now).testStartTime = now ∧
        (s.processPendingCommands now).motor.encoderResets = s.motor.encoderResets + 1) ∧
      (s.pendingTestTurn = false → s.pendingTestStraight = false →
        s.pendingTestAvoid = true →
        (s.processPendingCommands now).currentState = SystemState.STATE_OBSTACLE_AVOID ∧
        (s.processPendingCommands now).avoidSubState = AvoidanceSubState.AVOID_TURN_LEFT ∧
        (s.processPendingCommands now).avoidStateStartTime = now ∧
        (s.processPendingCommands now).motor.encoderResets = s.motor.encoderResets + 1)) := by
  unfold Sequencer.processPendingCommands
  refine ⟨fun hp hor => ?_, fun hp => ?_, fun hrun hp => ⟨fun ht => ?_, fun ht hs => ?_,
    fun ht hs ha => ?_⟩⟩
  · rcases hor with hrun | ⟨ht, hs, ha⟩
    · obtain ⟨a1, r1, p1⟩ := s.applyTestTurn_running now hrun
      obtain ⟨a2, r2, p2⟩ := (s.applyTestTurn now).applyTestStraight_running now r1
      obtain ⟨a3, _, p3⟩ :=
        ((s.applyTestTurn now).applyTestStraight now).applyTestAvoid_running now r2
      exact Sequencer.sameStep_trans (Sequencer.sameStep_trans (Sequencer.sameStep_trans a1 a2) a3)
        (Sequencer.tail_sameStep _ now (by rw [p3, p2, p1, hp]))
    · rw [(s.applyTest_idle now).1 ht, (s.applyTest_idle now).2.1 hs,
        (s.applyTest_idle now).2.2.1 ha]
      exact s.tail_sameStep now hp
  · have hmono : ∀ u : Sequencer,
        u.motor.encoderResets ≤ (u.applyTestTurn now).motor.encoderResets ∧
        u.motor.encoderResets ≤ (u.applyTestStraight now).motor.encoderResets ∧
        u.motor.encoderResets ≤ (u.applyTestAvoid now).motor.encoderResets ∧
        (u.applyTestTurn now).pendingTestParking = u.pendingTestParking ∧
        (u.applyTestStraight now).pendingTestParking = u.pendingTestParking ∧
        (u.applyTestAvoid now).pendingTestParking = u.pendingTestParking := by
      intro u
      unfold Sequencer.applyTestTurn Sequencer.applyTestStraight Sequencer.applyTestAvoid
        MotorControl.resetEncoders
      dsimp only
      refine ⟨?_, ?_, ?_, ?_, ?_, ?_⟩ <;> split_ifs <;>
        first
        | rfl
        | exact Nat.le_succ _
    obtain ⟨m1, _, _, q1, _, _⟩ := hmono s
    obtain ⟨_, m2, _, _, q2, _⟩ := hmono (s.applyTestTurn now)
    obtain ⟨_, _, m3, _, _, q3⟩ := hmono ((s.applyTestTurn now).applyTestStraight now)
    obtain ⟨c1, c2⟩ := Sequencer.applyTestParking_pending
      (((s.applyTestTurn now).applyTestStraight now).applyTestAvoid now) now
      (by rw [q3, q2, q1, hp])
    obtain ⟨k1, _, _, _, _, _, _, _, _, _, k11⟩ := Sequencer.applyManualCommand_sameStep
      ((((s.applyTestTurn now).applyTestStraight now).applyTestAvoid now).applyTestParking
        now) now
    refine ⟨k1.trans c1, ?_⟩
    rw [k11, c2]
    omega
  · obtain ⟨b1, b2, b3, b4, r1, p1⟩ := s.applyTestTurn_start now ht hrun
    obtain ⟨a2, r2, p2⟩ := (s.applyTestTurn now).applyTestStraight_running now r1
    obtain ⟨a3, _, p3⟩ :=
      ((s.applyTestTurn now).applyTestStraight now).applyTestAvoid_running now r2
    obtain ⟨k1, _, _, k4, _, _, _, _, _, k10, k11⟩ :=
      Sequencer.sameStep_trans (Sequencer.sameStep_trans a2 a3)
        (Sequencer.tail_sameStep _ now (by rw [p3, p2, p1, hp]))
    exact ⟨k1.trans b1, k4.trans b2, k10.trans b3, k11.trans b4⟩
  · rw [(s.applyTest_idle now).1 ht]
    obtain ⟨b1, b2, b3, b4, r1, p1⟩ := s.applyTestStraight_start now hs hrun
    obtain ⟨a3, _, p3⟩ := (s.applyTestStraight now).applyTestAvoid_running now r1
    obtain ⟨k1, _, _, k4, _, _, _, _, _, k10, k11⟩ :=
      Sequencer.sameStep_trans a3 (Sequencer.tail_sameStep _ now (by rw [p3, p1, hp]))
    exact ⟨k1.trans b1, k4.trans b2, k10.trans b3, k11.trans b4⟩
  · rw [(s.applyTest_idle now).1 ht, (s.applyTest_idle now).2.1 hs]
    obtain ⟨b1, b2, b3, b4, _, p1⟩ := s.applyTestAvoid_start now ha hrun
    obtain ⟨k1, k2, _, _, k5, _, _, _, _, _, k11⟩ :=
      Sequencer.tail_sameStep (s.applyTestAvoid now) now (by rw [p1, hp])
    exact ⟨k1.trans b1, k2.trans b2, k5.trans b3, k11.trans b4⟩

theorem Sequencer.pending_commands_frame_witness :
    Sequencer.searchingWithCommands.systemRunning = true ∧
    Sequencer.searchingWithCommands.pendingTestParking = false ∧
    Sequencer.searchingWithCommands.sameStep
      (Sequencer.searchingWithCommands.processPendingCommands 2000) :=
  ⟨rfl, rfl,
   (Sequencer.pending_commands_frame Sequencer.searchingWithCommands 2000).1 rfl
     (Or.inl rfl)⟩

/-! ### Line sensor: lost-line counter and position (C24, C25) -/

theorem LineSensor.foldl_accumulate (ls : LineSensor) (l : List Nat) (a b : Int) :
    l.foldl
      (fun acc i => if ls.getState i = 1 then (acc.1 + ls.weights i, acc.2 + 1000) else acc)
      (a, b) =
    (a + ((l.filter (fun i => ls.getState i = 1)).map ls.weights).sum,
     b + 1000 * (((l.filter (fun i => ls.getState i = 1)).length : Nat) : Int)) := by
  induction l generalizing a b with
  | nil => simp
  | cons i l ih =>
    rw [List.foldl_cons]
    by_cases h : ls.getState i = 1
    · rw [if_pos h, ih]
      simp only [List.filter_cons, h, decide_True, if_true, List.map_cons, List.sum_cons,
        List.length_cons]
      refine Prod.ext ?_ ?_
      · show a + ls.weights i + _ = a + (ls.weights i + _)
        ring
      · show b + 1000 + _ = b + 1000 * _
        push_cast
        ring
    · rw [if_neg h, ih]
      simp only [List.filter_cons, h, decide_False, Bool.false_eq_true, if_false]

theorem LineSensor.accumulate_eq (ls : LineSensor) :
    ls.accumulate (List.range 8) = (ls.activeWeightSum, 1000 * ls.activeCount) := by
  unfold LineSensor.accumulate
  rw [LineSensor.foldl_accumulate]
  simp [LineSensor.activeWeightSum, LineSensor.activeCount, LineSensor.activeIndices]

theorem LineSensor.activeIndices_clear (ls : LineSensor) (h : ls.states = 0) :
    ls.activeIndices = [] := by
  unfold LineSensor.activeIndices
  rw [List.filter_eq_nil_iff]
  intro i _
  simp [LineSensor.getState, h]

/-- A read with all sensors clear adds one to the 8-bit counter and changes
nothing else. -/
theorem LineSensor.getLinePosition_clear (ls : LineSensor) (h : ls.states = 0) :
    ls.getLinePosition.1 = { ls with lostLineCount := (ls.lostLineCount + 1) % 256 } := by
  unfold LineSensor.getLinePosition
  dsimp only
  rw [LineSensor.accumulate_eq]
  have hc : ls.activeCount = 0 := by
    unfold LineSensor.activeCount
    rw [LineSensor.activeIndices_clear ls h]
    rfl
  rw [if_pos (by rw [hc]; rfl)]

/-- After `k` reads with all sensors clear the counter is its old value
plus `k`, modulo 256. -/
theorem LineSensor.readTimes_clear (ls : LineSensor) (h : ls.states = 0)
    (hc : ls.lostLineCount < 256) (k : Nat) :
    (ls.readTimes k).states = 0 ∧
    (ls.readTimes k).lostLineCount = (ls.lostLineCount + k) % 256 := by
  induction k with
  | zero => exact ⟨h, by simp [LineSensor.readTimes, Nat.mod_eq_of_lt hc]⟩
  | succ k ih =>
    show ((ls.readTimes k).getLinePosition.1).states = 0 ∧
      ((ls.readTimes k).getLinePosition.1).lostLineCount = _
    rw [LineSensor.getLinePosition_clear _ ih.1]
    refine ⟨ih.1, ?_⟩
    show ((ls.readTimes k).lostLineCount + 1) % 256 = _
    rw [ih.2]
    omega

/-- While the counter does not pass 255, three or more consecutive clear
reads are reported as a lost line. -/
theorem LineSensor.lost_before_wrap (ls : LineSensor) (h : ls.states = 0) (k : Nat)
    (hk : 3 ≤ k) (hc : ls.lostLineCount + k < 256) :
    (ls.readTimes k).isLostLine = true := by
  obtain ⟨_, h2⟩ := ls.readTimes_clear h (by omega) k
  unfold LineSensor.isLostLine
  rw [h2, Nat.mod_eq_of_lt hc]
  exact decide_eq_true (by omega)

/-- A read that sees the line on any sensor clears the lost-line report. -/
theorem LineSensor.seen_not_lost (ls : LineSensor) (h : 0 < ls.activeCount) :
    ls.getLinePosition.1.isLostLine = false := by
  unfold LineSensor.getLinePosition
  dsimp only
  rw [LineSensor.accumulate_eq]
  have hne : ¬ ((1000 * ls.activeCount) = 0) := by omega
  rw [if_neg hne]
  rfl

/-- C24 (behaviour of the code at the failing input): a newly constructed
line sensor whose bitmask stays 0 reports a lost line after 255 consecutive
reads, but the 256th read wraps the 8-bit counter `lostLineCount` to 0 and
`isLostLine()` returns false although 256 consecutive reads were clear. -/
theorem LineSensor.lost_report_wraps :
    LineSensor.construct.states = 0 ∧
    (LineSensor.construct.readTimes 255).isLostLine = true ∧
    (LineSensor.construct.readTimes 256).states = 0 ∧
    (LineSensor.construct.readTimes 256).lostLineCount = 0 ∧
    (LineSensor.construct.readTimes 256).isLostLine = false := by
  obtain ⟨h1, h2⟩ := LineSensor.construct.readTimes_clear rfl (by decide) 256
  refine ⟨rfl, LineSensor.lost_before_wrap _ rfl 255 (by decide) (by decide), h1, h2, ?_⟩
  unfold LineSensor.isLostLine
  rw [h2]
  rfl

theorem toInt16_of_range (x : Int) (h1 : -32768 ≤ x) (h2 : x ≤ 32767) : toInt16 x = x := by
  unfold toInt16
  omega

theorem constrainInt_mem (x lo hi : Int) (h : lo ≤ hi) :
    lo ≤ constrainInt x lo hi ∧ constrainInt x lo hi ≤ hi := by
  unfold constrainInt
  split_ifs <;> constructor <;> omega

/-- The sum of `n` values of type `int16_t` lies between `-32768 n` and
`32767 n`. -/
theorem sum_int16_bound (w : Nat → Int) (l : List Nat)
    (hw : ∀ i ∈ l, -32768 ≤ w i ∧ w i ≤ 32767) :
    -32768 * (l.length : Int) ≤ (l.map w).sum ∧ (l.map w).sum ≤ 32767 * (l.length : Int) := by
  induction l with
  | nil => simp
  | cons i l ih =>
    have h1 := hw i (List.mem_cons_self i l)
    have h2 := ih (fun j hj => hw j (List.mem_cons_of_mem i hj))
    simp only [List.map_cons, List.sum_cons, List.length_cons]
    push_cast
    constructor <;> nlinarith [h1.1, h1.2, h2.1, h2.2]

/-- Truncating division of a sum of `n > 0` values of type `int16_t` by `n`
stays in the range of `int16_t`. -/
theorem tdiv_int16_bound (x n : Int) (hn : 0 < n) (h1 : -32768 * n ≤ x)
    (h2 : x ≤ 32767 * n) :
    -32768 ≤ Int.tdiv x n ∧ Int.tdiv x n ≤ 32767 := by
  rcases le_total 0 x with hx | hx
  · rw [Int.tdiv_eq_ediv hx (le_of_lt hn)]
    constructor
    · have := Int.ediv_nonneg hx (le_of_lt hn)
      omega
    · exact Int.ediv_le_of_le_mul hn h2
  · have hneg : Int.tdiv x n = -(Int.tdiv (-x) n) := by
      rw [Int.neg_tdiv, neg_neg]
    have hx2 : 0 ≤ -x := by omega
    rw [hneg, Int.tdiv_eq_ediv hx2 (le_of_lt hn)]
    have hlo := Int.ediv_nonneg hx2 (le_of_lt hn)
    have hhi : (-x) / n ≤ 32768 := Int.ediv_le_of_le_mul hn (by linarith)
    constructor <;> omega

theorem LineSensor.activeIndices_lt (ls : LineSensor) : ∀ i ∈ ls.activeIndices, i < 8 := by
  intro i hi
  unfold LineSensor.activeIndices at hi
  rw [List.mem_filter, List.mem_range] at hi
  exact hi.1

/-- C25 (line position range): for every bitmask, every eight weights of
type `int16_t` and every remembered last valid position, `getLinePosition`
returns a value in `[-1000, 1000]`; when at least one sensor is active the
value is the sum of the active sensors' weights divided by their number with
truncation toward zero, limited to `[-1000, 1000]`, and it is stored as the
last valid position. -/
theorem LineSensor.position_range (ls : LineSensor)
    (hw : ∀ i, i < 8 → -32768 ≤ ls.weights i ∧ ls.weights i ≤ 32767) :
    (-1000 ≤ ls.getLinePosition.2 ∧ ls.getLinePosition.2 ≤ 1000) ∧
    (0 < ls.activeCount →
      ls.getLinePosition.2 =
        constrainInt (Int.tdiv ls.activeWeightSum ls.activeCount) (-1000) 1000 ∧
      ls.getLinePosition.1.lastValidPosition = ls.getLinePosition.2) := by
  have hsum := sum_int16_bound ls.weights ls.activeIndices
    (fun i hi => hw i (ls.activeIndices_lt i hi))
  have hlost : ∀ q : ℚ, -1000 ≤ toInt16 (truncInt (constrain q (-1000) 1000)) ∧
      toInt16 (truncInt (constrain q (-1000) 1000)) ≤ 1000 := by
    intro q
    obtain ⟨c1, c2⟩ := constrain_mem q (-1000) 1000 (by norm_num)
    have t1 := truncInt_mono c1
    have t2 := truncInt_mono c2
    have e1 : truncInt (-1000) = -1000 := by
      have := truncInt_intCast (-1000)
      simpa using this
    have e2 : truncInt 1000 = 1000 := by
      have := truncInt_intCast 1000
      simpa using this
    rw [e1] at t1
    rw [e2] at t2
    rw [toInt16_of_range _ (by omega) (by omega)]
    exact ⟨t1, t2⟩
  have hactive : 0 < ls.activeCount →
      toInt16 (Int.tdiv ls.activeWeightSum ls.activeCount) =
        Int.tdiv ls.activeWeightSum ls.activeCount := by
    intro hpos
    obtain ⟨b1, b2⟩ := tdiv_int16_bound ls.activeWeightSum ls.activeCount hpos hsum.1 hsum.2
    exact toInt16_of_range _ b1 b2
  have hcount : Int.tdiv (1000 * ls.activeCount) 1000 = ls.activeCount :=
    Int.mul_tdiv_cancel_left _ (by decide)
  unfold LineSensor.getLinePosition
  dsimp only
  rw [LineSensor.accumulate_eq]
  dsimp only
  by_cases h0 : 1000 * ls.activeCount = 0
  · rw [if_pos h0]
    refine ⟨hlost _, fun hpos => ?_⟩
    omega
  · rw [if_neg h0, hcount]
    refine ⟨constrainInt_mem _ _ _ (by decide), fun hpos => ?_⟩
    rw [hactive hpos]
    exact ⟨rfl, rfl⟩

theorem LineSensor.position_range_witness :
    (∀ i, i < 8 → -32768 ≤ LineSensor.centredExample.weights i ∧
      LineSensor.centredExample.weights i ≤ 32767) ∧
    0 < LineSensor.centredExample.activeCount ∧
    LineSensor.centredExample.getLinePosition.2 =
      constrainInt (Int.tdiv LineSensor.centredExample.activeWeightSum
        LineSensor.centredExample.activeCount) (-1000) 1000 ∧
    LineSensor.centredExample.getLinePosition.1.lastValidPosition =
      LineSensor.centredExample.getLinePosition.2 :=
  ⟨by decide, by decide,
   ((LineSensor.position_range LineSensor.centredExample (by decide)).2 (by decide)).1,
   ((LineSensor.position_range LineSensor.centredExample (by decide)).2 (by decide)).2⟩

/-! ### Degenerate bracketing pairs (C26) -/

/-- When a pair is found, `findPreciseCrossingPoint` returns the value of the
`found` block for that pair. -/
theorem History.findPreciseCrossingPoint_some (h : History) (entering : Bool)
    (threshold : Nat) (prev curr : HistorySample)
    (hfound : h.foundPair entering threshold = some (prev, curr)) :
    h.findPreciseCrossingPoint entering threshold = crossingValue prev curr threshold := by
  unfold History.findPreciseCrossingPoint History.foundPair at *
  dsimp only
  rw [searchLoop_eq_crossingPair, hfound]

/-- The three degenerate branches of the `found` block return the mid-point
of the pair, the travel of `prev` and the travel of `curr`. -/
theorem crossingValue_degenerate (prev curr : HistorySample) (threshold : Nat) :
    (|(curr.laserDist : ℚ) - (prev.laserDist : ℚ)| < 5 →
      crossingValue prev curr threshold = (prev.globalDist + curr.globalDist) / 2) ∧
    (¬ (|(curr.laserDist : ℚ) - (prev.laserDist : ℚ)| < 5) →
      (|curr.globalDist - prev.globalDist| > 50 ∨ |curr.globalDist - prev.globalDist| < 1 / 2) →
      crossingValue prev curr threshold = prev.globalDist) ∧
    (¬ (|(curr.laserDist : ℚ) - (prev.laserDist : ℚ)| < 5) →
      ¬ (|curr.globalDist - prev.globalDist| > 50 ∨
          |curr.globalDist - prev.globalDist| < 1 / 2) →
      (curr.timestamp + ulongMod - prev.timestamp) % ulongMod > 200 →
      crossingValue prev curr threshold = curr.globalDist) := by
  unfold crossingValue
  dsimp only
  refine ⟨fun h1 => ?_, fun h1 h2 => ?_, fun h1 h2 h3 => ?_⟩
  · rw [if_pos h1]
  · rw [if_neg h1, if_pos h2]
  · rw [if_neg h1, if_neg h2, if_pos h3]

set_option maxHeartbeats 2000000 in
theorem ObjectDetector.slowApproach_facts :
    ObjectDetector.slowApproach.confirmsEntry (DetectorTick.reading 200 299 120) ∧
    (ObjectDetector.slowApproach.sense (DetectorTick.reading 200 299 120)).1.history.foundPair
      true 300 = some ({ timestamp := 100, laserDist := 302, globalDist := 100 },
                       { timestamp := 120, laserDist := 299, globalDist := 104 }) ∧
    (ObjectDetector.slowApproach.sense
      (DetectorTick.reading 200 299 120)).1.globalPathDistance = 120 ∧
    (ObjectDetector.slowApproach.update (DetectorTick.reading 200 299 120)).startEncoderPos
      = 102 := by
  refine ⟨by decide!, by decide!, by decide!, by decide!⟩

/-- C26 as stated fails: after a reading of 302 mm at travel 100 and readings
of 299 mm from travel 104 on (threshold 300), the tick at travel 120 confirms
the entry; the bracketing pair has a range delta of 3 mm, and the recorded
start position is the pair's mid-point 102, not `max(120 - 10, 0) = 110`. -/
theorem ObjectDetector.degenerate_pair_counterexample :
    ¬ (ObjectDetector.slowApproach.confirmsEntry (DetectorTick.reading 200 299 120) →
        (∃ prev curr : HistorySample,
          (ObjectDetector.slowApproach.sense
            (DetectorTick.reading 200 299 120)).1.history.foundPair true 300 =
              some (prev, curr) ∧
          |(curr.laserDist : ℚ) - (prev.laserDist : ℚ)| < 5) →
        (ObjectDetector.slowApproach.update
          (DetectorTick.reading 200 299 120)).startEncoderPos =
          max ((ObjectDetector.slowApproach.sense
            (DetectorTick.reading 200 299 120)).1.globalPathDistance - 10) 0) := by
  intro h
  obtain ⟨h1, h2, h3, h4⟩ := ObjectDetector.slowApproach_facts
  have h5 := h h1 ⟨_, _, h2, by norm_num⟩
  rw [h4, h3] at h5
  norm_num at h5

/-- C26 (amended): when the entry is confirmed and a bracketing pair is found
whose value is not negative, the recorded start position is the value of the
`found` block for that pair: the mid-point of the pair's travel positions
when the range delta is below 5, the travel of `prev` when the travel delta is
above 50 or below 0.5, the travel of `curr` when the timestamp gap is above
200 ms; the fallback estimate `max(currentTravel - 10, 0)` is recorded only
when no pair is found. On exit the end position follows the same rule, with
the fallback `currentTravel - 10`, or `currentTravel` when that is below the
start position. -/
theorem ObjectDetector.degenerate_pair_positions (d : ObjectDetector) (t : DetectorTick) :
    (d.confirmsEntry t →
      (∀ prev curr : HistorySample,
        (d.sense t).1.history.foundPair true d.detectThreshold = some (prev, curr) →
        0 ≤ crossingValue prev curr d.detectThreshold →
        (d.update t).startEncoderPos = crossingValue prev curr d.detectThreshold) ∧
      ((d.sense t).1.history.foundPair true d.detectThreshold = none →
        (d.update t).startEncoderPos = max ((d.sense t).1.globalPathDistance - 10) 0)) ∧
    (d.confirmsExit t →
      (∀ prev curr : HistorySample,
        (d.sense t).1.history.foundPair false d.detectThreshold = some (prev, curr) →
        0 ≤ crossingValue prev curr d.detectThreshold →
        (d.update t).endEncoderPos = crossingValue prev curr d.detectThreshold) ∧
      ((d.sense t).1.history.foundPair false d.detectThreshold = none →
        (d.update t).endEncoderPos =
          if (d.sense t).1.globalPathDistance - 10 < d.startEncoderPos then
            (d.sense t).1.globalPathDistance
          else (d.sense t).1.globalPathDistance - 10)) ∧
    (∀ (prev curr : HistorySample) (threshold : Nat),
      (|(curr.laserDist : ℚ) - (prev.laserDist : ℚ)| < 5 →
        crossingValue prev curr threshold = (prev.globalDist + curr.globalDist) / 2) ∧
      (¬ (|(curr.laserDist : ℚ) - (prev.laserDist : ℚ)| < 5) →
        (|curr.globalDist - prev.globalDist| > 50 ∨
          |curr.globalDist - prev.globalDist| < 1 / 2) →
        crossingValue prev curr threshold = prev.globalDist) ∧
      (¬ (|(curr.laserDist : ℚ) - (prev.laserDist : ℚ)| < 5) →
        ¬ (|curr.globalDist - prev.globalDist| > 50 ∨
            |curr.globalDist - prev.globalDist| < 1 / 2) →
        (curr.timestamp + ulongMod - prev.timestamp) % ulongMod > 200 →
        crossingValue prev curr threshold = curr.globalDist)) := by
  have hthr : (d.sense t).1.detectThreshold = d.detectThreshold := rfl
  have hstart : (d.sense t).1.startEncoderPos = d.startEncoderPos := rfl
  refine ⟨fun h => ?_, fun h => ?_, fun prev curr threshold =>
    crossingValue_degenerate prev curr threshold⟩
  · have hs : (d.update t).startEncoderPos = (d.sense t).1.entryStartPos := by
      rw [d.update_confirmsEntry t h]
    rw [hs]
    unfold ObjectDetector.entryStartPos
    dsimp only
    rw [hthr]
    refine ⟨fun prev curr hf hv => ?_, fun hn => ?_⟩
    · rw [History.findPreciseCrossingPoint_some _ _ _ _ _ hf, if_pos hv]
    · rw [History.findPreciseCrossingPoint_none _ _ _ hn, if_neg (by norm_num)]
      by_cases hlt : (d.sense t).1.globalPathDistance - 10 < 0
      · rw [if_pos hlt, max_eq_right (le_of_lt hlt)]
      · rw [if_neg hlt, max_eq_left (not_lt.mp hlt)]
  · have hs : (d.update t).endEncoderPos = (d.sense t).1.exitEndPos := by
      rw [d.update_confirmsExit t h]
    rw [hs]
    unfold ObjectDetector.exitEndPos
    dsimp only
    rw [hthr, hstart]
    refine ⟨fun prev curr hf hv => ?_, fun hn => ?_⟩
    · rw [History.findPreciseCrossingPoint_some _ _ _ _ _ hf, if_pos hv]
    · rw [History.findPreciseCrossingPoint_none _ _ _ hn, if_neg (by norm_num)]

theorem ObjectDetector.degenerate_pair_positions_witness :
    ObjectDetector.slowApproach.confirmsEntry (DetectorTick.reading 200 299 120) ∧
    (ObjectDetector.slowApproach.update (DetectorTick.reading 200 299 120)).startEncoderPos =
      crossingValue { timestamp := 100, laserDist := 302, globalDist := 100 }
        { timestamp := 120, laserDist := 299, globalDist := 104 }
        ObjectDetector.slowApproach.detectThreshold :=
  ⟨ObjectDetector.slowApproach_facts.1,
   ((ObjectDetector.degenerate_pair_positions ObjectDetector.slowApproach
      (DetectorTick.reading 200 299 120)).1 ObjectDetector.slowApproach_facts.1).1
      { timestamp := 100, laserDist := 302, globalDist := 100 }
      { timestamp := 120, laserDist := 299, globalDist := 104 }
      ObjectDetector.slowApproach_facts.2.1 (by decide!)⟩

/-! ### Avoidance: what the time ceiling measures, and the step resets (C27, C28) -/

/-- The `switch` block either keeps the step timer or restarts it at the
current time. -/
theorem Sequencer.avoidSwitch_timer (s : Sequencer) (i : LoopInputs) :
    (s.avoidSwitch i).avoidStateStartTime = s.avoidStateStartTime ∨
    (s.avoidSwitch i).avoidStateStartTime = i.now := by
  unfold Sequencer.avoidSwitch Sequencer.avoidStepDone
  cases s.avoidSubState <;> dsimp only <;> (try split_ifs) <;>
    first
    | exact Or.inl rfl
    | exact Or.inr rfl

set_option maxHeartbeats 2000000 in
theorem Sequencer.avoidEntered_facts :
    Sequencer.avoidEntered.currentState = SystemState.STATE_OBSTACLE_AVOID ∧
    Sequencer.avoidEntered.avoidSubState = AvoidanceSubState.AVOID_TURN_LEFT ∧
    Sequencer.avoidEntered.avoidStateStartTime = 1100 ∧
    (Sequencer.avoidEntered.handleObstacleAvoidance
      LoopInputs.firstTurnDone).avoidSubState = AvoidanceSubState.AVOID_FORWARD_OUT ∧
    (Sequencer.avoidEntered.handleObstacleAvoidance
      LoopInputs.firstTurnDone).avoidStateStartTime = 4000 ∧
    ((Sequencer.avoidEntered.handleObstacleAvoidance
      LoopInputs.firstTurnDone).handleObstacleAvoidance LoopInputs.drivingOut).currentState =
        SystemState.STATE_OBSTACLE_AVOID ∧
    ((Sequencer.avoidEntered.handleObstacleAvoidance
      LoopInputs.firstTurnDone).handleObstacleAvoidance LoopInputs.drivingOut).avoidSubState =
        AvoidanceSubState.AVOID_FORWARD_OUT := by
  refine ⟨by decide!, by decide!, by decide!, by decide!, by decide!, by decide!, by decide!⟩

/-- C27 as stated fails: the maneuver is entered at step 1 at 1100 ms, step 2
starts at 4000 ms, and on the tick at 6500 ms, 5400 ms after the maneuver was
entered, the sequencer is still in `STATE_OBSTACLE_AVOID` at step 2. -/
theorem Sequencer.avoid_ceiling_counterexample :
    ¬ (Sequencer.avoidEntered.avoidSubState = AvoidanceSubState.AVOID_TURN_LEFT →
        ulongSub LoopInputs.drivingOut.now Sequencer.avoidEntered.avoidStateStartTime >
          AVOID_TIME_MS →
        ((Sequencer.avoidEntered.handleObstacleAvoidance
          LoopInputs.firstTurnDone).handleObstacleAvoidance
            LoopInputs.drivingOut).currentState = SystemState.STATE_LINE_FOLLOW ∧
        ((Sequencer.avoidEntered.handleObstacleAvoidance
          LoopInputs.firstTurnDone).handleObstacleAvoidance
            LoopInputs.drivingOut).avoidSubState = AvoidanceSubState.AVOID_NONE) := by
  intro h
  obtain ⟨_, h2, h3, _, _, h6, _⟩ := Sequencer.avoidEntered_facts
  have h7 := (h h2 (by rw [h3]; decide)).1
  rw [h6] at h7
  exact absurd h7 (by decide)

/-- C27 (amended): the time ceiling is measured from `avoidStateStartTime`,
which the `switch` block either keeps or restarts at the current time; on
every `handleObstacleAvoidance` tick at which more than `AVOID_TIME_MS` has
elapsed since `avoidStateStartTime` and the step does not restart it, the tick
ends with `STATE_LINE_FOLLOW`, sub-state `AVOID_NONE` and the motors stopped;
a tick that restarts it is not ended by the ceiling. -/
theorem Sequencer.avoid_step_ceiling (s : Sequencer) (i : LoopInputs) :
    ((s.avoidSwitch i).avoidStateStartTime = s.avoidStateStartTime ∨
      (s.avoidSwitch i).avoidStateStartTime = i.now) ∧
    (ulongSub i.now s.avoidStateStartTime > AVOID_TIME_MS →
      (s.avoidSwitch i).avoidStateStartTime = s.avoidStateStartTime →
      (s.handleObstacleAvoidance i).currentState = SystemState.STATE_LINE_FOLLOW ∧
      (s.handleObstacleAvoidance i).avoidSubState = AvoidanceSubState.AVOID_NONE ∧
      (s.handleObstacleAvoidance i).motor.leftCommand = 0 ∧
      (s.handleObstacleAvoidance i).motor.rightCommand = 0) ∧
    ((s.avoidSwitch i).avoidStateStartTime = i.now →
      s.handleObstacleAvoidance i = s.avoidSwitch i) := by
  refine ⟨s.avoidSwitch_timer i, fun h hk => ?_, fun hr => ?_⟩
  · unfold Sequencer.handleObstacleAvoidance
    dsimp only
    rw [hk, if_pos h]
    exact ⟨rfl, rfl, rfl, rfl⟩
  · unfold Sequencer.handleObstacleAvoidance
    dsimp only
    rw [hr, ulongSub_self, if_neg (by decide)]

set_option maxHeartbeats 2000000 in
theorem Sequencer.avoid_step_ceiling_witness :
    ulongSub LoopInputs.drivingOut.now Sequencer.searchingExample.avoidStateStartTime >
      AVOID_TIME_MS ∧
    (Sequencer.searchingExample.handleObstacleAvoidance LoopInputs.drivingOut).currentState =
      SystemState.STATE_LINE_FOLLOW ∧
    (Sequencer.searchingExample.handleObstacleAvoidance LoopInputs.drivingOut).avoidSubState =
      AvoidanceSubState.AVOID_NONE :=
  ⟨by decide,
   ((Sequencer.avoid_step_ceiling Sequencer.searchingExample LoopInputs.drivingOut).2.1
      (by decide) (by decide!)).1,
   ((Sequencer.avoid_step_ceiling Sequencer.searchingExample LoopInputs.drivingOut).2.1
      (by decide) (by decide!)).2.1⟩

/-- Every change from one avoidance step to the next resets the encoders and
zeroes both baselines; it restarts the step timer too, unless the change is
the give-up of step 6 (no line seen). -/
theorem Sequencer.step_transition_resets (s : Sequencer) (i : LoopInputs)
    (hchange : (s.handleObstacleAvoidance i).avoidSubState ≠ s.avoidSubState)
    (hnext : (s.handleObstacleAvoidance i).avoidSubState ≠ AvoidanceSubState.AVOID_NONE) :
    (s.handleObstacleAvoidance i).motor.encoderResets = s.motor.encoderResets + 1 ∧
    (s.handleObstacleAvoidance i).avoidStartLeftDist = 0 ∧
    (s.handleObstacleAvoidance i).avoidStartRightDist = 0 ∧
    (¬ (s.avoidSubState = AvoidanceSubState.AVOID_FORWARD_IN ∧
        ¬ (i.lineDataReady = true ∧ i.lineRawStates ≠ 0)) →
      (s.handleObstacleAvoidance i).avoidStateStartTime = i.now) := by
  have hto : ¬ (ulongSub i.now (s.avoidSwitch i).avoidStateStartTime > AVOID_TIME_MS) := by
    intro hto
    apply hnext
    unfold Sequencer.handleObstacleAvoidance
    dsimp only
    rw [if_pos hto]
  have heq : s.handleObstacleAvoidance i = s.avoidSwitch i := by
    unfold Sequencer.handleObstacleAvoidance
    dsimp only
    rw [if_neg hto]
  rw [heq] at hchange hnext ⊢
  revert hchange hnext
  unfold Sequencer.avoidSwitch Sequencer.avoidStepDone
  cases hs : s.avoidSubState <;> dsimp only <;> (try split_ifs) <;>
    intro hchange hnext <;>
    first
    | exact absurd hs hnext
    | exact absurd rfl hchange
    | exact absurd rfl hnext
    | exact ⟨rfl, rfl, rfl, fun _ => rfl⟩
    | (refine ⟨rfl, rfl, rfl, fun hx => ?_⟩
       exfalso
       apply hx
       refine ⟨rfl, ?_⟩
       assumption)

set_option maxHeartbeats 2000000 in
/-- C28 (behaviour of the code at the failing input): in step 6 started at
1000 ms, with no line under the sensor and both wheels at the search distance
of 800 mm at 3000 ms, the give-up moves to the final align step, resets the
encoders and zeroes both baselines, but `avoidStateStartTime` stays 1000
instead of becoming 3000. -/
theorem Sequencer.giveup_keeps_step_timer :
    Sequencer.searchingExample.avoidSubState = AvoidanceSubState.AVOID_FORWARD_IN ∧
    Sequencer.searchingExample.avoidStateStartTime = 1000 ∧
    LoopInputs.searchExhausted.now = 3000 ∧
    (Sequencer.searchingExample.handleObstacleAvoidance
      LoopInputs.searchExhausted).avoidSubState = AvoidanceSubState.AVOID_TURN_LEFT_ALIGN ∧
    (Sequencer.searchingExample.handleObstacleAvoidance
      LoopInputs.searchExhausted).avoidStateStartTime = 1000 ∧
    (Sequencer.searchingExample.handleObstacleAvoidance
      LoopInputs.searchExhausted).motor.encoderResets =
        Sequencer.searchingExample.motor.encoderResets + 1 ∧
    (Sequencer.searchingExample.handleObstacleAvoidance
      LoopInputs.searchExhausted).avoidStartLeftDist = 0 ∧
    (Sequencer.searchingExample.handleObstacleAvoidance
      LoopInputs.searchExhausted).avoidStartRightDist = 0 := by
  refine ⟨rfl, rfl, rfl, by decide!, by decide!, by decide!, by decide!, by decide!⟩

/-! ### Turn test: speed ramp (C29) -/

/-- The ramp value lies between the floor speed and the turn speed when the
turn speed is not below the floor. -/
theorem testTurnSpeed_bounds (turnSpeed motorDeadband : Int) (target remaining : ℚ)
    (hfloor : max 100 (motorDeadband + 50) ≤ turnSpeed) :
    max 100 (motorDeadband + 50) ≤ testTurnSpeed turnSpeed motorDeadband target remaining ∧
    testTurnSpeed turnSpeed motorDeadband target remaining ≤ turnSpeed := by
  unfold testTurnSpeed
  dsimp only
  have hthr : (0 : ℚ) < max (target * (2 / 5)) 50 := lt_of_lt_of_le (by norm_num) (le_max_right _ _)
  by_cases h : remaining < max (target * (2 / 5)) 50
  · rw [if_pos h]
    refine ⟨le_max_right _ _, max_le ?_ hfloor⟩
    have hk : (0 : ℚ) ≤ ((turnSpeed - max 100 (motorDeadband + 50) : Int) : ℚ) := by
      exact_mod_cast (by omega : (0 : Int) ≤ turnSpeed - max 100 (motorDeadband + 50))
    have hratio : remaining / max (target * (2 / 5)) 50 ≤ 1 := by
      rw [div_le_one hthr]
      exact le_of_lt h
    have hle : ((turnSpeed - max 100 (motorDeadband + 50) : Int) : ℚ) *
        (remaining / max (target * (2 / 5)) 50) ≤
        ((turnSpeed - max 100 (motorDeadband + 50) : Int) : ℚ) := by
      nlinarith
    have ht := truncInt_mono hle
    rw [truncInt_intCast] at ht
    omega
  · rw [if_neg h]
    exact ⟨hfloor, le_refl _⟩

/-- The ramp value does not decrease when the remaining distance grows. -/
theorem testTurnSpeed_mono (turnSpeed motorDeadband : Int) (target r1 r2 : ℚ)
    (hfloor : max 100 (motorDeadband + 50) ≤ turnSpeed) (h12 : r1 ≤ r2) :
    testTurnSpeed turnSpeed motorDeadband target r1 ≤
      testTurnSpeed turnSpeed motorDeadband target r2 := by
  have hb1 := testTurnSpeed_bounds turnSpeed motorDeadband target r1 hfloor
  have hthr : (0 : ℚ) < max (target * (2 / 5)) 50 := lt_of_lt_of_le (by norm_num) (le_max_right _ _)
  by_cases h2 : r2 < max (target * (2 / 5)) 50
  · have h1 : r1 < max (target * (2 / 5)) 50 := lt_of_le_of_lt h12 h2
    unfold testTurnSpeed
    dsimp only
    rw [if_pos h1, if_pos h2]
    have hk : (0 : ℚ) ≤ ((turnSpeed - max 100 (motorDeadband + 50) : Int) : ℚ) := by
      exact_mod_cast (by omega : (0 : Int) ≤ turnSpeed - max 100 (motorDeadband + 50))
    have hratio : r1 / max (target * (2 / 5)) 50 ≤ r2 / max (target * (2 / 5)) 50 :=
      div_le_div_of_nonneg_right h12 (le_of_lt hthr)
    have ht := truncInt_mono (mul_le_mul_of_nonneg_left hratio hk)
    exact max_le_max (by omega) (le_refl _)
  · have e2 : testTurnSpeed turnSpeed motorDeadband target r2 = turnSpeed := by
      unfold testTurnSpeed
      dsimp only
      rw [if_neg h2]
    rw [e2]
    exact hb1.2

/-- While the turn test is running and not finished, the wheels are
commanded with the ramp value, left backwards and right forwards. -/
theorem Sequencer.handleTestMode_turn (s : Sequencer) (i : LoopInputs)
    (htest : s.currentTestState = TestSubState.TEST_TURN_90)
    (htime : ¬ (ulongSub i.now s.testStartTime > 10000))
    (hgo : max |i.leftDistance| |i.rightDistance| < s.params.turn90Dist) :
    (s.handleTestMode i).motor.leftCommand =
      -testTurnSpeed s.params.avoidTurnSpeed s.params.motorDeadband s.params.turn90Dist
        (s.params.turn90Dist - max |i.leftDistance| |i.rightDistance|) ∧
    (s.handleTestMode i).motor.rightCommand =
      testTurnSpeed s.params.avoidTurnSpeed s.params.motorDeadband s.params.turn90Dist
        (s.params.turn90Dist - max |i.leftDistance| |i.rightDistance|) := by
  unfold Sequencer.handleTestMode
  dsimp only
  rw [if_neg htime]
  unfold Sequencer.testSwitch
  dsimp only
  rw [htest]
  dsimp only
  rw [if_neg (not_le.mpr hgo)]
  exact ⟨rfl, rfl⟩

/-- C29 (test-turn speed ramp): in the turn test, with
`floor = max(100, motorDeadband + 50)` and `avoidTurnSpeed >= floor`, the
commanded wheel speed magnitude `s` (left `-s`, right `+s`) satisfies
`floor <= s <= turnSpeed` for every remaining distance, negative ones included,
equals `turnSpeed` whenever `remaining >= max(0.4 * target, 50)`, and does not
decrease when the remaining distance grows. -/
theorem Sequencer.test_turn_ramp (s : Sequencer)
    (hfloor : max 100 (s.params.motorDeadband + 50) ≤ s.params.avoidTurnSpeed) :
    (∀ i : LoopInputs, s.currentTestState = TestSubState.TEST_TURN_90 →
      ¬ (ulongSub i.now s.testStartTime > 10000) →
      max |i.leftDistance| |i.rightDistance| < s.params.turn90Dist →
      (s.handleTestMode i).motor.leftCommand =
        -testTurnSpeed s.params.avoidTurnSpeed s.params.motorDeadband s.params.turn90Dist
          (s.params.turn90Dist - max |i.leftDistance| |i.rightDistance|) ∧
      (s.handleTestMode i).motor.rightCommand =
        testTurnSpeed s.params.avoidTurnSpeed s.params.motorDeadband s.params.turn90Dist
          (s.params.turn90Dist - max |i.leftDistance| |i.rightDistance|)) ∧
    (∀ remaining : ℚ,
      max 100 (s.params.motorDeadband + 50) ≤
        testTurnSpeed s.params.avoidTurnSpeed s.params.motorDeadband s.params.turn90Dist
          remaining ∧
      testTurnSpeed s.params.avoidTurnSpeed s.params.motorDeadband s.params.turn90Dist
        remaining ≤ s.params.avoidTurnSpeed) ∧
    (∀ remaining : ℚ, max (s.params.turn90Dist * (2 / 5)) 50 ≤ remaining →
      testTurnSpeed s.params.avoidTurnSpeed s.params.motorDeadband s.params.turn90Dist
        remaining = s.params.avoidTurnSpeed) ∧
    (∀ r1 r2 : ℚ, r1 ≤ r2 →
      testTurnSpeed s.params.avoidTurnSpeed s.params.motorDeadband s.params.turn90Dist r1 ≤
        testTurnSpeed s.params.avoidTurnSpeed s.params.motorDeadband s.params.turn90Dist r2) := by
  refine ⟨fun i h1 h2 h3 => s.handleTestMode_turn i h1 h2 h3,
    fun r => testTurnSpeed_bounds _ _ _ r hfloor, fun r hr => ?_,
    fun r1 r2 h12 => testTurnSpeed_mono _ _ _ r1 r2 hfloor h12⟩
  unfold testTurnSpeed
  dsimp only
  rw [if_neg (not_lt.mpr hr)]

theorem Sequencer.test_turn_ramp_witness :
    max 100 (Sequencer.turnTestExample.params.motorDeadband + 50) ≤
      Sequencer.turnTestExample.params.avoidTurnSpeed ∧
    (Sequencer.turnTestExample.handleTestMode LoopInputs.turning).motor.rightCommand =
      testTurnSpeed 120 30 118 (118 - max |(-100 : ℚ)| |(100 : ℚ)|) ∧
    (100 : Int) ≤ testTurnSpeed 120 30 118 (-5) ∧ testTurnSpeed 120 30 118 (-5) ≤ 120 :=
  ⟨by decide,
   ((Sequencer.test_turn_ramp Sequencer.turnTestExample (by decide)).1 LoopInputs.turning rfl
      (by decide) (by decide!)).2,
   ((Sequencer.test_turn_ramp Sequencer.turnTestExample (by decide)).2.1 (-5)).1,
   ((Sequencer.test_turn_ramp Sequencer.turnTestExample (by decide)).2.1 (-5)).2⟩

/-! ### Detection state machine: floor of the stable count (C30) -/

theorem countTrailingFalse_concat (l : List Bool) (b : Bool) :
    countTrailingFalse (l ++ [b]) = if b then 0 else countTrailingFalse l + 1 := by
  unfold countTrailingFalse
  rw [List.foldl_append]
  rfl

theorem countTrailingFalse_ge (k : Nat) :
    ∀ l : List Bool, k ≤ countTrailingFalse l → ∃ pre, l = pre ++ List.replicate k false := by
  induction k with
  | zero => intro l _; exact ⟨l, by simp⟩
  | succ k ih =>
    intro l
    induction l using List.reverseRecOn with
    | nil =>
      intro h
      simp [countTrailingFalse] at h
    | append_singleton l b _ =>
      rw [countTrailingFalse_concat]
      intro h
      cases b with
      | true => simp at h
      | false =>
        simp only [Bool.false_eq_true, if_false] at h
        obtain ⟨pre, hpre⟩ := ih l (by omega)
        refine ⟨pre, ?_⟩
        rw [hpre, List.replicate_succ', List.append_assoc]

theorem ObjectDetector.inObjectStep_stableCount (d : ObjectDetector) (now filteredDistance : Nat)
    (inRange : Bool) :
    (d.inObjectStep now filteredDistance inRange).stableCount =
      if inRange = true then 0 else d.stableCount + 1 := by
  unfold ObjectDetector.inObjectStep
  cases inRange with
  | true => simp
  | false =>
    simp only [Bool.false_eq_true, if_false]
    split_ifs <;> rfl

/-- The counter after a processed tick in state `DETECT_IN_OBJECT`. -/
theorem ObjectDetector.update_inObject_stableCount (d : ObjectDetector) (t : DetectorTick)
    (hin : d.state = DetectionState.DETECT_IN_OBJECT) (hp : d.processes t) :
    (d.update t).stableCount = if d.tickInRange t = true then 0 else d.stableCount + 1 := by
  obtain ⟨_, hto, hready⟩ := hp
  have h1 : ¬ (d.state = DetectionState.DETECT_IDLE ∨ d.state = DetectionState.DETECT_COMPLETED ∨
      d.state = DetectionState.DETECT_FAILED) := by
    rw [hin]; decide
  have hs : (d.sense t).1.state = DetectionState.DETECT_IN_OBJECT := hin
  unfold ObjectDetector.update
  rw [if_neg h1, if_neg hto, if_neg (by simp [hready])]
  dsimp only
  rw [hs]
  dsimp only
  rw [ObjectDetector.inObjectStep_stableCount]
  rfl

theorem ObjectDetector.run_stableCountThreshold (ts : List DetectorTick) :
    ∀ d : ObjectDetector, (d.run ts).stableCountThreshold = d.stableCountThreshold := by
  induction ts with
  | nil => intro d; rfl
  | cons t ts ih =>
    intro d
    show ((d.update t).run ts).stableCountThreshold = _
    rw [ih, d.update_stableCountThreshold]

/-- One `update` keeps the two counter invariants: while waiting the counter
is the number of in-range flags at the end of the trace, in the object it is
the number of out-of-range flags at the end of the trace. -/
theorem ObjectDetector.update_counters (d : ObjectDetector) (t : DetectorTick)
    (pre : List Bool)
    (hw : d.state = DetectionState.DETECT_WAITING → d.stableCount = (countTrailing pre : Int))
    (hi : d.state = DetectionState.DETECT_IN_OBJECT →
      d.stableCount = (countTrailingFalse pre : Int)) :
    ((d.update t).state = DetectionState.DETECT_WAITING →
      (d.update t).stableCount =
        (countTrailing (pre ++ if d.processes t then [d.tickInRange t] else []) : Int)) ∧
    ((d.update t).state = DetectionState.DETECT_IN_OBJECT →
      (d.update t).stableCount =
        (countTrailingFalse (pre ++ if d.processes t then [d.tickInRange t] else []) : Int)) := by
  by_cases hp : d.processes t
  · rw [if_pos hp, countTrailing_concat, countTrailingFalse_concat]
    have hst := d.update_processed_state t hp
    rcases hp.1 with hs | hs
    · rw [if_pos hs] at hst
      have hsc := d.update_waiting_stableCount t hs hp
      have hcnt := hw hs
      cases hb : d.tickInRange t with
      | false =>
        rw [hb] at hst hsc
        simp only [Bool.false_eq_true, false_and, if_false] at hst hsc
        rw [hst, hsc]
        simp
      | true =>
        rw [hb] at hst hsc
        simp only [true_and, if_true] at hst hsc
        by_cases hc : d.stableCount + 1 ≥ d.stableCountThreshold
        · rw [if_pos hc] at hst hsc
          rw [hst, hsc]
          simp
        · rw [if_neg hc] at hst hsc
          rw [hst, hsc, hcnt]
          simp
    · have hnw : ¬ (d.state = DetectionState.DETECT_WAITING) := by rw [hs]; decide
      rw [if_neg hnw] at hst
      have hsc := d.update_inObject_stableCount t hs hp
      have hcnt := hi hs
      cases hb : d.tickInRange t with
      | true =>
        rw [hb] at hst hsc
        simp only [Bool.true_eq_false, false_and, if_false, if_true] at hst hsc
        rw [hst, hsc]
        simp
      | false =>
        rw [hb] at hst hsc
        simp only [true_and, Bool.false_eq_true, if_false] at hst hsc
        by_cases hc : d.stableCount + 1 ≥ d.stableCountThreshold
        · rw [if_pos hc] at hst
          rw [hst]
          simp
        · rw [if_neg hc] at hst
          rw [hst, hsc, hcnt]
          simp
  · rw [if_neg hp, List.append_nil]
    rcases d.update_unprocessed t hp with h | h
    · rw [h]
      exact ⟨hw, hi⟩
    · rw [h]
      constructor
      · intro hf
        have hf2 : DetectionState.DETECT_FAILED = DetectionState.DETECT_WAITING := hf
        exact absurd hf2 (by decide)
      · intro hf
        have hf2 : DetectionState.DETECT_FAILED = DetectionState.DETECT_IN_OBJECT := hf
        exact absurd hf2 (by decide)

/-- The counter invariants hold along every run. -/
theorem ObjectDetector.run_counters (ts : List DetectorTick) :
    ∀ (d : ObjectDetector) (pre : List Bool),
      (d.state = DetectionState.DETECT_WAITING → d.stableCount = (countTrailing pre : Int)) →
      (d.state = DetectionState.DETECT_IN_OBJECT →
        d.stableCount = (countTrailingFalse pre : Int)) →
      ((d.run ts).state = DetectionState.DETECT_WAITING →
        (d.run ts).stableCount = (countTrailing (pre ++ d.inRangeTrace ts) : Int)) ∧
      ((d.run ts).state = DetectionState.DETECT_IN_OBJECT →
        (d.run ts).stableCount = (countTrailingFalse (pre ++ d.inRangeTrace ts) : Int)) := by
  induction ts with
  | nil =>
    intro d pre hw hi
    simp only [ObjectDetector.inRangeTrace, List.append_nil]
    exact ⟨hw, hi⟩
  | cons t ts ih =>
    intro d pre hw hi
    obtain ⟨hw2, hi2⟩ := d.update_counters t pre hw hi
    have h := ih (d.update t) (pre ++ if d.processes t then [d.tickInRange t] else []) hw2 hi2
    rw [List.append_assoc] at h
    exact h

/-- C30 (the debounce count cannot be configured below 5): for every value
`n` passed to `setStableCount`, after the next `startDetection` the threshold
`stableCountThreshold` is `max(n, 5)`; it keeps that value over every run of
`update` calls and over a later `startDetection`; and in every such run a tick
that confirms the entry follows four processed in-range ticks, a tick that
confirms the exit follows four processed out-of-range ticks, so either
confirmation takes at least 5 consecutive ticks. -/
theorem ObjectDetector.stable_count_floor (d : ObjectDetector) (n : Int) (now : Nat)
    (leftDistance rightDistance : ℚ) (baselineDistance threshold : Nat) :
    let d0 := (d.setStableCount n).startDetection now leftDistance rightDistance
      baselineDistance threshold
    d0.stableCountThreshold = max n 5 ∧
    (∀ ts : List DetectorTick, (d0.run ts).stableCountThreshold = max n 5) ∧
    (∀ (ts : List DetectorTick) (now2 : Nat) (left2 right2 : ℚ) (baseline2 threshold2 : Nat),
      ((d0.run ts).startDetection now2 left2 right2 baseline2
        threshold2).stableCountThreshold = max n 5) ∧
    (∀ (ts : List DetectorTick) (t : DetectorTick), (d0.run ts).confirmsEntry t →
      ∃ pre, d0.inRangeTrace ts = pre ++ [true, true, true, true]) ∧
    (∀ (ts : List DetectorTick) (t : DetectorTick), (d0.run ts).confirmsExit t →
      ∃ pre, d0.inRangeTrace ts = pre ++ [false, false, false, false]) := by
  intro d0
  have hthr : d0.stableCountThreshold = max n 5 := by
    show (if n < 5 then 5 else n) = max n 5
    split_ifs with h
    · exact (max_eq_right (le_of_lt h)).symm
    · exact (max_eq_left (not_lt.mp h)).symm
  have hrun : ∀ ts : List DetectorTick, (d0.run ts).stableCountThreshold = max n 5 := by
    intro ts
    rw [ObjectDetector.run_stableCountThreshold, hthr]
  have hinv := fun ts => ObjectDetector.run_counters ts d0 []
    (fun _ => by show (0 : Int) = _; rfl)
    (fun h => by
      have h2 : DetectionState.DETECT_WAITING = DetectionState.DETECT_IN_OBJECT := h
      exact absurd h2 (by decide))
  refine ⟨hthr, hrun, fun ts now2 left2 right2 baseline2 threshold2 => ?_,
    fun ts t hc => ?_, fun ts t hc => ?_⟩
  · show (if (d0.run ts).stableCountThreshold < 5 then 5 else (d0.run ts).stableCountThreshold)
      = max n 5
    rw [hrun ts, if_neg (by
      have := le_max_right n 5
      omega)]
  · obtain ⟨hst, _, _, hge⟩ := hc
    have hcnt := (hinv ts).1 hst
    rw [List.nil_append] at hcnt
    rw [hrun ts, hcnt] at hge
    have h5 := le_max_right n 5
    have h4 : 4 ≤ countTrailing (d0.inRangeTrace ts) := by omega
    exact (countTrailing_ge_iff 4 _).1 h4
  · obtain ⟨hst, _, _, hge⟩ := hc
    have hcnt := (hinv ts).2 hst
    rw [List.nil_append] at hcnt
    rw [hrun ts, hcnt] at hge
    have h5 := le_max_right n 5
    have h4 : 4 ≤ countTrailingFalse (d0.inRangeTrace ts) := by omega
    exact countTrailingFalse_ge 4 _ h4

set_option maxHeartbeats 2000000 in
theorem ObjectDetector.stable_count_floor_witness :
    ((ObjectDetector.construct.setStableCount 3).startDetection 0 0 0 0 300).stableCountThreshold
      = 5 ∧
    (((ObjectDetector.construct.setStableCount 3).startDetection 0 0 0 0 300).run
      [DetectorTick.near 10, DetectorTick.near 20, DetectorTick.near 30,
       DetectorTick.near 40]).confirmsEntry (DetectorTick.near 50) ∧
    ∃ pre, ((ObjectDetector.construct.setStableCount 3).startDetection 0 0 0 0
      300).inRangeTrace
      [DetectorTick.near 10, DetectorTick.near 20, DetectorTick.near 30,
       DetectorTick.near 40] = pre ++ [true, true, true, true] :=
  ⟨(ObjectDetector.stable_count_floor ObjectDetector.construct 3 0 0 0 0 300).1,
   by decide!,
   (ObjectDetector.stable_count_floor ObjectDetector.construct 3 0 0 0 0 300).2.2.2.1
     [DetectorTick.near 10, DetectorTick.near 20, DetectorTick.near 30, DetectorTick.near 40]
     (DetectorTick.near 50) (by decide!)⟩
